import Mathlib

/-!
# Document management portal: visibility, aggregation and download accounting

A shallow embedding of the request handlers of `backend/routes/documents.js`
and `backend/routes/notices.js` over the schemas of `backend/models`.

Conventions of the embedding.

* The database is a record of lists (`Db`); a Mongo query is a Boolean
  predicate on one stored record and `find` is `List.filter`.
* JavaScript `undefined`/`null` is `none`; a department is "unset" when the
  JavaScript value is falsy (`none` or the empty string), which is what the
  handlers test with `!x.department`.
* Dates are milliseconds since the epoch (`Nat`); the request time `now` is
  a parameter (`new Date()` in the handlers).
* `populate(path, 'name email role')` is a lookup in `Db.users` that yields
  `none` when the referenced user no longer exists.
* `.sort({ createdAt: -1 })` and `Array.prototype.sort` are a stable sort by
  creation time, newest first.
* An HTTP answer is a `Response`; a handler that writes returns the new
  database as well.
* Both schemas set `timestamps: true`: a record is created with `createdAt`
  and `updatedAt` at the time of the request, and a `save()` that changes a
  record sets its `updatedAt` to the time of the request.
* `create` and `save()` run the validators of the schema on the whole record
  and throw when one fails; the `catch` block of the handler answers 500.
* An id of a request is cast to an ObjectId before it is looked up
  (`findById`): `isObjectId` says that the cast succeeds, and the stored ids
  are compared with the string form of the ObjectId (`objectIdString`).
* What the JavaScript engine and the store do with a text is a parameter of
  the handlers: `rx` (the store's regular-expression match), `isRegExp` (the
  text is a regular expression) and `toLowerCase`.
-/

namespace DMS

/-! ## Entity store -/

/-- A user record; `req.user` of an authenticated request is one of these. -/
structure User where
  _id : String
  name : String
  email : String
  role : String
  department : Option String
  isActive : Bool
deriving DecidableEq, Repr

/-- What `populate(path, 'name email role')` leaves of a referenced user. -/
structure Creator where
  _id : String
  name : String
  email : String
  role : String
deriving DecidableEq, Repr

/-- A record of `models/Document.js`. -/
structure Document where
  _id : String
  title : String
  description : Option String
  filename : String
  originalName : String
  path : String
  mimetype : String
  size : Nat
  uploadedBy : String
  category : String
  accessLevel : List String
  department : Option String
  tags : List String
  downloadCount : Nat
  isActive : Bool
  createdAt : Nat
  updatedAt : Nat
deriving DecidableEq, Repr

/-- An element of `attachments` in `models/Notice.js`. The routes of the
notices push a `storedFilename` with each uploaded file; the schema has no
such path, so the value is not stored and a loaded attachment has none. -/
structure Attachment where
  filename : String
  path : String
  mimetype : String
  size : Nat
  downloadCount : Option Nat
deriving DecidableEq, Repr

/-- A record of `models/Notice.js`. -/
structure Notice where
  _id : String
  title : String
  content : String
  category : String
  postedBy : String
  targetAudience : List String
  attachments : List Attachment
  isActive : Bool
  expiryDate : Option Nat
  department : Option String
  createdAt : Nat
  updatedAt : Nat
deriving DecidableEq, Repr

/-- The durable state: the three collections and the paths present on disk. -/
structure Db where
  users : List User
  documents : List Document
  notices : List Notice
  files : List String
deriving DecidableEq, Repr

/-! ## JavaScript and Mongoose primitives -/

/-- Truthiness of an optional string: `undefined`, `null` and `''` are falsy. -/
def truthy : Option String → Bool
  | none => false
  | some s => s != ""

/-- The lookup behind `populate(path, 'name email role')`. -/
def populate (users : List User) (id : String) : Option Creator :=
  (users.find? (fun u => u._id == id)).map
    (fun u => { _id := u._id, name := u.name, email := u.email, role := u.role })

/-- The string form of the ObjectId that a string of hexadecimal digits is
cast to: the same digits, with the letters in lower case. A stored `_id` is
kept in this form. -/
def objectIdString (s : String) : String :=
  String.mk (s.toList.map Char.toLower)

/-- The stored document with the given id (`Document.findById` on an id the
driver can cast; the handlers test `isObjectId`, the driver's cast of a string
to an ObjectId, before they look an id up, and answer 500 when it fails). The
stored ids are compared with the ObjectId the given id is cast to. -/
def findDocument (db : Db) (id : String) : Option Document :=
  db.documents.find? (fun d => d._id == objectIdString id)

/-- The stored notice with the given id (`Notice.findById`). -/
def findNotice (db : Db) (id : String) : Option Notice :=
  db.notices.find? (fun n => n._id == objectIdString id)

/-- The function `fs.existsSync`. -/
def existsSync (db : Db) (path : String) : Bool :=
  db.files.contains path

/-- Relative index of `Array.prototype.slice`: negative counts from the end. -/
def relIndex (len : Nat) (i : Int) : Nat :=
  if i < 0 then (len + i).toNat else min i.toNat len

/-- The method `Array.prototype.slice(start, stop)` on integer arguments. -/
def jsSlice {α : Type} (l : List α) (start stop : Int) : List α :=
  (l.drop (relIndex l.length start)).take
    (relIndex l.length stop - relIndex l.length start)

/-- Stable sort by a creation time, newest first. -/
def sortNewestFirst {α : Type} (createdAt : α → Nat) (l : List α) : List α :=
  l.insertionSort (fun a b => createdAt b ≤ createdAt a)

/-- Substring test on character lists. -/
def includesChars : List Char → List Char → Bool
  | [], needle => needle.isEmpty
  | c :: hay, needle => needle.isPrefixOf (c :: hay) || includesChars hay needle

/-- The test `hay.toLowerCase().includes(needle.toLowerCase())`. The method
`String.prototype.toLowerCase` is the one of the JavaScript engine, which is
not part of the repository: it is the parameter `toLowerCase`. -/
def includesLower (toLowerCase : String → String) (hay needle : String) : Bool :=
  includesChars (toLowerCase hay).toList (toLowerCase needle).toList

/-- White space removed by `trim`, and skipped by `parseInt` at the start of
its argument. -/
def isWhiteSpace (c : Char) : Bool :=
  c == ' ' || c == '\t' || c == '\n' || c == '\r' || c.toNat == 11 || c.toNat == 12
    || c.toNat == 160 || c.toNat == 65279 || c.toNat == 8232 || c.toNat == 8233
    || c.toNat == 5760 || (8192 ≤ c.toNat && c.toNat ≤ 8202) || c.toNat == 8239
    || c.toNat == 8287 || c.toNat == 12288

/-- The setter of `trim: true`: white space is removed at both ends. Mongoose
applies it to a value that is stored and to a value a query compares with. -/
def jsTrim (s : String) : String :=
  String.mk ((s.toList.dropWhile isWhiteSpace).reverse.dropWhile isWhiteSpace).reverse

/-- The value of `x || y` for an optional string `x`. -/
def orElse (x : Option String) (y : String) : String :=
  if truthy x then x.getD "" else y

/-! ## Listing documents: `router.get('/')` of `routes/documents.js` -/

/-- The query string of the document listing. -/
structure DocumentFilters where
  category : Option String
  department : Option String
  search : Option String
  page : Int
  limit : Int
deriving DecidableEq, Repr

/-- The disjunction `{ accessLevel: req.user.role }` or `{ accessLevel: 'all' }`. -/
def accessLevelMatches (actor : User) (d : Document) : Bool :=
  d.accessLevel.contains actor.role || d.accessLevel.contains "all"

/-- The search disjunction over title, description and tags; `rx pattern text`
is the store's case-insensitive regular-expression match, which is not part
of the repository. -/
def searchMatches (rx : String → String → Bool) (search : String) (d : Document) : Bool :=
  rx search d.title
    || (match d.description with
        | some t => rx search t
        | none => false)
    || d.tags.any (rx search)

/-- The Mongo query built in lines 15 to 52, as a predicate on one document.
The value of the department filter is cast by the schema when the query runs,
so it is compared after `trim`. -/
def documentQuery (rx : String → String → Bool) (actor : User) (f : DocumentFilters)
    (d : Document) : Bool :=
  d.isActive
    && accessLevelMatches actor d
    && (if truthy f.category then some d.category == f.category else true)
    && (if actor.role == "admin" && truthy f.department then
          d.department == f.department.map jsTrim
        else true)
    && (if truthy f.search then searchMatches rx (f.search.getD "") d else true)

/-- The callback of `documents.filter` in lines 61 to 81. -/
def documentCreatorFilter (actor : User) (creator : Option Creator) (d : Document) : Bool :=
  match creator with
  | none => false
  | some c =>
    if c.role == "admin" then true
    else if c.role == "faculty" then
      if !truthy d.department || !truthy actor.department then true
      else d.department == actor.department
    else true

/-- The array `documents` at line 84: found, sorted, and filtered by creator
role for student and faculty actors. -/
def visibleDocuments (rx : String → String → Bool) (actor : User) (f : DocumentFilters)
    (db : Db) : List Document :=
  let documents :=
    sortNewestFirst (fun d => d.createdAt) (db.documents.filter (documentQuery rx actor f))
  if actor.role == "student" || actor.role == "faculty" then
    documents.filter (fun d => documentCreatorFilter actor (populate db.users d.uploadedBy) d)
  else documents

/-- The table `categoryMap` with its fallback `|| 'other'`. -/
def categoryMap (c : String) : String :=
  if c == "academic" then "academic"
  else if c == "general" then "other"
  else if c == "event" then "other"
  else if c == "important" then "administrative"
  else "other"

/-- The expiry condition: no expiry date, or one not before the request time. -/
def notExpired (now : Nat) (n : Notice) : Bool :=
  match n.expiryDate with
  | none => true
  | some e => now ≤ e

/-- The test `targetAudience: { $in: [req.user.role, 'all'] }`. -/
def audienceMatches (actor : User) (n : Notice) : Bool :=
  n.targetAudience.any (fun a => a == actor.role || a == "all")

/-- The query `noticeQuery` of lines 99 to 120, as a predicate on one notice. -/
def noticeQuery (now : Nat) (actor : User) (n : Notice) : Bool :=
  n.isActive
    && (if actor.role == "admin" then true else audienceMatches actor n)
    && !n.attachments.isEmpty
    && notExpired now n

/-- The callback of `notices.filter` in lines 131 to 151. -/
def projectionCreatorFilter (actor : User) (creator : Option Creator) (n : Notice) : Bool :=
  match creator with
  | none => false
  | some c =>
    if c.role == "admin" then true
    else if c.role == "faculty" then
      if !truthy n.department || !truthy actor.department then true
      else n.department == actor.department
    else true

/-- The notices whose attachments are projected (the array `notices` at
line 154). -/
def projectedNotices (now : Nat) (actor : User) (db : Db) : List Notice :=
  let notices := sortNewestFirst (fun n => n.createdAt) (db.notices.filter (noticeQuery now actor))
  if actor.role == "student" || actor.role == "faculty" then
    notices.filter (fun n => projectionCreatorFilter actor (populate db.users n.postedBy) n)
  else notices

/-- A document-shaped view of one notice attachment (lines 176 to 197). -/
structure Projection where
  _id : String
  title : String
  description : String
  filename : String
  originalName : String
  path : String
  mimetype : String
  size : Nat
  uploadedBy : Option Creator
  category : String
  accessLevel : List String
  department : Option String
  tags : List String
  downloadCount : Nat
  isActive : Bool
  isNoticeAttachment : Bool
  noticeId : String
  attachmentIndex : Nat
  createdAt : Nat
  updatedAt : Nat
deriving DecidableEq, Repr

/-- The object pushed onto `noticeAttachments` for attachment `index`. Its
`filename` is `attachment.storedFilename || attachment.filename`, where
`attachment.storedFilename` is `undefined` for every loaded attachment. -/
def projectAttachment (n : Notice) (creator : Option Creator) (index : Nat)
    (a : Attachment) : Projection :=
  { _id := "notice_" ++ n._id ++ "_" ++ toString index
    title := a.filename
    description := "Attached to notice: " ++ n.title
    filename := a.filename
    originalName := a.filename
    path := a.path
    mimetype := a.mimetype
    size := a.size
    uploadedBy := creator
    category := categoryMap n.category
    accessLevel := ["student"]
    department := if truthy n.department then n.department else none
    tags := [n.category]
    downloadCount := a.downloadCount.getD 0
    isActive := true
    isNoticeAttachment := true
    noticeId := n._id
    attachmentIndex := index
    createdAt := n.createdAt
    updatedAt := n.updatedAt }

/-- The search and category tests applied to one attachment (lines 159 to 174). -/
def projectionPasses (toLowerCase : String → String) (f : DocumentFilters) (n : Notice)
    (a : Attachment) : Bool :=
  (if truthy f.search then
      includesLower toLowerCase n.title (f.search.getD "")
        || includesLower toLowerCase a.filename (f.search.getD "")
    else true)
    && (if truthy f.category then some (categoryMap n.category) == f.category else true)

/-- The projections of one notice, in index order. -/
def projectNotice (toLowerCase : String → String) (f : DocumentFilters) (users : List User)
    (n : Notice) : List Projection :=
  (n.attachments.enum.filter (fun ia => projectionPasses toLowerCase f n ia.2)).map
    (fun ia => projectAttachment n (populate users n.postedBy) ia.1 ia.2)

/-- The array `noticeAttachments` at line 203. -/
def noticeAttachments (toLowerCase : String → String) (now : Nat) (actor : User)
    (f : DocumentFilters) (db : Db) : List Projection :=
  if actor.role == "student" || actor.role == "faculty" || actor.role == "admin" then
    (projectedNotices now actor db).flatMap (projectNotice toLowerCase f db.users)
  else []

/-- An element of the returned list: a populated document or a projection. -/
inductive Listed where
  | document (d : Document) (uploadedBy : Option Creator)
  | attachment (p : Projection)
deriving DecidableEq, Repr

/-- The field `createdAt` of a listed element. -/
def Listed.createdAt : Listed → Nat
  | .document d _ => d.createdAt
  | .attachment p => p.createdAt

/-- The body of the success answer of the document listing. -/
structure DocumentList where
  count : Nat
  total : Nat
  documents : List Listed
deriving DecidableEq, Repr

/-- The body of the answer 200 of the handler `router.get('/')` of
`routes/documents.js` (lines 54 to 219). -/
def listDocuments (rx : String → String → Bool) (toLowerCase : String → String) (now : Nat)
    (actor : User) (f : DocumentFilters) (db : Db) : DocumentList :=
  let documents := visibleDocuments rx actor f db
  let total := documents.length
  let paginatedDocuments :=
    (jsSlice documents ((f.page - 1) * f.limit) (f.page * f.limit)).map
      (fun d => Listed.document d (populate db.users d.uploadedBy))
  let attachments := (noticeAttachments toLowerCase now actor f db).map Listed.attachment
  let allDocuments := sortNewestFirst Listed.createdAt (paginatedDocuments ++ attachments)
  let finalDocuments :=
    if attachments.length > 0 then jsSlice allDocuments 0 f.limit else paginatedDocuments
  { count := finalDocuments.length
    total := total + attachments.length
    documents := finalDocuments }

/-! ## Listing notices: `router.get('/')` of `routes/notices.js` -/

/-- The query string of the notice listing (`targetAudience` is read from it
but never used). -/
structure NoticeFilters where
  category : Option String
  page : Int
  limit : Int
deriving DecidableEq, Repr

/-- The Mongo query built in lines 137 to 195, as a predicate on one notice. -/
def noticeListQuery (now : Nat) (actor : User) (f : NoticeFilters) (n : Notice) : Bool :=
  n.isActive
    && (if truthy f.category then some n.category == f.category else true)
    && (if actor.role == "admin" then notExpired now n
        else if actor.role == "student" then audienceMatches actor n && notExpired now n
        else if actor.role == "faculty" then
          (n.postedBy == actor._id || audienceMatches actor n) && notExpired now n
        else true)

/-- The callback of `notices.filter` in lines 204 to 229. -/
def noticeCreatorFilter (actor : User) (creator : Option Creator) (n : Notice) : Bool :=
  match creator with
  | none => false
  | some c =>
    if c.role == "admin" then
      if n.targetAudience.contains "all" then true else true
    else if c.role == "faculty" then
      if !truthy n.department || !truthy actor.department then true
      else n.department == actor.department
    else true

/-- The array `notices` at line 233: found, sorted, and filtered by creator
role for student and faculty actors. -/
def visibleNotices (now : Nat) (actor : User) (f : NoticeFilters) (db : Db) : List Notice :=
  let notices :=
    sortNewestFirst (fun n => n.createdAt) (db.notices.filter (noticeListQuery now actor f))
  if actor.role == "student" || actor.role == "faculty" then
    notices.filter (fun n => noticeCreatorFilter actor (populate db.users n.postedBy) n)
  else notices

/-- The body of the success answer of the notice listing. -/
structure NoticeList where
  count : Nat
  total : Nat
  notices : List (Notice × Option Creator)
deriving DecidableEq, Repr

/-- The handler `router.get('/')` of `routes/notices.js`. -/
def listNotices (now : Nat) (actor : User) (f : NoticeFilters) (db : Db) : NoticeList :=
  let notices := visibleNotices now actor f db
  let paginatedNotices :=
    (jsSlice notices ((f.page - 1) * f.limit) (f.page * f.limit)).map
      (fun n => (n, populate db.users n.postedBy))
  { count := paginatedNotices.length
    total := notices.length
    notices := paginatedNotices }

/-! ## Single-item handlers -/

/-- The answer of a handler, by HTTP status: 200 with the body of the document
listing, 200 or 201 with a document, 200 or 201 with a notice, a file
download, 200 after a deletion, 400, 404, 403, or 500 from the `catch` block. -/
inductive Response where
  | documents (body : DocumentList)
  | document (d : Document) (uploadedBy : Option Creator)
  | notice (n : Notice) (postedBy : Option Creator)
  | download (path : String) (name : String)
  | deleted
  | badRequest
  | notFound
  | forbidden
  | serverError
deriving DecidableEq, Repr

/-- The handler `router.get('/')` of `routes/documents.js`. A search text is
used as a regular expression (`$regex: search`, `new RegExp(search, 'i')`,
lines 33 to 52): `isRegExp search` says that the engine and the store accept
it as one; when they do not, building or running the query throws and the
`catch` block answers 500. -/
def getDocuments (isRegExp : String → Bool) (rx : String → String → Bool)
    (toLowerCase : String → String) (now : Nat) (actor : User) (f : DocumentFilters)
    (db : Db) : Response :=
  if truthy f.search && !isRegExp (f.search.getD "") then .serverError
  else .documents (listDocuments rx toLowerCase now actor f db)

/-- The handler `router.get('/:id')` of `routes/documents.js`. -/
def getDocument (isObjectId : String → Bool) (actor : User) (id : String) (db : Db) :
    Response :=
  if !isObjectId id then .serverError
  else match findDocument db id with
  | none => .notFound
  | some document =>
    if !document.accessLevel.contains actor.role && !document.accessLevel.contains "all" then
      .forbidden
    else .document document (populate db.users document.uploadedBy)

/-- The pieces of `s.split('_')`, on characters; `cur` is the piece being read. -/
def splitUnderscore : List Char → List Char → List (List Char)
  | [], cur => [cur.reverse]
  | c :: cs, cur =>
    if c == '_' then cur.reverse :: splitUnderscore cs [] else splitUnderscore cs (c :: cur)

/-- The value of a character as a digit in the given radix, if it is one. -/
def digitValue (radix : Nat) (c : Char) : Option Nat :=
  let v :=
    if '0' ≤ c ∧ c ≤ '9' then some (c.toNat - 48)
    else if 'a' ≤ c ∧ c ≤ 'z' then some (c.toNat - 87)
    else if 'A' ≤ c ∧ c ≤ 'Z' then some (c.toNat - 55)
    else none
  v.bind (fun n => if n < radix then some n else none)

/-- Reads the longest run of digits; `acc` is `none` until a digit was read. -/
def readDigits (radix : Nat) : List Char → Option Nat → Option Nat
  | [], acc => acc
  | c :: cs, acc =>
    match digitValue radix c with
    | none => acc
    | some v => readDigits radix cs (some (acc.getD 0 * radix + v))

/-- Strips a `0x` or `0X` prefix and picks the radix. -/
def readRadix : List Char → Nat × List Char
  | '0' :: 'x' :: cs => (16, cs)
  | '0' :: 'X' :: cs => (16, cs)
  | cs => (10, cs)

/-- The function `parseInt(s)` with no radix argument, on integers within the
exact range of a JavaScript number; `none` is `NaN`. -/
def parseInt (s : List Char) : Option Int :=
  let s := s.dropWhile isWhiteSpace
  let (negative, s) :=
    match s with
    | '-' :: cs => (true, cs)
    | '+' :: cs => (false, cs)
    | cs => (false, cs)
  let (radix, s) := readRadix s
  (readDigits radix s none).map (fun n => if negative then - (n : Int) else (n : Int))

/-- The element `xs[i]` for a possibly `NaN` or negative index, with the
position it was found at. -/
def jsIndex {α : Type} (xs : List α) (i : Option Int) : Option (Nat × α) :=
  match i with
  | some (Int.ofNat k) => xs[k]?.map (fun a => (k, a))
  | _ => none

/-- The validators of `models/Document.js`, which `Document.create` and
`document.save()` run on the whole record before they write: the required
strings are non-empty, `category` and every element of `accessLevel` is in its
`enum`. -/
def validDocument (d : Document) : Bool :=
  d.title != "" && d.filename != "" && d.originalName != "" && d.path != ""
    && d.mimetype != "" && d.uploadedBy != ""
    && ["academic", "administrative", "syllabus", "form", "other"].contains d.category
    && d.accessLevel.all (fun a => ["admin", "faculty", "student"].contains a)

/-- The validators of `models/Notice.js`, which `Notice.create` and
`notice.save()` run on the whole record before they write: the required
strings are non-empty, `category` and every element of `targetAudience` is in
its `enum`. -/
def validNotice (n : Notice) : Bool :=
  n.title != "" && n.content != "" && n.postedBy != ""
    && ["general", "academic", "event", "important"].contains n.category
    && n.targetAudience.all (fun a => ["admin", "faculty", "student", "all"].contains a)

/-- The write of `notice.save()`: the stored notice of that id is replaced. -/
def saveNotice (db : Db) (n : Notice) : Db :=
  { db with notices := db.notices.map (fun m => if m._id == n._id then n else m) }

/-- The write of `document.save()`: the stored document of that id is replaced. -/
def saveDocument (db : Db) (d : Document) : Db :=
  { db with documents := db.documents.map (fun e => if e._id == d._id then d else e) }

/-- The notice with the counter of attachment `index` raised by one, a missing
counter counting as zero (lines 325 to 329). -/
def bumpAttachment (n : Notice) (index : Nat) (a : Attachment) : Notice :=
  let bumped : Attachment := { a with downloadCount := some (a.downloadCount.getD 0 + 1) }
  { n with attachments := n.attachments.set index bumped }

/-- The authorization block of the attachment branch (lines 292 to 314):
`true` when the handler answers 403. -/
def attachmentDownloadDenied (actor : User) (n : Notice) (creator : Option Creator) : Bool :=
  if actor.role != "admin" && (actor.role == "student" || actor.role == "faculty") then
    if actor.role == "student" && !n.targetAudience.contains "all"
        && !n.targetAudience.contains "student" then
      true
    else
      match creator with
      | some c =>
        c.role == "faculty" && truthy n.department && truthy actor.department
          && n.department != actor.department
      | none => false
  else false

/-- The authorization checks of the regular branch (lines 355 to 380): `true`
when the handler answers 403. -/
def documentDownloadDenied (actor : User) (d : Document) (creator : Option Creator) : Bool :=
  if !d.accessLevel.contains actor.role && !d.accessLevel.contains "all" then true
  else if actor.role == "student" || actor.role == "faculty" then
    match creator with
    | some c =>
      c.role == "faculty" && truthy d.department && truthy actor.department
        && d.department != actor.department
    | none => false
  else false

/-- The regular branch of the download handler (lines 344 to 401). The call
`document.save()` validates the record it has loaded and throws when a
validator fails, which the `catch` block answers. -/
def downloadRegular (isObjectId : String → Bool) (now : Nat) (actor : User) (id : String)
    (db : Db) : Response × Db :=
  if !isObjectId id then (.serverError, db)
  else match findDocument db id with
  | none => (.notFound, db)
  | some document =>
    if documentDownloadDenied actor document (populate db.users document.uploadedBy) then
      (.forbidden, db)
    else if !existsSync db document.path then (.notFound, db)
    else if !validDocument { document with downloadCount := document.downloadCount + 1 } then
      (.serverError, db)
    else
      (.download document.path document.originalName,
        saveDocument db
          { document with downloadCount := document.downloadCount + 1, updatedAt := now })

/-- The handler `router.get('/:id/download')` of `routes/documents.js`. In the
attachment branch `notice.save()` validates the notice it has loaded. -/
def downloadDocument (isObjectId : String → Bool) (now : Nat) (actor : User) (id : String)
    (db : Db) : Response × Db :=
  if "notice_".toList.isPrefixOf id.toList then
    match splitUnderscore id.toList [] with
    | [_, noticeId, index] =>
      let attachmentIndex := parseInt index
      if !isObjectId (String.mk noticeId) then (.serverError, db)
      else match findNotice db (String.mk noticeId) with
      | none => (.notFound, db)
      | some notice =>
        match jsIndex notice.attachments attachmentIndex with
        | none => (.notFound, db)
        | some (k, attachment) =>
          if attachmentDownloadDenied actor notice (populate db.users notice.postedBy) then
            (.forbidden, db)
          else if !existsSync db attachment.path then (.notFound, db)
          else if !validNotice (bumpAttachment notice k attachment) then (.serverError, db)
          else
            (.download attachment.path attachment.filename,
              saveNotice db { bumpAttachment notice k attachment with updatedAt := now })
    | _ => downloadRegular isObjectId now actor id db
  else downloadRegular isObjectId now actor id db

/-- The handler `router.get('/:id')` of `routes/notices.js`; reading `_id` of
a creator that no longer exists throws, which the `catch` block answers. -/
def getNotice (isObjectId : String → Bool) (actor : User) (id : String) (db : Db) :
    Response :=
  if !isObjectId id then .serverError
  else match findNotice db id with
  | none => .notFound
  | some notice =>
    match populate db.users notice.postedBy with
    | none => .serverError
    | some creator =>
      let isCreator := creator._id == actor._id
      if !isCreator && (!notice.targetAudience.contains "all"
          && !notice.targetAudience.contains actor.role) then
        .forbidden
      else if !isCreator && (actor.role == "student" || actor.role == "faculty") then
        if creator.role == "admin" then .notice notice (some creator)
        else if creator.role == "faculty" then
          if truthy notice.department && truthy actor.department
              && notice.department != actor.department then
            .forbidden
          else .notice notice (some creator)
        else .notice notice (some creator)
      else .notice notice (some creator)

/-- The authorization block of lines 275 to 308 of `routes/notices.js`:
`true` when the handler answers 403. -/
def noticeAttachmentDenied (actor : User) (n : Notice) (creator : Creator) : Bool :=
  let isCreator := creator._id == actor._id
  if actor.role == "student" || actor.role == "faculty" then
    if !isCreator then
      if actor.role == "student" && !n.targetAudience.contains "all"
          && !n.targetAudience.contains "student" then
        true
      else if actor.role == "faculty" && !n.targetAudience.contains "all"
          && !n.targetAudience.contains "faculty" then
        true
      else
        creator.role == "faculty" && truthy n.department && truthy actor.department
          && n.department != actor.department
    else false
  else false

/-- The handler `router.get('/:noticeId/attachments/:attachmentIndex')` of
`routes/notices.js`. It contains no write: the database is returned as it
was in every branch. Reading `_id` of a creator that no longer exists throws,
which the `catch` block answers. -/
def downloadAttachment (isObjectId : String → Bool) (actor : User) (noticeId : String)
    (attachmentIndex : String) (db : Db) : Response × Db :=
  if !isObjectId noticeId then (.serverError, db)
  else match findNotice db noticeId with
  | none => (.notFound, db)
  | some notice =>
    match jsIndex notice.attachments (parseInt attachmentIndex.toList) with
    | none => (.notFound, db)
    | some (_, attachment) =>
      match populate db.users notice.postedBy with
      | none => (.serverError, db)
      | some creator =>
        if noticeAttachmentDenied actor notice creator then (.forbidden, db)
        else if !existsSync db attachment.path then (.notFound, db)
        else (.download attachment.path attachment.filename, db)

/-! ## Writing documents: `router.post('/')` and `router.put('/:id')` of
`routes/documents.js` -/

/-- Modelled from the spec: the middleware `authorize(...roles)` of
`middleware/auth`, which is not among the sources. Documents and notices are
created and changed by faculty and admin only: a request passes when the
actor's role is one of the listed roles and is answered 403 otherwise. -/
def authorize (roles : List String) (actor : User) : Bool :=
  roles.contains actor.role

/-- The pieces of `s.split(',')`, on characters; `cur` is the piece being read. -/
def splitComma : List Char → List Char → List (List Char)
  | [], cur => [cur.reverse]
  | c :: cs, cur =>
    if c == ',' then cur.reverse :: splitComma cs [] else splitComma cs (c :: cur)

/-- The call `s.split(',')`. -/
def jsSplitComma (s : String) : List String :=
  (splitComma s.toList []).map String.mk

/-- A file as the upload middleware hands it over (`req.file`, an element of
`req.files`); the middleware has stored it under `path`. -/
structure UploadedFile where
  originalname : String
  filename : String
  path : String
  mimetype : String
  size : Nat
deriving DecidableEq, Repr

/-- The string fields of the body of a document upload or update. -/
structure DocumentBody where
  title : Option String
  description : Option String
  category : Option String
  accessLevel : Option String
  department : Option String
  tags : Option String
deriving DecidableEq, Repr

/-- The effect of the upload middleware: the file is on disk under its path. -/
def storeFiles (db : Db) (files : List UploadedFile) : Db :=
  { db with files := db.files ++ files.map (fun f => f.path) }

/-- The record handed to `Document.create` (lines 422 to 435), with the
defaults and timestamps of the schema. The id `newId` is the one the store
assigns. -/
def newDocument (now : Nat) (newId : String) (actor : User) (file : UploadedFile)
    (body : DocumentBody) : Document :=
  { _id := newId
    title := jsTrim (body.title.getD "")
    description := body.description.map jsTrim
    filename := file.filename
    originalName := file.originalname
    path := file.path
    mimetype := file.mimetype
    size := file.size
    uploadedBy := actor._id
    category := orElse body.category "other"
    accessLevel :=
      if truthy body.accessLevel then jsSplitComma (body.accessLevel.getD "") else ["student"]
    department := body.department.map jsTrim
    tags := if truthy body.tags then jsSplitComma (body.tags.getD "") else []
    downloadCount := 0
    isActive := true
    createdAt := now
    updatedAt := now }

/-- The handler `router.post('/')` of `routes/documents.js`. A record that
fails a validator, or an id that is taken (a duplicate key), makes
`Document.create` throw. -/
def uploadDocument (now : Nat) (newId : String) (actor : User) (file : Option UploadedFile)
    (body : DocumentBody) (db : Db) : Response × Db :=
  if !authorize ["admin", "faculty"] actor then (.forbidden, db)
  else match file with
  | none => (.badRequest, db)
  | some file =>
    if !validDocument (newDocument now newId actor file body)
        || db.documents.any (fun e => e._id == newId) then
      (.serverError, storeFiles db [file])
    else
      (.document (newDocument now newId actor file body) (populate db.users actor._id),
        { storeFiles db [file] with
          documents := db.documents ++ [newDocument now newId actor file body] })

/-- The assignments of lines 475 to 480. -/
def applyDocumentBody (body : DocumentBody) (document : Document) : Document :=
  { document with
    title := if truthy body.title then jsTrim (body.title.getD "") else document.title
    description :=
      if truthy body.description then body.description.map jsTrim else document.description
    category := orElse body.category document.category
    accessLevel :=
      if truthy body.accessLevel then jsSplitComma (body.accessLevel.getD "")
      else document.accessLevel
    department :=
      if truthy body.department then body.department.map jsTrim else document.department
    tags := if truthy body.tags then jsSplitComma (body.tags.getD "") else document.tags }

/-- The handler `router.put('/:id')` of `routes/documents.js`. -/
def updateDocument (isObjectId : String → Bool) (now : Nat) (actor : User) (id : String)
    (body : DocumentBody) (db : Db) : Response × Db :=
  if !authorize ["admin", "faculty"] actor then (.forbidden, db)
  else if !isObjectId id then (.serverError, db)
  else match findDocument db id with
  | none => (.notFound, db)
  | some document =>
    if actor.role == "faculty" && document.uploadedBy != actor._id then (.forbidden, db)
    else
      let updated := applyDocumentBody body document
      if !validDocument updated then (.serverError, db)
      else if updated == document then
        (.document document (populate db.users document.uploadedBy), db)
      else
        (.document { updated with updatedAt := now } (populate db.users document.uploadedBy),
          saveDocument db { updated with updatedAt := now })

/-- A request to one of the three handlers that write documents. -/
inductive DocumentOp where
  | upload (now : Nat) (newId : String) (actor : User) (file : Option UploadedFile)
      (body : DocumentBody)
  | update (now : Nat) (actor : User) (id : String) (body : DocumentBody)
  | download (now : Nat) (actor : User) (id : String)
deriving DecidableEq, Repr

/-- The database after one request. -/
def applyOp (isObjectId : String → Bool) (db : Db) : DocumentOp → Db
  | .upload now newId actor file body => (uploadDocument now newId actor file body db).2
  | .update now actor id body => (updateDocument isObjectId now actor id body db).2
  | .download now actor id => (downloadDocument isObjectId now actor id db).2

/-- The database after a sequence of requests, handled one after the other. -/
def runOps (isObjectId : String → Bool) (db : Db) (ops : List DocumentOp) : Db :=
  ops.foldl (applyOp isObjectId) db

/-! ## Updating a notice: `router.put('/:id')` of `routes/notices.js` -/

/-- The body of a notice update. `removeAttachments` is the parsed field:
`none` when it is missing, blank, not JSON, not an array or an empty array,
and the integers of the array otherwise. `expiryDate` is the date the field
is cast to. -/
structure NoticeBody where
  title : Option String
  content : Option String
  category : Option String
  targetAudience : Option String
  expiryDate : Option Nat
  removeAttachments : Option (List Int)
  department : Option String
deriving DecidableEq, Repr

/-- The call `indicesToRemove.sort((a, b) => b - a)`: a stable sort, largest
first. -/
def sortDescending (l : List Int) : List Int :=
  l.insertionSort (fun a b => b ≤ a)

/-- The deletion of the stored file of a removed attachment (lines 487 to
494): nothing happens when the path is empty or not on disk. -/
def unlinkAttachment (files : List String) (a : Option Attachment) : List String :=
  match a with
  | none => files
  | some a => if a.path != "" && files.contains a.path then files.filter (fun p => p != a.path)
    else files

/-- One round of the removal loop (lines 484 to 497) on the attachment list
and the files on disk. -/
def removeStep (st : List Attachment × List String) (index : Int) :
    List Attachment × List String :=
  if 0 ≤ index ∧ index < (st.1.length : Int) then
    (st.1.eraseIdx index.toNat, unlinkAttachment st.2 st.1[index.toNat]?)
  else st

/-- The removal of lines 481 to 498: the indices are sorted, largest first,
and removed one after the other. -/
def removeAttachments (attachments : List Attachment) (files : List String)
    (indicesToRemove : List Int) : List Attachment × List String :=
  (sortDescending indicesToRemove).foldl removeStep (attachments, files)

/-- The sub-document pushed for an uploaded file (lines 507 to 513): the
schema has no `storedFilename` and gives `downloadCount` its default. -/
def newAttachment (file : UploadedFile) : Attachment :=
  { filename := file.originalname, path := file.path,
    mimetype := file.mimetype, size := file.size, downloadCount := some 0 }

/-- The assignments of lines 517 to 529. -/
def applyNoticeBody (actor : User) (body : NoticeBody) (notice : Notice) : Notice :=
  { notice with
    title := if truthy body.title then jsTrim (body.title.getD "") else notice.title
    content := orElse body.content notice.content
    category := orElse body.category notice.category
    targetAudience :=
      if truthy body.targetAudience then jsSplitComma (body.targetAudience.getD "")
      else notice.targetAudience
    expiryDate := if body.expiryDate.isSome then body.expiryDate else notice.expiryDate
    department :=
      if actor.role == "admin" && body.department.isSome then
        (if truthy body.department then body.department.map jsTrim else none)
      else if actor.role == "faculty" && !truthy notice.department then
        (if truthy actor.department then actor.department.map jsTrim else none)
      else notice.department }

/-- The handler `router.put('/:id')` of `routes/notices.js`. The files of
`files` are on disk when the handler starts; files of removed attachments are
deleted before the notice is saved. -/
def updateNotice (isObjectId : String → Bool) (now : Nat) (actor : User) (id : String)
    (body : NoticeBody) (files : List UploadedFile) (db : Db) : Response × Db :=
  if !authorize ["admin", "faculty"] actor then (.forbidden, db)
  else
    let db := storeFiles db files
    if !isObjectId id then (.serverError, db)
    else match findNotice db id with
    | none => (.notFound, db)
    | some notice =>
      if actor.role == "faculty" && notice.postedBy != actor._id then (.forbidden, db)
      else
        let removed :=
          match body.removeAttachments with
          | some indicesToRemove => removeAttachments notice.attachments db.files indicesToRemove
          | none => (notice.attachments, db.files)
        let db := { db with files := removed.2 }
        let updated :=
          applyNoticeBody actor body
            { notice with attachments := removed.1 ++ files.map newAttachment }
        if !validNotice updated then (.serverError, db)
        else if updated == notice then (.notice notice (populate db.users notice.postedBy), db)
        else
          (.notice { updated with updatedAt := now } (populate db.users notice.postedBy),
            saveNotice db { updated with updatedAt := now })

/-- The attachments of `A`, numbered from `k`, whose number is not in `R`, in
their order in `A`. -/
def keptFrom (k : Nat) (A : List Attachment) (R : List Int) : List Attachment :=
  ((A.enumFrom k).filter (fun p => decide ((p.1 : Int) ∉ R))).map Prod.snd

/-- The sublist of `A` at the positions that are not in `R`, in their
original relative order. -/
def kept (A : List Attachment) (R : List Int) : List Attachment :=
  keptFrom 0 A R

/-- The stored documents after one request: the same list, the list with a
new document (counter 0) at its end, or the list with the document of one id
replaced by a record of the same id whose access levels are non-empty when
its own were, and whose counter is the same or, for a download by an id that
is cast to the id of the record, one more. -/
inductive DocumentsStep (op : DocumentOp) (before after : List Document) : Prop where
  | same (h : after = before)
  | added (d : Document) (hacc : d.accessLevel ≠ []) (hcount : d.downloadCount = 0)
      (h : after = before ++ [d])
  | replaced (old new : Document)
      (hold : before.find? (fun e => e._id == old._id) = some old) (hid : new._id = old._id)
      (hacc : old.accessLevel ≠ [] → new.accessLevel ≠ [])
      (hcount : new.downloadCount = old.downloadCount
        ∨ (new.downloadCount = old.downloadCount + 1
          ∧ ∃ now actor id, op = .download now actor id ∧ objectIdString id = old._id))
      (h : after = before.map (fun e => if e._id == new._id then new else e))

/-! ## Deleting: `router.delete('/:id')` of both routes -/

/-- The handler `router.delete('/:id')` of `routes/documents.js`: the stored
file is deleted when it is on disk, then the record. -/
def deleteDocument (isObjectId : String → Bool) (actor : User) (id : String) (db : Db) :
    Response × Db :=
  if !authorize ["admin", "faculty"] actor then (.forbidden, db)
  else if !isObjectId id then (.serverError, db)
  else match findDocument db id with
  | none => (.notFound, db)
  | some document =>
    if actor.role == "faculty" && document.uploadedBy != actor._id then (.forbidden, db)
    else
      (.deleted,
        { db with
          documents := db.documents.filter (fun e => e._id != document._id)
          files :=
            if existsSync db document.path then db.files.filter (fun p => p != document.path)
            else db.files })

/-- The handler `router.delete('/:id')` of `routes/notices.js`; for a faculty
actor it reads `_id` of the populated creator, which throws when the creator
no longer exists. -/
def deleteNotice (isObjectId : String → Bool) (actor : User) (id : String) (db : Db) :
    Response × Db :=
  if !authorize ["admin", "faculty"] actor then (.forbidden, db)
  else if !isObjectId id then (.serverError, db)
  else match findNotice db id with
  | none => (.notFound, db)
  | some notice =>
    if actor.role == "faculty" then
      match populate db.users notice.postedBy with
      | none => (.serverError, db)
      | some creator =>
        let isOwnNotice := creator._id == actor._id
        let isAdminCreated := creator.role == "admin"
        if isAdminCreated || !isOwnNotice then (.forbidden, db)
        else (.deleted, { db with notices := db.notices.filter (fun m => m._id != notice._id) })
    else (.deleted, { db with notices := db.notices.filter (fun m => m._id != notice._id) })

/-! ## Creating a notice: `router.post('/')` and `sendNoticeEmails` of
`routes/notices.js` -/

/-- The students `sendNoticeEmails` sends a mail to (lines 12 to 37 and 110):
none when the notice is addressed neither to all nor to students, otherwise
the active students, of the department of the notice when it has one. -/
def sendNoticeEmails (users : List User) (notice : Notice) : List User :=
  if !notice.targetAudience.contains "all" && !notice.targetAudience.contains "student" then []
  else
    users.filter (fun u =>
      u.role == "student" && u.isActive
        && (if truthy notice.department then u.department == notice.department else true))

/-- The record handed to `Notice.create` (lines 402 to 429), with the
defaults and timestamps of the schema. -/
def newNotice (now : Nat) (newId : String) (actor : User) (files : List UploadedFile)
    (body : NoticeBody) : Notice :=
  { _id := newId
    title := jsTrim (body.title.getD "")
    content := body.content.getD ""
    category := orElse body.category "general"
    postedBy := actor._id
    targetAudience :=
      if truthy body.targetAudience then jsSplitComma (body.targetAudience.getD "") else ["all"]
    attachments := files.map newAttachment
    isActive := true
    expiryDate := body.expiryDate
    department :=
      if actor.role == "admin" && truthy body.department then body.department.map jsTrim
      else if truthy actor.department then actor.department.map jsTrim
      else none
    createdAt := now
    updatedAt := now }

/-- The outcome of a notice creation: the answer, the database, and the
students a mail was sent to. -/
structure NoticeCreation where
  response : Response
  db : Db
  emailed : List User
deriving DecidableEq, Repr

/-- The handler `router.post('/')` of `routes/notices.js`. -/
def createNotice (now : Nat) (newId : String) (actor : User) (files : List UploadedFile)
    (body : NoticeBody) (db : Db) : NoticeCreation :=
  if !authorize ["admin", "faculty"] actor then
    { response := .forbidden, db := db, emailed := [] }
  else if !validNotice (newNotice now newId actor files body)
      || db.notices.any (fun m => m._id == newId) then
    { response := .serverError, db := storeFiles db files, emailed := [] }
  else
    { response := .notice (newNotice now newId actor files body) (populate db.users actor._id)
      db := { storeFiles db files with
              notices := db.notices ++ [newNotice now newId actor files body] }
      emailed := sendNoticeEmails db.users (newNotice now newId actor files body) }

/-! ## The two database operations of a download -/

/-- What a download request holds after its reads: the document of the regular
branch, or the notice of the attachment branch with the position and the
attachment the id selects. -/
inductive Loaded where
  | document (document : Document)
  | attachment (notice : Notice) (index : Nat) (attachment : Attachment)
deriving DecidableEq, Repr

/-- The reads of the regular branch, up to the test of the stored file (lines
345 to 388): the answer when the handler stops there, or the document. -/
def loadRegular (isObjectId : String → Bool) (actor : User) (id : String) (db : Db) :
    Except Response Loaded :=
  if !isObjectId id then .error .serverError
  else match findDocument db id with
  | none => .error .notFound
  | some document =>
    if documentDownloadDenied actor document (populate db.users document.uploadedBy) then
      .error .forbidden
    else if !existsSync db document.path then .error .notFound
    else .ok (.document document)

/-- The first part of the download handler, up to the test of the stored file
(lines 266 to 322 and 345 to 388): the answer when the handler stops there, or
what it has loaded. -/
def downloadLoad (isObjectId : String → Bool) (actor : User) (id : String) (db : Db) :
    Except Response Loaded :=
  if "notice_".toList.isPrefixOf id.toList then
    match splitUnderscore id.toList [] with
    | [_, noticeId, index] =>
      if !isObjectId (String.mk noticeId) then .error .serverError
      else match findNotice db (String.mk noticeId) with
      | none => .error .notFound
      | some notice =>
        match jsIndex notice.attachments (parseInt index) with
        | none => .error .notFound
        | some (k, attachment) =>
          if attachmentDownloadDenied actor notice (populate db.users notice.postedBy) then
            .error .forbidden
          else if !existsSync db attachment.path then .error .notFound
          else .ok (.attachment notice k attachment)
    | _ => loadRegular isObjectId actor id db
  else loadRegular isObjectId actor id db

/-- The second part (lines 324 to 330 and 390 to 394): the counter of the
loaded copy is raised and the copy is validated and saved; the database is the
one at the time of the save. The save writes the counter and `updatedAt`;
on a database in which the record has at most these two fields changed since
it was loaded, that is the replacement of the record by the saved copy. -/
def downloadStore (now : Nat) (loaded : Loaded) (db : Db) : Response × Db :=
  match loaded with
  | .document document =>
    if !validDocument { document with downloadCount := document.downloadCount + 1 } then
      (.serverError, db)
    else
      (.download document.path document.originalName,
        saveDocument db
          { document with downloadCount := document.downloadCount + 1, updatedAt := now })
  | .attachment notice k attachment =>
    if !validNotice (bumpAttachment notice k attachment) then (.serverError, db)
    else
      (.download attachment.path attachment.filename,
        saveNotice db { bumpAttachment notice k attachment with updatedAt := now })

/-- Two requests for the same id whose loads both come before both saves. -/
def downloadInterleaved (isObjectId : String → Bool) (now1 now2 : Nat) (actor1 actor2 : User)
    (id : String) (db : Db) : Option (Response × Response × Db) :=
  match downloadLoad isObjectId actor1 id db, downloadLoad isObjectId actor2 id db with
  | .ok loaded1, .ok loaded2 =>
    let first := downloadStore now1 loaded1 db
    let second := downloadStore now2 loaded2 first.2
    some (first.1, second.1, second.2)
  | _, _ => none

/-- The answer and the database once the first part has run on `db`: the
answer of the first part, or the second part on `db`. -/
def thenStore (now : Nat) (db : Db) : Except Response Loaded → Response × Db
  | .error response => (response, db)
  | .ok loaded => downloadStore now loaded db

/-- One request alone: its load, and its save on the database it has read. -/
def downloadTwoSteps (isObjectId : String → Bool) (now : Nat) (actor : User) (id : String)
    (db : Db) : Response × Db :=
  thenStore now db (downloadLoad isObjectId actor id db)

/-- The id of the projection of attachment `index` of the notice `noticeId`. -/
def syntheticId (noticeId : String) (index : Nat) : String :=
  "notice_" ++ noticeId ++ "_" ++ toString index

/-- The download requests of a list of request times and actors for one id. -/
def downloadRequests (id : String) (requests : List (Nat × User)) : List DocumentOp :=
  requests.map (fun r => DocumentOp.download r.1 r.2 id)

/-! ## Vocabulary of the statements -/

/-- The attachment list after one round of the removal loop. -/
def eraseStep (A : List Attachment) (index : Int) : List Attachment :=
  if 0 ≤ index ∧ index < (A.length : Int) then A.eraseIdx index.toNat else A

/-- An index that addresses an attachment of a list of the given length. -/
def inRange (len : Nat) (r : Int) : Bool :=
  decide (0 ≤ r ∧ r < (len : Int))

/-- A department is unset when its JavaScript value is falsy. -/
def unset (x : Option String) : Bool :=
  !truthy x

/-- A document listing request with no category, department or search filter. -/
def noFilters (page limit : Int) : DocumentFilters :=
  { category := none, department := none, search := none, page := page, limit := limit }

/-- A notice listing request with no category filter. -/
def noCategory (page limit : Int) : NoticeFilters :=
  { category := none, page := page, limit := limit }

/-- A notice is expired when its expiry date is set and before the request time. -/
def expired (now : Nat) (n : Notice) : Prop :=
  ∃ e, n.expiryDate = some e ∧ e < now

/-- The cast of a string to an ObjectId as recent drivers do it: 24
hexadecimal digits. -/
def hexObjectId (s : String) : Bool :=
  s.toList.length == 24 && s.toList.all (fun c => (digitValue 16 c).isSome)

/-- A regular expression engine that matches nothing, for requests without a
search term. -/
def rxNone (_pattern _text : String) : Bool :=
  false

/-- The method `toLowerCase` on strings of ASCII characters, the only ones of
the scenarios below. -/
def asciiLower (s : String) : String :=
  String.mk (s.toList.map Char.toLower)

/-- A test for regular expressions that is exact on the search texts of the
scenarios below: it accepts a text of letters, digits and spaces, which is a
regular expression, and no other text, so not the text "(", which is none
(`new RegExp("(")` throws a SyntaxError: the group is not closed). -/
def plainRegExp (s : String) : Bool :=
  s.toList.all (fun c => c.isAlphanum || c == ' ')

/-- A document listing request with a search text and no other filter, page 1
and limit 10. -/
def searchFor (search : String) : DocumentFilters :=
  { category := none, department := none, search := some search, page := 1, limit := 10 }

/-- The recipients as the notification rule of the specification words them:
an active student passes when the notice is addressed to students or to all,
and the owner is an admin, or the department of the notice is unset, or the
student's is unset, or the two departments are equal. -/
def policyRecipient (users : List User) (n : Notice) (u : User) : Bool :=
  u.role == "student" && u.isActive
    && (n.targetAudience.contains "student" || n.targetAudience.contains "all")
    && ((match populate users n.postedBy with
          | some owner => owner.role == "admin"
          | none => false)
        || unset n.department || unset u.department || u.department == n.department)

/-! ## A concrete campus, used to evaluate the handlers -/

namespace Campus

/-- A student of department CS. -/
def csStudent : User :=
  { _id := "64b7f0000000000000000001", name := "Asha", email := "asha@campus.test",
    role := "student", department := some "CS", isActive := true }

/-- A faculty member of department EE. -/
def eeFaculty : User :=
  { _id := "64b7f0000000000000000002", name := "Ravi", email := "ravi@campus.test",
    role := "faculty", department := some "EE", isActive := true }

/-- A faculty member of department CS. -/
def csFaculty : User :=
  { _id := "64b7f0000000000000000003", name := "Meera", email := "meera@campus.test",
    role := "faculty", department := some "CS", isActive := true }

/-- An administrator. -/
def registrar : User :=
  { _id := "64b7f0000000000000000004", name := "Registrar", email := "office@campus.test",
    role := "admin", department := none, isActive := true }

/-- The populated form of `eeFaculty`. -/
def eeFacultyCreator : Creator :=
  { _id := "64b7f0000000000000000002", name := "Ravi", email := "ravi@campus.test",
    role := "faculty" }

/-- The populated form of `csFaculty`. -/
def csFacultyCreator : Creator :=
  { _id := "64b7f0000000000000000003", name := "Meera", email := "meera@campus.test",
    role := "faculty" }

/-- The populated form of `registrar`. -/
def registrarCreator : Creator :=
  { _id := "64b7f0000000000000000004", name := "Registrar", email := "office@campus.test",
    role := "admin" }

/-- A document of department EE uploaded by `eeFaculty` for students. -/
def eeDocument : Document :=
  { _id := "64b7f00000000000000000d1", title := "Circuits lab manual", description := none,
    filename := "1700000000001-lab.pdf", originalName := "lab.pdf",
    path := "uploads/1700000000001-lab.pdf", mimetype := "application/pdf", size := 2048,
    uploadedBy := "64b7f0000000000000000002", category := "academic",
    accessLevel := ["student"], department := some "EE", tags := [], downloadCount := 3,
    isActive := true, createdAt := 1000, updatedAt := 1000 }

/-- The same document with no department. -/
def openDocument : Document :=
  { eeDocument with
    _id := "64b7f00000000000000000d2", department := none,
    path := "uploads/1700000000002-lab.pdf", createdAt := 2000, updatedAt := 2000 }

/-- A document for students whose uploader has been deleted. -/
def orphanDocument : Document :=
  { eeDocument with
    _id := "64b7f00000000000000000d3", department := none,
    uploadedBy := "64b7f0000000000000000009",
    path := "uploads/1700000000003-old.pdf", createdAt := 500, updatedAt := 500 }

/-- A document of department EE for admin and faculty only. -/
def staffDocument : Document :=
  { eeDocument with
    _id := "64b7f00000000000000000d4", title := "Marks moderation",
    accessLevel := ["admin", "faculty"],
    path := "uploads/1700000000005-marks.pdf", createdAt := 2500, updatedAt := 2500 }

/-- An attachment stored on disk. -/
def timetable : Attachment :=
  { filename := "timetable.pdf",
    path := "uploads/1700000000004-timetable.pdf", mimetype := "application/pdf",
    size := 512, downloadCount := some 0 }

/-- A notice of department EE by `eeFaculty` for faculty only. -/
def facultyNotice : Notice :=
  { _id := "64b7f00000000000000000a1", title := "Department meeting", content := "Room 4",
    category := "general", postedBy := "64b7f0000000000000000002",
    targetAudience := ["faculty"], attachments := [], isActive := true,
    expiryDate := none, department := some "EE", createdAt := 3000, updatedAt := 3000 }

/-- A notice by `csFaculty` whose department was later set to EE. -/
def movedNotice : Notice :=
  { _id := "64b7f00000000000000000a2", title := "Joint seminar", content := "Friday",
    category := "event", postedBy := "64b7f0000000000000000003",
    targetAudience := ["all"], attachments := [], isActive := true,
    expiryDate := none, department := some "EE", createdAt := 3100, updatedAt := 3200 }

/-- A notice by `eeFaculty` for students only. -/
def studentNotice : Notice :=
  { _id := "64b7f00000000000000000a3", title := "Lab groups", content := "See list",
    category := "academic", postedBy := "64b7f0000000000000000002",
    targetAudience := ["student"], attachments := [], isActive := true,
    expiryDate := some 9000, department := some "EE", createdAt := 3300, updatedAt := 3300 }

/-- A notice by `registrar` for students only, with one attachment. -/
def timetableNotice : Notice :=
  { _id := "64b7f00000000000000000a4", title := "Exam timetable", content := "Attached",
    category := "important", postedBy := "64b7f0000000000000000004",
    targetAudience := ["student"], attachments := [timetable], isActive := true,
    expiryDate := none, department := none, createdAt := 3400, updatedAt := 3400 }

/-- A notice for everyone, with one attachment, that expired at time 4000. -/
def expiredNotice : Notice :=
  { _id := "64b7f00000000000000000a5", title := "Old timetable", content := "Attached",
    category := "important", postedBy := "64b7f0000000000000000004",
    targetAudience := ["all"], attachments := [timetable], isActive := true,
    expiryDate := some 4000, department := none, createdAt := 100, updatedAt := 100 }

/-- The database of the campus. -/
def db : Db :=
  { users := [csStudent, eeFaculty, csFaculty, registrar]
    documents := [eeDocument, openDocument, orphanDocument, staffDocument]
    notices := [facultyNotice, movedNotice, studentNotice, timetableNotice, expiredNotice]
    files := ["uploads/1700000000001-lab.pdf", "uploads/1700000000002-lab.pdf",
      "uploads/1700000000003-old.pdf", "uploads/1700000000004-timetable.pdf",
      "uploads/1700000000005-marks.pdf"] }

/-- The request time of the evaluations. -/
def now : Nat :=
  5000

/-- First requests of a session: the CS student downloads `openDocument`. -/
def firstRequests : List DocumentOp :=
  [.download 5000 csStudent "64b7f00000000000000000d2"]

/-- Later requests: the uploader renames the document, uploads another one,
and the CS student downloads the first again. -/
def laterRequests : List DocumentOp :=
  [.update 6000 eeFaculty "64b7f00000000000000000d2"
      { title := some "Lab manual, second edition", description := none, category := none,
        accessLevel := some "student,faculty", department := none, tags := none },
    .upload 7000 "64b7f00000000000000000d9" eeFaculty
      (some { originalname := "sheet.pdf", filename := "1700000000009-sheet.pdf",
              path := "uploads/1700000000009-sheet.pdf", mimetype := "application/pdf",
              size := 100 })
      { title := some "Problem sheet", description := none, category := none,
        accessLevel := none, department := some "EE", tags := none },
    .download 8000 csStudent "64b7f00000000000000000d2"]

/-- Five attachments of a notice, numbered 0 to 4. -/
def sheet (i : Nat) : Attachment :=
  { filename := "sheet" ++ toString i ++ ".pdf",
    path := "uploads/sheet" ++ toString i ++ ".pdf", mimetype := "application/pdf",
    size := 10 + i, downloadCount := some i }

/-- A notice by `eeFaculty` with five attachments. -/
def sheetNotice : Notice :=
  { _id := "64b7f00000000000000000b1", title := "Problem sheets", content := "Five sheets",
    category := "academic", postedBy := "64b7f0000000000000000002",
    targetAudience := ["student"], attachments := [sheet 0, sheet 1, sheet 2, sheet 3, sheet 4],
    isActive := true, expiryDate := none, department := some "EE", createdAt := 3500,
    updatedAt := 3500 }

/-- A newly uploaded file. -/
def solutions : UploadedFile :=
  { originalname := "solutions.pdf", filename := "1700000000010-solutions.pdf",
    path := "uploads/1700000000010-solutions.pdf", mimetype := "application/pdf", size := 77 }

/-- A database with the notice of five attachments, all of them on disk. -/
def board : Db :=
  { users := [csStudent, eeFaculty, csFaculty, registrar]
    documents := []
    notices := [sheetNotice]
    files := ["uploads/sheet0.pdf", "uploads/sheet1.pdf", "uploads/sheet2.pdf",
      "uploads/sheet3.pdf", "uploads/sheet4.pdf"] }

/-- An update that changes no field and removes the attachments of the given
indices. -/
def removal (R : List Int) : NoticeBody :=
  { title := none, content := none, category := none, targetAudience := none,
    expiryDate := none, removeAttachments := some R, department := none }

/-- A document for students uploaded by the registrar at time 1000. -/
def earlyDocument : Document :=
  { _id := "64b7f00000000000000000e1", title := "Academic calendar", description := none,
    filename := "1700000000021-calendar.pdf", originalName := "calendar.pdf",
    path := "uploads/1700000000021-calendar.pdf", mimetype := "application/pdf", size := 900,
    uploadedBy := "64b7f0000000000000000004", category := "administrative",
    accessLevel := ["student"], department := none, tags := [], downloadCount := 0,
    isActive := true, createdAt := 1000, updatedAt := 1000 }

/-- A document for students uploaded by the registrar at time 2000. -/
def lateDocument : Document :=
  { earlyDocument with
    _id := "64b7f00000000000000000e2", title := "Fee circular",
    path := "uploads/1700000000022-fees.pdf", createdAt := 2000, updatedAt := 2000 }

/-- Two documents created at times 1000 and 2000 and one notice, created at
time 3400, with one attachment. -/
def feed : Db :=
  { users := [csStudent, eeFaculty, csFaculty, registrar]
    documents := [earlyDocument, lateDocument]
    notices := [timetableNotice]
    files := ["uploads/1700000000021-calendar.pdf", "uploads/1700000000022-fees.pdf",
      "uploads/1700000000004-timetable.pdf"] }

/-- A notice for everyone whose poster has been deleted, with one attachment. -/
def orphanNotice : Notice :=
  { _id := "64b7f00000000000000000c1", title := "Library hours", content := "Attached",
    category := "general", postedBy := "64b7f0000000000000000009",
    targetAudience := ["all"], attachments := [timetable], isActive := true,
    expiryDate := none, department := none, createdAt := 200, updatedAt := 200 }

/-- A notice of department EE posted by the registrar for everyone. -/
def hallNotice : Notice :=
  { _id := "64b7f00000000000000000c2", title := "Hall booking", content := "EE hall closed",
    category := "general", postedBy := "64b7f0000000000000000004",
    targetAudience := ["all"], attachments := [], isActive := true,
    expiryDate := none, department := some "EE", createdAt := 300, updatedAt := 300 }

/-- An active student of department EE. -/
def eeStudent : User :=
  { _id := "64b7f0000000000000000005", name := "Kiran", email := "kiran@campus.test",
    role := "student", department := some "EE", isActive := true }

/-- An active student with no department. -/
def newStudent : User :=
  { _id := "64b7f0000000000000000006", name := "Dev", email := "dev@campus.test",
    role := "student", department := none, isActive := true }

/-- A database with the two notices above; the poster of the first is gone. -/
def archive : Db :=
  { users := [csStudent, eeFaculty, csFaculty, registrar, eeStudent, newStudent]
    documents := []
    notices := [orphanNotice, hallNotice]
    files := ["uploads/1700000000004-timetable.pdf"] }

/-- The body of the registrar's request to post a notice for department EE. -/
def hallBody : NoticeBody :=
  { title := some "Hall booking", content := some "EE hall closed", category := none,
    targetAudience := none, expiryDate := none, removeAttachments := none,
    department := some "EE" }

/-- An attachment whose name holds a parenthesis. -/
def draft : Attachment :=
  { filename := "timetable (draft).pdf",
    path := "uploads/1700000000006-draft.pdf", mimetype := "application/pdf",
    size := 300, downloadCount := some 0 }

/-- A notice by `registrar` for everyone, with that attachment. -/
def draftNotice : Notice :=
  { _id := "64b7f00000000000000000c5", title := "Draft timetable", content := "For comments",
    category := "academic", postedBy := "64b7f0000000000000000004",
    targetAudience := ["all"], attachments := [draft], isActive := true,
    expiryDate := none, department := none, createdAt := 3600, updatedAt := 3600 }

/-- A database with that notice and no document. -/
def drafts : Db :=
  { users := [csStudent, eeFaculty, csFaculty, registrar]
    documents := []
    notices := [draftNotice]
    files := ["uploads/1700000000006-draft.pdf"] }

/-- A document stored before the enum of `accessLevel` was in the schema: its
access levels are ["all"], which the validators reject. -/
def legacyDocument : Document :=
  { openDocument with
    _id := "64b7f00000000000000000d7", accessLevel := ["all"],
    path := "uploads/1700000000007-legacy.pdf" }

/-- A database with that document. -/
def legacy : Db :=
  { users := [csStudent, eeFaculty, csFaculty, registrar]
    documents := [legacyDocument]
    notices := []
    files := ["uploads/1700000000007-legacy.pdf"] }

/-- An update of a document that changes its title only. -/
def retitle : DocumentBody :=
  { title := some "Circuits II", description := none, category := none, accessLevel := none,
    department := none, tags := none }

end Campus

/-! ## Auxiliary facts -/

theorem mem_sortNewestFirst {α : Type} (f : α → Nat) (l : List α) (a : α) :
    a ∈ sortNewestFirst f l ↔ a ∈ l :=
  (List.perm_insertionSort _ l).mem_iff

theorem mem_of_mem_jsSlice {α : Type} {l : List α} {s e : Int} {a : α}
    (h : a ∈ jsSlice l s e) : a ∈ l :=
  List.mem_of_mem_drop (List.mem_of_mem_take h)

theorem truthy_none : truthy none = false :=
  rfl

theorem findDocument_id {db : Db} {id : String} {d : Document}
    (h : findDocument db id = some d) : d._id = objectIdString id := by
  simpa using List.find?_some h

theorem findNotice_id {db : Db} {id : String} {n : Notice}
    (h : findNotice db id = some n) : n._id = objectIdString id := by
  simpa using List.find?_some h

theorem validDocument_counted (d : Document) (count time : Nat) :
    validDocument { d with downloadCount := count, updatedAt := time } = validDocument d :=
  rfl

theorem validDocument_count (d : Document) (count : Nat) :
    validDocument { d with downloadCount := count } = validDocument d :=
  rfl

theorem validNotice_bumpAttachment (n : Notice) (k : Nat) (a : Attachment) :
    validNotice (bumpAttachment n k a) = validNotice n :=
  rfl

/-! ## Visibility of documents in the listing -/

/-- C1: for a student or faculty actor and an active stored Document whose
owner record has role admin or faculty, the Document is in the listing (no
category, no search; any department filter) exactly when the actor's role or
"all" is in accessLevel and the owner is an admin, or the Document's
department is unset, or the actor's department is unset, or the two
departments are equal. -/
theorem C1_listDocuments_visibility (rx : String → String → Bool) (actor : User) (db : Db)
    (d : Document) (c : Creator) (dep : Option String) (page limit : Int)
    (hrole : actor.role = "student" ∨ actor.role = "faculty")
    (hd : d ∈ db.documents) (hactive : d.isActive = true)
    (hc : populate db.users d.uploadedBy = some c)
    (hcrole : c.role = "admin" ∨ c.role = "faculty") :
    d ∈ visibleDocuments rx actor
        { category := none, department := dep, search := none, page := page, limit := limit } db
      ↔ (actor.role ∈ d.accessLevel ∨ "all" ∈ d.accessLevel)
        ∧ (c.role = "admin" ∨ unset d.department = true ∨ unset actor.department = true
            ∨ d.department = actor.department) := by
  have hadmin : (actor.role == "admin") = false := by
    rcases hrole with h | h <;> simp [h]
  have hsf : (actor.role == "student" || actor.role == "faculty") = true := by
    rcases hrole with h | h <;> simp [h]
  simp only [visibleDocuments, hsf, if_true, List.mem_filter, mem_sortNewestFirst,
    documentQuery, hadmin, truthy_none, Bool.false_and, hactive, accessLevelMatches,
    documentCreatorFilter, hc, unset]
  rcases hcrole with h | h <;> simp [h, hd, or_assoc]

/-- The scenario of C1: the CS student does not see the EE document of a
faculty member and does see the same document without a department. -/
theorem C1_scenario :
    Campus.eeDocument ∉ visibleDocuments rxNone Campus.csStudent (noFilters 1 10) Campus.db
      ∧ Campus.openDocument ∈
          visibleDocuments rxNone Campus.csStudent (noFilters 1 10) Campus.db :=
  ⟨fun h =>
      absurd
        ((C1_listDocuments_visibility rxNone Campus.csStudent Campus.db Campus.eeDocument
            Campus.eeFacultyCreator none 1 10 (by decide) (by decide) (by decide) (by decide)
            (by decide)).mp h).2
        (by decide),
    (C1_listDocuments_visibility rxNone Campus.csStudent Campus.db Campus.openDocument
        Campus.eeFacultyCreator none 1 10 (by decide) (by decide) (by decide) (by decide)
        (by decide)).mpr (by decide)⟩

/-! ## Visibility of notices in the listing -/

/-- C2: for a student or faculty actor who is not the owner and an active,
non-expired stored Notice whose owner record has role admin or faculty, the
Notice is in the listing (no category filter) exactly when targetAudience
contains the actor's role or "all" and the owner is an admin, or the Notice's
department is unset, or the actor's department is unset, or the two
departments are equal. -/
theorem C2_listNotices_visibility (now : Nat) (actor : User) (db : Db) (n : Notice)
    (c : Creator) (page limit : Int)
    (hrole : actor.role = "student" ∨ actor.role = "faculty")
    (howner : n.postedBy ≠ actor._id)
    (hn : n ∈ db.notices) (hactive : n.isActive = true) (hexp : notExpired now n = true)
    (hc : populate db.users n.postedBy = some c)
    (hcrole : c.role = "admin" ∨ c.role = "faculty") :
    n ∈ visibleNotices now actor (noCategory page limit) db
      ↔ (actor.role ∈ n.targetAudience ∨ "all" ∈ n.targetAudience)
        ∧ (c.role = "admin" ∨ unset n.department = true ∨ unset actor.department = true
            ∨ n.department = actor.department) := by
  have hsf : (actor.role == "student" || actor.role == "faculty") = true := by
    rcases hrole with h | h <;> simp [h]
  have haud : audienceMatches actor n = true
      ↔ (actor.role ∈ n.targetAudience ∨ "all" ∈ n.targetAudience) := by
    simp only [audienceMatches, List.any_eq_true, Bool.or_eq_true, beq_iff_eq]
    constructor
    · rintro ⟨a, ha, h | h⟩
      · exact Or.inl (h ▸ ha)
      · exact Or.inr (h ▸ ha)
    · rintro (h | h)
      · exact ⟨_, h, Or.inl rfl⟩
      · exact ⟨_, h, Or.inr rfl⟩
  simp only [visibleNotices, hsf, if_true, List.mem_filter, mem_sortNewestFirst,
    noticeListQuery, noCategory, truthy_none, hactive, hexp, noticeCreatorFilter, hc, unset]
  rcases hrole with hr | hr <;> rcases hcrole with h | h <;>
    simp [hr, h, hn, or_assoc, howner, haud]

/-- The scenario of C2: a student does not see a notice for faculty only that
a faculty member of department EE owns. -/
theorem C2_scenario :
    Campus.facultyNotice ∉
      visibleNotices Campus.now Campus.csStudent (noCategory 1 10) Campus.db :=
  fun h =>
    absurd
      ((C2_listNotices_visibility Campus.now Campus.csStudent Campus.db Campus.facultyNotice
          Campus.eeFacultyCreator 1 10 (by decide) (by decide) (by decide) (by decide)
          (by decide) (by decide) (by decide)).mp h).1
      (by decide)

/-- C3, evaluated where it fails: the CS faculty member owns `movedNotice`,
which is active, not expired and addressed to all, but carries department EE;
the listing leaves it out, while the single-item handler returns it to the
same actor. -/
theorem C3_owner_hidden_by_department :
    Campus.movedNotice.postedBy = Campus.csFaculty._id
      ∧ Campus.movedNotice.isActive = true
      ∧ notExpired Campus.now Campus.movedNotice = true
      ∧ Campus.movedNotice ∈ Campus.db.notices
      ∧ Campus.movedNotice ∉
          visibleNotices Campus.now Campus.csFaculty (noCategory 1 10) Campus.db
      ∧ getNotice hexObjectId Campus.csFaculty Campus.movedNotice._id Campus.db
          = .notice Campus.movedNotice (some Campus.csFacultyCreator) := by
  decide

/-- C4: for an admin actor and an active stored Document whose accessLevel
contains admin or "all", the Document is in the listing requested without
filters, whatever the departments and the owner are. -/
theorem C4_admin_sees_documents (rx : String → String → Bool) (actor : User) (db : Db)
    (d : Document) (page limit : Int)
    (hrole : actor.role = "admin")
    (hd : d ∈ db.documents) (hactive : d.isActive = true)
    (hacc : "admin" ∈ d.accessLevel ∨ "all" ∈ d.accessLevel) :
    d ∈ visibleDocuments rx actor (noFilters page limit) db := by
  simp only [visibleDocuments, hrole, noFilters]
  simp [mem_sortNewestFirst, documentQuery, truthy_none, hactive, accessLevelMatches, hrole,
    hd, hacc]

/-- An instance of C4: the administrator, who has no department, sees the
staff document of department EE that a faculty member uploaded. -/
theorem C4_instance :
    Campus.staffDocument ∈
      visibleDocuments rxNone Campus.registrar (noFilters 1 10) Campus.db :=
  C4_admin_sees_documents rxNone Campus.registrar Campus.db Campus.staffDocument 1 10
    (by decide) (by decide) (by decide) (by decide)

/-- C5: for an admin actor listing notices without a category filter, every
active stored Notice whose expiry date is unset or not before the request time
is in the listing, and no expired Notice is. -/
theorem C5_admin_sees_notices (now : Nat) (actor : User) (db : Db) (page limit : Int)
    (hrole : actor.role = "admin") :
    (∀ n ∈ db.notices, n.isActive = true →
        (n.expiryDate = none ∨ ∃ e, n.expiryDate = some e ∧ now ≤ e) →
        n ∈ visibleNotices now actor (noCategory page limit) db)
      ∧ (∀ n, expired now n → n ∉ visibleNotices now actor (noCategory page limit) db) := by
  have hvis : ∀ n, n ∈ visibleNotices now actor (noCategory page limit) db
      ↔ n ∈ db.notices ∧ n.isActive = true ∧ notExpired now n = true := by
    intro n
    simp only [visibleNotices, hrole]
    simp [mem_sortNewestFirst, noticeListQuery, noCategory, truthy_none, hrole]
  refine ⟨fun n hn hactive hexp => (hvis n).mpr ⟨hn, hactive, ?_⟩, fun n hexp hmem => ?_⟩
  · rcases hexp with h | ⟨e, h, hle⟩
    · simp [notExpired, h]
    · simp [notExpired, h, hle]
  · obtain ⟨e, he, hlt⟩ := hexp
    have := ((hvis n).mp hmem).2.2
    simp [notExpired, he] at this
    omega

/-- An instance of C5: the administrator sees the notice for students only
and does not see the expired one. -/
theorem C5_instance :
    Campus.studentNotice ∈
        visibleNotices Campus.now Campus.registrar (noCategory 1 10) Campus.db
      ∧ Campus.expiredNotice ∉
          visibleNotices Campus.now Campus.registrar (noCategory 1 10) Campus.db :=
  ⟨(C5_admin_sees_notices Campus.now Campus.registrar Campus.db 1 10 (by decide)).1
      Campus.studentNotice (by decide) (by decide) (Or.inr ⟨9000, by decide, by decide⟩),
    (C5_admin_sees_notices Campus.now Campus.registrar Campus.db 1 10 (by decide)).2
      Campus.expiredNotice ⟨4000, by decide, by decide⟩⟩

/-! ## Expiry -/

theorem notExpired_of_mem_visibleNotices {now : Nat} {actor : User} {f : NoticeFilters}
    {db : Db} {m : Notice}
    (hrole : actor.role = "admin" ∨ actor.role = "faculty" ∨ actor.role = "student")
    (h : m ∈ visibleNotices now actor f db) : notExpired now m = true := by
  have hq : noticeListQuery now actor f m = true := by
    unfold visibleNotices at h
    split at h
    · exact (List.mem_filter.mp ((mem_sortNewestFirst _ _ _).mp (List.mem_filter.mp h).1)).2
    · exact (List.mem_filter.mp ((mem_sortNewestFirst _ _ _).mp h)).2
  rcases hrole with hr | hr | hr <;>
    simp [noticeListQuery, hr] at hq <;> simp [hq]

theorem source_of_mem_noticeAttachments {toLowerCase : String → String}
    {now : Nat} {actor : User} {f : DocumentFilters}
    {db : Db} {p : Projection} (h : p ∈ noticeAttachments toLowerCase now actor f db) :
    ∃ m ∈ db.notices, noticeQuery now actor m = true ∧ p.noticeId = m._id := by
  unfold noticeAttachments at h
  split at h
  · obtain ⟨m, hm, hp⟩ := List.mem_flatMap.mp h
    have hm2 : m ∈ db.notices ∧ noticeQuery now actor m = true := by
      unfold projectedNotices at hm
      split at hm
      · exact List.mem_filter.mp ((mem_sortNewestFirst _ _ _).mp (List.mem_filter.mp hm).1)
      · exact List.mem_filter.mp ((mem_sortNewestFirst _ _ _).mp hm)
    refine ⟨m, hm2.1, hm2.2, ?_⟩
    obtain ⟨ia, _, rfl⟩ := List.mem_map.mp hp
    rfl
  · simp at h

theorem attachment_of_mem_listDocuments {rx : String → String → Bool}
    {toLowerCase : String → String} {now : Nat}
    {actor : User} {f : DocumentFilters} {db : Db} {p : Projection}
    (h : Listed.attachment p ∈ (listDocuments rx toLowerCase now actor f db).documents) :
    p ∈ noticeAttachments toLowerCase now actor f db := by
  have key : ∀ l : List Document, ∀ q : List Projection,
      Listed.attachment p ∈
          l.map (fun d => Listed.document d (populate db.users d.uploadedBy))
            ++ q.map Listed.attachment → p ∈ q := by
    intro l q hmem
    rcases List.mem_append.mp hmem with h1 | h1
    · obtain ⟨d, _, hd⟩ := List.mem_map.mp h1
      cases hd
    · obtain ⟨q0, hq0, hq⟩ := List.mem_map.mp h1
      cases hq
      exact hq0
  unfold listDocuments at h
  simp only at h
  split at h
  · exact key _ _ ((mem_sortNewestFirst _ _ _).mp (mem_of_mem_jsSlice h))
  · exact key _ _ (List.mem_append_left _ h)

/-- C6: for an admin, faculty or student actor, a Notice whose expiry date is
set and before the request time (stored under an id no other stored Notice
has) is no element of the answer of the notice listing and is the source of no
projection in the answer of the document listing, whatever the filters, page
and limit are. -/
theorem C6_expiry_hard_filter (rx : String → String → Bool)
    (toLowerCase : String → String) (now : Nat) (actor : User)
    (db : Db) (n : Notice)
    (hrole : actor.role = "admin" ∨ actor.role = "faculty" ∨ actor.role = "student")
    (hexp : expired now n)
    (hid : ∀ m ∈ db.notices, m._id = n._id → m = n) :
    (∀ f x, x ∈ (listNotices now actor f db).notices → x.1 ≠ n)
      ∧ (∀ f p, Listed.attachment p ∈ (listDocuments rx toLowerCase now actor f db).documents →
          p.noticeId ≠ n._id) := by
  obtain ⟨e, he, hlt⟩ := hexp
  have hnot : notExpired now n = false := by
    simp [notExpired, he, hlt]
  constructor
  · intro f x hx hxn
    obtain ⟨m, hm, rfl⟩ := List.mem_map.mp hx
    have hv := notExpired_of_mem_visibleNotices hrole (mem_of_mem_jsSlice hm)
    simp only at hxn
    rw [hxn, hnot] at hv
    exact Bool.noConfusion hv
  · intro f p hp hpid
    obtain ⟨m, hm, hq, hpm⟩ := source_of_mem_noticeAttachments
      (attachment_of_mem_listDocuments hp)
    have hmn : m = n := hid m hm (hpm ▸ hpid)
    have hv : notExpired now m = true := by
      simp only [noticeQuery, Bool.and_eq_true] at hq
      exact hq.2
    rw [hmn, hnot] at hv
    exact Bool.noConfusion hv

/-- An instance of C6: the expired notice is in neither listing for the CS
student, although it is addressed to all and its attachment is on disk. -/
theorem C6_instance :
    (∀ x ∈ (listNotices Campus.now Campus.csStudent (noCategory 1 10) Campus.db).notices,
        x.1 ≠ Campus.expiredNotice)
      ∧ (∀ p, Listed.attachment p ∈
            (listDocuments rxNone asciiLower Campus.now Campus.csStudent (noFilters 1 10)
              Campus.db).documents →
          p.noticeId ≠ Campus.expiredNotice._id) :=
  ⟨(C6_expiry_hard_filter rxNone asciiLower Campus.now Campus.csStudent Campus.db Campus.expiredNotice
      (by decide) ⟨4000, by decide, by decide⟩ (by decide)).1 (noCategory 1 10),
    (C6_expiry_hard_filter rxNone asciiLower Campus.now Campus.csStudent Campus.db Campus.expiredNotice
      (by decide) ⟨4000, by decide, by decide⟩ (by decide)).2 (noFilters 1 10)⟩

/-! ## Download and single-item fetch against the listing -/

theorem mem_of_findDocument {db : Db} {id : String} {d : Document}
    (h : findDocument db id = some d) : d ∈ db.documents :=
  List.mem_of_find?_eq_some h

theorem downloadDocument_regular {isObjectId : String → Bool} {now : Nat} {actor : User}
    {db : Db} {d : Document} (hfind : findDocument db d._id = some d)
    (hoid : isObjectId d._id = true)
    (hreg : "notice_".toList.isPrefixOf d._id.toList = false) :
    ((downloadDocument isObjectId now actor d._id db).1 = .forbidden
      ↔ documentDownloadDenied actor d (populate db.users d.uploadedBy) = true) := by
  simp only [downloadDocument, hreg, Bool.false_eq_true, if_false, downloadRegular, hoid,
    Bool.not_true, hfind]
  by_cases hden : documentDownloadDenied actor d (populate db.users d.uploadedBy) = true
  · simp [hden]
  · by_cases hfile : existsSync db d.path = true
    · by_cases hv : validDocument d = true <;> simp [hden, hfile, validDocument_count, hv]
    · simp [hden, hfile]

theorem visible_iff_not_denied {rx : String → String → Bool} {actor : User} {db : Db}
    {d : Document} {page limit : Int} (hd : d ∈ db.documents) (hactive : d.isActive = true)
    (howner : (populate db.users d.uploadedBy).isSome = true
      ∨ ¬ (actor.role = "student" ∨ actor.role = "faculty")) :
    (d ∈ visibleDocuments rx actor (noFilters page limit) db
      ↔ documentDownloadDenied actor d (populate db.users d.uploadedBy) = false) := by
  have hq : documentQuery rx actor (noFilters page limit) d
      = (d.accessLevel.contains actor.role || d.accessLevel.contains "all") := by
    simp [documentQuery, noFilters, truthy_none, hactive, accessLevelMatches]
  by_cases hsf : actor.role = "student" ∨ actor.role = "faculty"
  · have hsf2 : (actor.role == "student" || actor.role == "faculty") = true := by
      rcases hsf with h | h <;> simp [h]
    have hsome : (populate db.users d.uploadedBy).isSome = true := by
      rcases howner with h | h
      · exact h
      · exact absurd hsf h
    obtain ⟨c, hc⟩ := Option.isSome_iff_exists.mp hsome
    simp only [visibleDocuments, hsf2, if_true, List.mem_filter, mem_sortNewestFirst, hq, hd,
      true_and, documentDownloadDenied, hc, documentCreatorFilter]
    generalize d.accessLevel.contains actor.role = A1
    generalize d.accessLevel.contains "all" = A2
    generalize truthy d.department = T1
    generalize truthy actor.department = T2
    by_cases hadm : c.role = "admin"
    · cases A1 <;> cases A2 <;> simp [hadm]
    · by_cases hfac : c.role = "faculty"
      · cases A1 <;> cases A2 <;> cases T1 <;> cases T2 <;> simp [hfac]
      · cases A1 <;> cases A2 <;> simp [hadm, hfac]
  · have hsf2 : (actor.role == "student" || actor.role == "faculty") = false := by
      simpa using hsf
    simp only [visibleDocuments, hsf2, Bool.false_eq_true, if_false, mem_sortNewestFirst,
      List.mem_filter, hq, hd, true_and, documentDownloadDenied]
    generalize d.accessLevel.contains actor.role = A1
    generalize d.accessLevel.contains "all" = A2
    cases A1 <;> cases A2 <;> simp

/-- For every active stored Document whose owner record exists, and for every
active stored Document when the actor is neither student nor faculty, the
download handler gets past its authorization checks (does not answer 403)
exactly when the listing without filters holds the Document. -/
theorem download_matches_listing (isObjectId : String → Bool)
    (rx : String → String → Bool) (now : Nat) (actor : User) (db : Db) (d : Document)
    (page limit : Int)
    (hfind : findDocument db d._id = some d)
    (hoid : isObjectId d._id = true)
    (hreg : "notice_".toList.isPrefixOf d._id.toList = false)
    (hactive : d.isActive = true)
    (howner : (populate db.users d.uploadedBy).isSome = true
      ∨ ¬ (actor.role = "student" ∨ actor.role = "faculty")) :
    ((downloadDocument isObjectId now actor d._id db).1 ≠ Response.forbidden
      ↔ d ∈ visibleDocuments rx actor (noFilters page limit) db) := by
  rw [visible_iff_not_denied (mem_of_findDocument hfind) hactive howner, ne_eq,
    downloadDocument_regular hfind hoid hreg]
  simp

/-- Two instances: for the CS student the document without a department is
listed and its download is authorized; the EE document is neither. -/
theorem download_matches_listing_instance :
    ((downloadDocument hexObjectId Campus.now Campus.csStudent Campus.openDocument._id Campus.db).1
          ≠ Response.forbidden
        ∧ Campus.openDocument ∈
            visibleDocuments rxNone Campus.csStudent (noFilters 1 10) Campus.db)
      ∧ ((downloadDocument hexObjectId Campus.now Campus.csStudent Campus.eeDocument._id Campus.db).1
          = Response.forbidden
        ∧ Campus.eeDocument ∉
            visibleDocuments rxNone Campus.csStudent (noFilters 1 10) Campus.db) :=
  ⟨⟨by decide,
      (download_matches_listing hexObjectId rxNone Campus.now Campus.csStudent Campus.db
        Campus.openDocument 1 10 (by decide) (by decide) (by decide) (by decide)
        (Or.inl (by decide))).mp (by decide)⟩,
    ⟨by decide,
      fun h =>
        (download_matches_listing hexObjectId rxNone Campus.now Campus.csStudent Campus.db
          Campus.eeDocument 1 10 (by decide) (by decide) (by decide) (by decide)
          (Or.inl (by decide))).mpr h (by decide)⟩⟩

/-- A Document whose owner record no longer exists: for a student or faculty
actor the listing leaves it out whatever the filters are, while the download
handler denies it only when neither the actor's role nor "all" is among its
access levels. -/
theorem orphan_document_hidden (rx : String → String → Bool) (actor : User) (db : Db)
    (d : Document) (f : DocumentFilters)
    (hsf : actor.role = "student" ∨ actor.role = "faculty")
    (howner : populate db.users d.uploadedBy = none) :
    d ∉ visibleDocuments rx actor f db
      ∧ (documentDownloadDenied actor d (populate db.users d.uploadedBy) = true
          ↔ (d.accessLevel.contains actor.role = false
              ∧ d.accessLevel.contains "all" = false)) := by
  have hsf2 : (actor.role == "student" || actor.role == "faculty") = true := by
    rcases hsf with h | h <;> simp [h]
  constructor
  · simp only [visibleDocuments, hsf2, if_true, List.mem_filter, howner, documentCreatorFilter]
    simp
  · simp only [documentDownloadDenied, howner, hsf2, if_true]
    generalize d.accessLevel.contains actor.role = A1
    generalize d.accessLevel.contains "all" = A2
    cases A1 <;> cases A2 <;> simp

/-- C7, evaluated where it fails: `orphanDocument` is stored, active and
addressed to students, and its uploader has been deleted; the listing leaves
it out for the CS student, while the download handler gets past its
authorization checks for the same actor and serves the file. -/
theorem C7_orphan_document_download :
    findDocument Campus.db Campus.orphanDocument._id = some Campus.orphanDocument
      ∧ Campus.orphanDocument.isActive = true
      ∧ populate Campus.db.users Campus.orphanDocument.uploadedBy = none
      ∧ Campus.orphanDocument ∉
          visibleDocuments rxNone Campus.csStudent (noFilters 1 10) Campus.db
      ∧ (∀ p ∈ (listDocuments rxNone asciiLower Campus.now Campus.csStudent (noFilters 1 10)
            Campus.db).documents,
          p ≠ .document Campus.orphanDocument none)
      ∧ (downloadDocument hexObjectId Campus.now Campus.csStudent Campus.orphanDocument._id
          Campus.db).1
        = .download Campus.orphanDocument.path Campus.orphanDocument.originalName := by
  decide

/-- C8, evaluated where it fails: the single-item handler returns the EE
document of a faculty member to the CS student, while the listing leaves it
out and the download handler answers 403 for the same actor and document. -/
theorem C8_getDocument_skips_department_gate :
    getDocument hexObjectId Campus.csStudent Campus.eeDocument._id Campus.db
        = .document Campus.eeDocument (some Campus.eeFacultyCreator)
      ∧ Campus.eeDocument ∉
          visibleDocuments rxNone Campus.csStudent (noFilters 1 10) Campus.db
      ∧ (downloadDocument hexObjectId Campus.now Campus.csStudent Campus.eeDocument._id Campus.db).1
          = .forbidden := by
  decide

/-- C9, evaluated where it fails: `studentNotice` is active, not expired and
addressed to students only; the listing shows it to the administrator, who is
not its owner, while the single-item handler answers 403. -/
theorem C9_getNotice_admin_forbidden :
    Campus.studentNotice.isActive = true
      ∧ notExpired Campus.now Campus.studentNotice = true
      ∧ Campus.studentNotice ∈
          visibleNotices Campus.now Campus.registrar (noCategory 1 10) Campus.db
      ∧ getNotice hexObjectId Campus.registrar Campus.studentNotice._id Campus.db
          = .forbidden := by
  decide

/-- C10, evaluated where it fails: `timetableNotice` is owned by an admin and
addressed to students only; the listing projects none of its attachments for
the CS faculty member, while the download of attachment 0 by synthetic id is
served to the same actor and counted. -/
theorem C10_faculty_download_skips_audience_gate :
    Campus.timetableNotice ∉ projectedNotices Campus.now Campus.csFaculty Campus.db
      ∧ (∀ p ∈ noticeAttachments asciiLower Campus.now Campus.csFaculty (noFilters 1 10) Campus.db,
          p.noticeId ≠ Campus.timetableNotice._id)
      ∧ (downloadDocument hexObjectId Campus.now Campus.csFaculty "notice_64b7f00000000000000000a4_0"
          Campus.db).1 = .download Campus.timetable.path Campus.timetable.filename
      ∧ Campus.timetableNotice ∈ projectedNotices Campus.now Campus.csStudent Campus.db := by
  decide

/-! ## Download accounting -/

theorem find?_replace (docs : List Document) (d : Document) (id : String) :
    (docs.map (fun e => if e._id == d._id then d else e)).find? (fun e => e._id == id)
      = (docs.find? (fun e => e._id == id)).map (fun e => if e._id == d._id then d else e) := by
  induction docs with
  | nil => rfl
  | cons e l ih =>
    simp only [List.map_cons, List.find?_cons]
    by_cases h : e._id = d._id
    · have h1 : (e._id == d._id) = true := by simpa using h
      simp only [h1, if_true]
      by_cases h2 : d._id = id
      · have h4 : (d._id == id) = true := by simpa using h2
        have h3 : (e._id == id) = true := by simpa [h] using h2
        simp only [h4, h3, Option.map_some', h1, if_true]
      · have h4 : (d._id == id) = false := by simpa using h2
        have h3 : (e._id == id) = false := by simpa [h] using h2
        simp only [h4, h3]
        exact ih
    · have h1 : (e._id == d._id) = false := by simpa using h
      simp only [h1, Bool.false_eq_true, if_false]
      cases h3 : (e._id == id)
      · simp only
        exact ih
      · simp only [Option.map_some', h1, Bool.false_eq_true, if_false]

theorem findDocument_saveDocument (db : Db) (d : Document) (id : String) :
    findDocument (saveDocument db d) id
      = (findDocument db id).map (fun e => if e._id == d._id then d else e) :=
  find?_replace db.documents d (objectIdString id)

theorem downloadDocument_denied_unchanged (isObjectId : String → Bool) (now : Nat)
    (actor : User) (id : String) (db : Db) :
    ((downloadDocument isObjectId now actor id db).1 = .forbidden
        ∨ (downloadDocument isObjectId now actor id db).1 = .notFound
        ∨ (downloadDocument isObjectId now actor id db).1 = .serverError) →
      (downloadDocument isObjectId now actor id db).2 = db := by
  have reg : ((downloadRegular isObjectId now actor id db).1 = .forbidden
        ∨ (downloadRegular isObjectId now actor id db).1 = .notFound
        ∨ (downloadRegular isObjectId now actor id db).1 = .serverError) →
      (downloadRegular isObjectId now actor id db).2 = db := by
    unfold downloadRegular
    repeat' split
    all_goals simp
  unfold downloadDocument
  dsimp only
  repeat' split
  all_goals first | exact reg | simp

/-- C11 as stated fails: the CS student's download of `openDocument` succeeds
and the stored record is not the old one with only `downloadCount` raised,
because the save also sets `updatedAt` to the time of the request. -/
theorem C11_counterexample :
    (downloadDocument hexObjectId Campus.now Campus.csStudent Campus.openDocument._id
          Campus.db).1
        = .download Campus.openDocument.path Campus.openDocument.originalName
      ∧ findDocument
          (downloadDocument hexObjectId Campus.now Campus.csStudent Campus.openDocument._id
            Campus.db).2 Campus.openDocument._id
        ≠ some { Campus.openDocument with
            downloadCount := Campus.openDocument.downloadCount + 1 } := by
  decide

/-- C11, amended: for a request by the id of a Document, (1) an answer 403,
404 or 500 (Document absent, policy rejects, file missing, id that cannot be
cast, or stored record that fails a validator of the schema) leaves the
database, hence every downloadCount, unchanged; (2) when the Document is
stored, the download succeeds exactly when the id can be cast, the policy
allows, the file exists and the stored record passes the validators that the
save runs; (3) after a successful download the stored Document is the old one
with downloadCount raised by exactly one and updatedAt set to the time of the
request, every other field unchanged. -/
theorem C11_download_accounting (isObjectId : String → Bool) (now : Nat) (actor : User)
    (id : String) (db : Db)
    (hreg : "notice_".toList.isPrefixOf id.toList = false) :
    (((downloadDocument isObjectId now actor id db).1 = .forbidden
          ∨ (downloadDocument isObjectId now actor id db).1 = .notFound
          ∨ (downloadDocument isObjectId now actor id db).1 = .serverError) →
        (downloadDocument isObjectId now actor id db).2 = db)
      ∧ ∀ d, findDocument db id = some d →
          ((downloadDocument isObjectId now actor id db).1 = .download d.path d.originalName
            ↔ (isObjectId id = true
                ∧ documentDownloadDenied actor d (populate db.users d.uploadedBy) = false
                ∧ existsSync db d.path = true
                ∧ validDocument d = true))
          ∧ ((downloadDocument isObjectId now actor id db).1
                = .download d.path d.originalName →
              findDocument (downloadDocument isObjectId now actor id db).2 id
                = some { d with downloadCount := d.downloadCount + 1, updatedAt := now }) := by
  refine ⟨downloadDocument_denied_unchanged isObjectId now actor id db, fun d hfind => ?_⟩
  have hid := findDocument_id hfind
  simp only [downloadDocument, hreg, Bool.false_eq_true, if_false, downloadRegular, hfind,
    validDocument_count]
  by_cases hoid : isObjectId id = true
  · by_cases hden : documentDownloadDenied actor d (populate db.users d.uploadedBy) = true
    · simp [hoid, hden]
    · by_cases hfile : existsSync db d.path = true
      · by_cases hv : validDocument d = true
        · simp [hoid, hden, hfile, hv, findDocument_saveDocument, hfind, hid]
        · simp [hoid, hden, hfile, hv]
      · simp [hoid, hden, hfile]
  · simp [hoid]

/-- C11 on a stored record that fails a validator: a Document whose access
levels are ["all"], which the enum of the schema does not hold, is allowed to
the CS student by the policy and its file exists, but the save throws: the
request is answered 500 and nothing is counted. -/
theorem download_of_invalid_document :
    validDocument Campus.legacyDocument = false
      ∧ documentDownloadDenied Campus.csStudent Campus.legacyDocument
          (populate Campus.legacy.users Campus.legacyDocument.uploadedBy) = false
      ∧ downloadDocument hexObjectId Campus.now Campus.csStudent Campus.legacyDocument._id
          Campus.legacy = (.serverError, Campus.legacy) := by
  decide

/-- An instance of C11: after the CS student's download of `openDocument`
the stored record has count 4 instead of 3 and `updatedAt` 5000. -/
theorem C11_instance :
    findDocument
        (downloadDocument hexObjectId Campus.now Campus.csStudent Campus.openDocument._id
          Campus.db).2 Campus.openDocument._id
      = some { Campus.openDocument with downloadCount := 4, updatedAt := 5000 } :=
  ((C11_download_accounting hexObjectId Campus.now Campus.csStudent Campus.openDocument._id
      Campus.db (by decide)).2 Campus.openDocument (by decide)).2 (by decide)

/-- C12, evaluated where it fails: the CS student downloads attachment 0 of
`timetableNotice` through the notices route; the file is served and the
database, hence the attachment's counter, is as before, while the same
download through the documents route raises the counter from 0 to 1. -/
theorem C12_notices_route_does_not_count :
    downloadAttachment hexObjectId Campus.csStudent Campus.timetableNotice._id "0" Campus.db
        = (.download Campus.timetable.path Campus.timetable.filename, Campus.db)
      ∧ (findNotice Campus.db Campus.timetableNotice._id).map
          (fun n => n.attachments.map (fun a => a.downloadCount)) = some [some 0]
      ∧ (downloadDocument hexObjectId Campus.now Campus.csStudent
          "notice_64b7f00000000000000000a4_0" Campus.db).1
        = .download Campus.timetable.path Campus.timetable.filename
      ∧ (findNotice
            (downloadDocument hexObjectId Campus.now Campus.csStudent
              "notice_64b7f00000000000000000a4_0" Campus.db).2
            Campus.timetableNotice._id).map
          (fun n => n.attachments.map (fun a => a.downloadCount)) = some [some 1] := by
  decide

/-! ## The document invariant -/

theorem splitComma_ne_nil (cs cur : List Char) : splitComma cs cur ≠ [] := by
  induction cs generalizing cur with
  | nil => simp [splitComma]
  | cons c cs ih =>
    unfold splitComma
    split
    · simp
    · exact ih _

theorem jsSplitComma_ne_nil (s : String) : jsSplitComma s ≠ [] := by
  unfold jsSplitComma
  simpa using splitComma_ne_nil s.toList []

theorem newDocument_accessLevel (now : Nat) (newId : String) (actor : User)
    (file : UploadedFile) (body : DocumentBody) :
    (newDocument now newId actor file body).accessLevel ≠ [] := by
  simp only [newDocument]
  split
  · exact jsSplitComma_ne_nil _
  · simp

theorem applyDocumentBody_accessLevel (body : DocumentBody) (d : Document)
    (h : d.accessLevel ≠ []) : (applyDocumentBody body d).accessLevel ≠ [] := by
  simp only [applyDocumentBody]
  split
  · exact jsSplitComma_ne_nil _
  · exact h

theorem findDocument_append_of_some {docs : List Document} {id : String} {d : Document}
    (extra : List Document) (h : docs.find? (fun e => e._id == id) = some d) :
    (docs ++ extra).find? (fun e => e._id == id) = some d := by
  simp [List.find?_append, h]

theorem applyOp_step (isObjectId : String → Bool) (db : Db) (op : DocumentOp) :
    DocumentsStep op db.documents (applyOp isObjectId db op).documents := by
  cases op with
  | upload now newId actor file body =>
    simp only [applyOp, uploadDocument]
    split
    · exact .same rfl
    · split
      · exact .same rfl
      · split
        · exact .same rfl
        · exact .added _ (newDocument_accessLevel _ _ _ _ _) rfl rfl
  | update now actor id0 body =>
    simp only [applyOp, updateDocument]
    split
    · exact .same rfl
    · split
      · exact .same rfl
      · split
        · exact .same rfl
        · rename_i document hfind
          split
          · exact .same rfl
          · split
            · exact .same rfl
            · split
              · exact .same rfl
              · have hid := findDocument_id hfind
                exact .replaced document { applyDocumentBody body document with updatedAt := now }
                  (by rw [hid]; exact hfind) rfl
                  (applyDocumentBody_accessLevel body document) (Or.inl rfl) rfl
  | download now actor id0 =>
    simp only [applyOp]
    have reg : DocumentsStep (.download now actor id0) db.documents
        (downloadRegular isObjectId now actor id0 db).2.documents := by
      simp only [downloadRegular]
      split
      · exact .same rfl
      · split
        · exact .same rfl
        · rename_i document hfind
          split
          · exact .same rfl
          · split
            · exact .same rfl
            · split
              · exact .same rfl
              · have hid := findDocument_id hfind
                exact .replaced document
                  { document with downloadCount := document.downloadCount + 1, updatedAt := now }
                  (by rw [hid]; exact hfind) rfl (fun h => h)
                  (Or.inr ⟨rfl, now, actor, id0, rfl, hid.symm⟩) rfl
    unfold downloadDocument
    dsimp only
    repeat' split
    all_goals first | exact reg | exact .same rfl

theorem DocumentsStep.accessLevel {op : DocumentOp} {before after : List Document}
    (h : DocumentsStep op before after) (hinv : ∀ d ∈ before, d.accessLevel ≠ []) :
    ∀ d ∈ after, d.accessLevel ≠ [] := by
  cases h with
  | same h => rw [h]; exact hinv
  | added d hacc _ h =>
    rw [h]
    intro e he
    rcases List.mem_append.mp he with he | he
    · exact hinv e he
    · rw [List.mem_singleton.mp he]
      exact hacc
  | replaced old new hold _ hacc _ h =>
    rw [h]
    intro e he
    obtain ⟨e0, he0, rfl⟩ := List.mem_map.mp he
    split
    · exact hacc (hinv old (List.mem_of_find?_eq_some hold))
    · exact hinv e0 he0

theorem DocumentsStep.count {op : DocumentOp} {before after : List Document}
    (h : DocumentsStep op before after) {id : String} {d : Document}
    (hd : before.find? (fun e => e._id == id) = some d) :
    ∃ e, after.find? (fun e => e._id == id) = some e
      ∧ (e.downloadCount = d.downloadCount
        ∨ (e.downloadCount = d.downloadCount + 1
          ∧ ∃ now actor id2, op = .download now actor id2 ∧ objectIdString id2 = id)) := by
  cases h with
  | same h => exact ⟨d, by rw [h]; exact hd, Or.inl rfl⟩
  | added _ _ _ h => exact ⟨d, by rw [h]; exact findDocument_append_of_some _ hd, Or.inl rfl⟩
  | replaced old new hold hid _ hcount h =>
    rw [h, find?_replace, hd]
    refine ⟨_, rfl, ?_⟩
    have hdid : d._id = id := by simpa using List.find?_some hd
    by_cases hsame : d._id = new._id
    · have hold2 : old = d := by
        have : old._id = id := by rw [← hid, ← hsame, hdid]
        rw [this, hd] at hold
        exact (Option.some.inj hold).symm
      have h1 : (d._id == new._id) = true := by simpa using hsame
      simp only [h1, if_true]
      rw [hold2] at hcount
      rcases hcount with hc | ⟨hc, now, actor, id2, hop, hid2⟩
      · exact Or.inl hc
      · exact Or.inr ⟨hc, now, actor, id2, hop, by rw [hid2, hdid]⟩
    · have h1 : (d._id == new._id) = false := by simpa using hsame
      simp [h1]

theorem runOps_accessLevel (isObjectId : String → Bool) (ops : List DocumentOp) (db : Db)
    (hinv : ∀ d ∈ db.documents, d.accessLevel ≠ []) :
    ∀ d ∈ (runOps isObjectId db ops).documents, d.accessLevel ≠ [] := by
  induction ops generalizing db with
  | nil => exact hinv
  | cons op ops ih =>
    exact ih (applyOp isObjectId db op) ((applyOp_step isObjectId db op).accessLevel hinv)

theorem runOps_count (isObjectId : String → Bool) (ops : List DocumentOp) (db : Db)
    {id : String} {d : Document} (hd : findDocument db id = some d) :
    ∃ e, findDocument (runOps isObjectId db ops) id = some e
      ∧ d.downloadCount ≤ e.downloadCount := by
  induction ops generalizing db d with
  | nil => exact ⟨d, hd, le_refl _⟩
  | cons op ops ih =>
    obtain ⟨e, he, hcount⟩ := (applyOp_step isObjectId db op).count hd
    obtain ⟨e2, he2, hle⟩ := ih (applyOp isObjectId db op) he
    refine ⟨e2, he2, le_trans ?_ hle⟩
    rcases hcount with h | ⟨h, _⟩ <;> omega

/-- C13: from a database in which every Document has a non-empty accessLevel,
after any sequence of upload, update and download requests every Document has
a non-empty accessLevel, and a Document stored after a part of the sequence is
stored after the whole sequence with a downloadCount that is not smaller. One
request leaves a stored counter as it was or, if it is a download by an id
that is cast to the same ObjectId, raises it by one; an upload answers with a
Document whose counter is 0. -/
theorem C13_document_invariant (isObjectId : String → Bool) (db : Db)
    (ops1 ops2 : List DocumentOp)
    (hinit : ∀ d ∈ db.documents, d.accessLevel ≠ []) :
    (∀ d ∈ (runOps isObjectId db ops1).documents, d.accessLevel ≠ [])
      ∧ (∀ id d, findDocument (runOps isObjectId db ops1) id = some d →
          ∃ e, findDocument (runOps isObjectId db (ops1 ++ ops2)) id = some e
            ∧ d.downloadCount ≤ e.downloadCount)
      ∧ (∀ op id d, findDocument (runOps isObjectId db ops1) id = some d →
          ∃ e, findDocument (applyOp isObjectId (runOps isObjectId db ops1) op) id = some e
            ∧ (e.downloadCount = d.downloadCount
              ∨ (e.downloadCount = d.downloadCount + 1
                ∧ ∃ now actor id2, op = .download now actor id2
                    ∧ objectIdString id2 = objectIdString id)))
      ∧ (∀ now newId actor file body d c,
          (uploadDocument now newId actor file body (runOps isObjectId db ops1)).1
              = .document d c →
            d.downloadCount = 0) := by
  refine ⟨runOps_accessLevel isObjectId ops1 db hinit, fun id d hd => ?_,
    fun op id d hd => (applyOp_step isObjectId _ op).count hd, ?_⟩
  · have happ : runOps isObjectId db (ops1 ++ ops2)
        = runOps isObjectId (runOps isObjectId db ops1) ops2 := by
      simp [runOps, List.foldl_append]
    rw [happ]
    exact runOps_count isObjectId ops2 _ hd
  · intro now newId actor file body d c h
    simp only [uploadDocument] at h
    split at h
    · cases h
    · split at h
      · cases h
      · split at h
        · cases h
        · cases h
          rfl

/-- An instance of C13 on the campus: after the first download the counter of
`openDocument` is 4; after the later update, upload and download every stored
Document still has access levels and the counter is 5. -/
theorem C13_instance :
    (∀ d ∈ (runOps hexObjectId Campus.db
          (Campus.firstRequests ++ Campus.laterRequests)).documents, d.accessLevel ≠ [])
      ∧ (∃ e, findDocument
            (runOps hexObjectId Campus.db (Campus.firstRequests ++ Campus.laterRequests))
            Campus.openDocument._id = some e
          ∧ 4 ≤ e.downloadCount)
      ∧ (findDocument
            (runOps hexObjectId Campus.db (Campus.firstRequests ++ Campus.laterRequests))
            Campus.openDocument._id).map (fun e => (e.downloadCount, e.accessLevel))
          = some (5, ["student", "faculty"])
      ∧ (runOps hexObjectId Campus.db
          (Campus.firstRequests ++ Campus.laterRequests)).documents.length = 5 :=
  ⟨(C13_document_invariant hexObjectId Campus.db
      (Campus.firstRequests ++ Campus.laterRequests) [] (by decide)).1,
    (C13_document_invariant hexObjectId Campus.db Campus.firstRequests Campus.laterRequests
      (by decide)).2.1 Campus.openDocument._id
      { Campus.openDocument with downloadCount := 4, updatedAt := 5000 } (by decide),
    by decide, by decide⟩

/-! ## Synthetic ids -/

theorem digitChar_facts {d : Nat} (hd : d < 10) :
    digitValue 10 (Nat.digitChar d) = some d
      ∧ isWhiteSpace (Nat.digitChar d) = false
      ∧ Nat.digitChar d ≠ '-' ∧ Nat.digitChar d ≠ '+'
      ∧ Nat.digitChar d ≠ 'x' ∧ Nat.digitChar d ≠ 'X' ∧ Nat.digitChar d ≠ '_' := by
  interval_cases d <;> decide

/-- The decimal numeral of `n` is a non-empty run of digits that `readDigits`
reads back as `n`. -/
theorem toDigitsCore_spec (fuel : Nat) : ∀ (n : Nat) (ds : List Char), n < fuel →
    ∃ pre, Nat.toDigitsCore 10 fuel n ds = pre ++ ds ∧ pre ≠ []
      ∧ (∀ c ∈ pre, ∃ d, d < 10 ∧ c = Nat.digitChar d)
      ∧ ∀ acc rest, readDigits 10 (pre ++ rest) acc
          = readDigits 10 rest (some (acc.getD 0 * 10 ^ pre.length + n)) := by
  induction fuel with
  | zero => intro n ds h; omega
  | succ fuel ih =>
    intro n ds hn
    have hmod : n % 10 < 10 := Nat.mod_lt _ (by decide)
    obtain ⟨hval, -⟩ := digitChar_facts hmod
    by_cases hq : n / 10 = 0
    · refine ⟨[Nat.digitChar (n % 10)], ?_, by simp, ?_, ?_⟩
      · simp [Nat.toDigitsCore, hq]
      · intro c hc
        exact ⟨n % 10, hmod, by simpa using hc⟩
      · intro acc rest
        have hlt : n % 10 = n := Nat.mod_eq_of_lt (by omega)
        rw [hlt] at hval
        simp [readDigits, hval, hlt]
    · have hlt : n / 10 < fuel := by omega
      obtain ⟨pre, hpre, hne, hdig, hread⟩ := ih (n / 10) (Nat.digitChar (n % 10) :: ds) hlt
      refine ⟨pre ++ [Nat.digitChar (n % 10)], ?_, by simp, ?_, ?_⟩
      · simp [Nat.toDigitsCore, hq, hpre]
      · intro c hc
        rcases List.mem_append.mp hc with hc | hc
        · exact hdig c hc
        · exact ⟨n % 10, hmod, by simpa using hc⟩
      · intro acc rest
        have h1 : pre ++ [Nat.digitChar (n % 10)] ++ rest
            = pre ++ (Nat.digitChar (n % 10) :: rest) := by simp
        rw [h1, hread]
        simp only [readDigits, hval, Option.getD_some, List.length_append, List.length_singleton]
        congr 2
        have h2 : n / 10 * 10 + n % 10 = n := by omega
        calc (acc.getD 0 * 10 ^ pre.length + n / 10) * 10 + n % 10
            = acc.getD 0 * 10 ^ (pre.length + 1) + (n / 10 * 10 + n % 10) := by ring
          _ = acc.getD 0 * 10 ^ (pre.length + 1) + n := by rw [h2]

theorem parseInt_digits (s : List Char) (hne : s ≠ [])
    (hdig : ∀ c ∈ s, ∃ d, d < 10 ∧ c = Nat.digitChar d) :
    parseInt s = (readDigits 10 s none).map (fun n => (n : Int)) := by
  obtain ⟨c, t, rfl⟩ := List.exists_cons_of_ne_nil hne
  obtain ⟨d, hd, hc⟩ := hdig c (List.mem_cons_self _ _)
  obtain ⟨-, hws, hminus, hplus, -, -, -⟩ := digitChar_facts hd
  rw [← hc] at hws hminus hplus
  have hdrop : (c :: t).dropWhile isWhiteSpace = c :: t := by
    simp [List.dropWhile, hws]
  have hradix : readRadix (c :: t) = (10, c :: t) := by
    unfold readRadix
    split
    · rename_i cs heq
      obtain ⟨d2, hd2, hc2⟩ := hdig 'x' (by rw [heq]; simp)
      exact absurd hc2.symm (digitChar_facts hd2).2.2.2.2.1
    · rename_i cs heq
      obtain ⟨d2, hd2, hc2⟩ := hdig 'X' (by rw [heq]; simp)
      exact absurd hc2.symm (digitChar_facts hd2).2.2.2.2.2.1
    · rfl
  have hsign : parseInt.match_1 (fun _ => Bool × List Char) (c :: t) (fun cs => (true, cs))
      (fun cs => (false, cs)) (fun cs => (false, cs)) = (false, c :: t) := by
    split
    · rename_i cs heq
      exact absurd (List.cons.inj heq).1 hminus
    · rename_i cs heq
      exact absurd (List.cons.inj heq).1 hplus
    · rfl
  unfold parseInt
  simp only [hdrop, hsign, hradix]
  cases readDigits 10 (c :: t) none <;> simp

theorem toString_digits (i : Nat) :
    (toString i).toList ≠ []
      ∧ (∀ c ∈ (toString i).toList, ∃ d, d < 10 ∧ c = Nat.digitChar d)
      ∧ readDigits 10 (toString i).toList none = some i := by
  obtain ⟨pre, hpre, hne, hdig, hread⟩ := toDigitsCore_spec (i + 1) i [] (Nat.lt_succ_self i)
  have hs : (toString i).toList = pre := by
    show (Nat.repr i).toList = pre
    simp [Nat.repr, Nat.toDigits, hpre, List.asString]
  rw [hs]
  refine ⟨hne, hdig, ?_⟩
  have := hread none []
  simpa [readDigits] using this

theorem parseInt_toString (i : Nat) : parseInt (toString i).toList = some (i : Int) := by
  obtain ⟨hne, hdig, hread⟩ := toString_digits i
  rw [parseInt_digits _ hne hdig, hread]
  rfl

theorem toString_no_underscore (i : Nat) : '_' ∉ (toString i).toList := by
  intro h
  obtain ⟨d, hd, hc⟩ := (toString_digits i).2.1 _ h
  exact (digitChar_facts hd).2.2.2.2.2.2 hc.symm

theorem splitUnderscore_of_not_mem (cs cur : List Char) (h : '_' ∉ cs) :
    splitUnderscore cs cur = [cur.reverse ++ cs] := by
  induction cs generalizing cur with
  | nil => simp [splitUnderscore]
  | cons c cs ih =>
    have hc : (c == '_') = false := by
      have : c ≠ '_' := fun e => h (by simp [e])
      simpa using this
    have hcs : '_' ∉ cs := fun e => h (List.mem_cons_of_mem _ e)
    simp [splitUnderscore, hc, ih _ hcs]

theorem splitUnderscore_append (cs rest cur : List Char) (h : '_' ∉ cs) :
    splitUnderscore (cs ++ '_' :: rest) cur = (cur.reverse ++ cs) :: splitUnderscore rest [] := by
  induction cs generalizing cur with
  | nil => simp [splitUnderscore]
  | cons c cs ih =>
    have hc : (c == '_') = false := by
      have : c ≠ '_' := fun e => h (by simp [e])
      simpa using this
    have hcs : '_' ∉ cs := fun e => h (List.mem_cons_of_mem _ e)
    simp [splitUnderscore, hc, ih _ hcs]

/-- The characters of a synthetic id and their split. -/
theorem split_syntheticId (N : String) (i : Nat) (hN : '_' ∉ N.toList) :
    ("notice_" ++ N ++ "_" ++ toString i).toList
        = "notice_".toList ++ (N.toList ++ '_' :: (toString i).toList)
      ∧ "notice_".toList.isPrefixOf ("notice_" ++ N ++ "_" ++ toString i).toList = true
      ∧ splitUnderscore ("notice_" ++ N ++ "_" ++ toString i).toList []
          = ["notice".toList, N.toList, (toString i).toList] := by
  have h1 : ("notice_" ++ N ++ "_" ++ toString i).toList
      = "notice_".toList ++ (N.toList ++ '_' :: (toString i).toList) := by
    simp [String.toList]
  refine ⟨h1, ?_, ?_⟩
  · rw [h1]
    simp
  · rw [h1]
    have h2 : "notice_".toList = "notice".toList ++ '_' :: [] := by decide
    rw [h2, List.append_assoc, List.singleton_append]
    rw [splitUnderscore_append "notice".toList _ _ (by decide)]
    rw [splitUnderscore_append _ _ _ hN]
    rw [splitUnderscore_of_not_mem _ _ (toString_no_underscore i)]
    simp

theorem downloadDocument_attachment (isObjectId : String → Bool) (now : Nat) (actor : User)
    (db : Db) (n : Notice) (i : Nat) (a : Attachment)
    (hN : '_' ∉ n._id.toList)
    (hfind : findNotice db n._id = some n)
    (hoid : isObjectId n._id = true)
    (ha : n.attachments[i]? = some a) :
    downloadDocument isObjectId now actor ("notice_" ++ n._id ++ "_" ++ toString i) db
      = (if attachmentDownloadDenied actor n (populate db.users n.postedBy) then
          (.forbidden, db)
        else if !existsSync db a.path then (.notFound, db)
        else if !validNotice n then (.serverError, db)
        else
          (.download a.path a.filename,
            saveNotice db { bumpAttachment n i a with updatedAt := now })) := by
  obtain ⟨-, hstart, hsplit⟩ := split_syntheticId n._id i hN
  have hidx : jsIndex n.attachments (some (i : Int)) = some (i, a) := by
    show (n.attachments[i]?).map (fun a => (i, a)) = some (i, a)
    rw [ha]
    rfl
  have hmk : String.mk n._id.toList = n._id := rfl
  simp only [downloadDocument, hstart, if_true, hsplit, parseInt_toString, hmk, hoid,
    Bool.not_true, Bool.false_eq_true, if_false, hfind, hidx, validNotice_bumpAttachment]

/-- C14: for a stored notice whose id holds no underscore and an index `i`
of its attachment list, the id of the projection is "notice_" followed by
the notice id, "_" and the decimal numeral of `i`; the download handler
splits that id into three segments, reads the third back as `i`, looks up
the same notice and answers for the attachment at position `i` (the one the
projection was built from): 403 when the policy denies, 404 when its file is
missing, 500 when the stored notice fails a validator that the save runs, and
otherwise that file, with that attachment's counter raised. Distinct pairs of
notice id and index give distinct ids. -/
theorem C14_synthetic_id_round_trip (isObjectId : String → Bool) (now : Nat) (actor : User)
    (db : Db) (n : Notice) (c : Option Creator) (i : Nat) (a : Attachment)
    (hN : '_' ∉ n._id.toList)
    (hfind : findNotice db n._id = some n)
    (hoid : isObjectId n._id = true)
    (ha : n.attachments[i]? = some a) :
    (projectAttachment n c i a)._id = "notice_" ++ n._id ++ "_" ++ toString i
      ∧ splitUnderscore (projectAttachment n c i a)._id.toList []
          = ["notice".toList, n._id.toList, (toString i).toList]
      ∧ parseInt (toString i).toList = some (i : Int)
      ∧ downloadDocument isObjectId now actor (projectAttachment n c i a)._id db
          = (if attachmentDownloadDenied actor n (populate db.users n.postedBy) then
              (.forbidden, db)
            else if !existsSync db a.path then (.notFound, db)
            else if !validNotice n then (.serverError, db)
            else
              (.download a.path a.filename,
                saveNotice db { bumpAttachment n i a with updatedAt := now }))
      ∧ ∀ (m : Notice) (c2 : Option Creator) (j : Nat) (b : Attachment),
          '_' ∉ m._id.toList →
          (projectAttachment m c2 j b)._id = (projectAttachment n c i a)._id →
          m._id = n._id ∧ j = i := by
  have hid : (projectAttachment n c i a)._id = "notice_" ++ n._id ++ "_" ++ toString i := rfl
  obtain ⟨-, hstart, hsplit⟩ := split_syntheticId n._id i hN
  refine ⟨hid, by rw [hid]; exact hsplit, parseInt_toString i, ?_, ?_⟩
  · rw [hid]
    exact downloadDocument_attachment isObjectId now actor db n i a hN hfind hoid ha
  · intro m c2 j b hm heq
    have hid2 : (projectAttachment m c2 j b)._id = "notice_" ++ m._id ++ "_" ++ toString j :=
      rfl
    rw [hid, hid2] at heq
    have hsplit2 := (split_syntheticId m._id j hm).2.2
    rw [heq, hsplit] at hsplit2
    simp only [List.cons.injEq, and_true, true_and] at hsplit2
    obtain ⟨h1, h2⟩ := hsplit2
    refine ⟨(String.ext h1).symm, ?_⟩
    have h3 := parseInt_toString j
    rw [← h2, parseInt_toString i] at h3
    exact_mod_cast (Option.some.inj h3).symm

/-- An instance of C14: the projection of attachment 0 of `timetableNotice`
has the id "notice_64b7f00000000000000000a4_0", and the CS student's download
by that id serves the timetable and raises its counter. -/
theorem C14_instance :
    (projectAttachment Campus.timetableNotice (some Campus.registrarCreator) 0
        Campus.timetable)._id = "notice_64b7f00000000000000000a4_0"
      ∧ (downloadDocument hexObjectId Campus.now Campus.csStudent
          "notice_64b7f00000000000000000a4_0" Campus.db).1
        = .download Campus.timetable.path Campus.timetable.filename :=
  ⟨by decide,
    by
      have h := (C14_synthetic_id_round_trip hexObjectId Campus.now Campus.csStudent Campus.db
        Campus.timetableNotice (some Campus.registrarCreator) 0 Campus.timetable
        (by decide) (by decide) (by decide) (by decide)).2.2.2.1
      have hid : (projectAttachment Campus.timetableNotice (some Campus.registrarCreator) 0
          Campus.timetable)._id = "notice_64b7f00000000000000000a4_0" := by decide
      rw [hid] at h
      rw [h]
      decide⟩

/-- C15 as stated fails: the index segment "0abc" is no decimal numeral,
yet the download by "notice_64b7f00000000000000000a4_0abc" is read as index 0:
the timetable is served to the CS student and the database changes (the
counter of the attachment is raised). -/
theorem C15_counterexample :
    splitUnderscore "notice_64b7f00000000000000000a4_0abc".toList []
        = ["notice".toList, "64b7f00000000000000000a4".toList, "0abc".toList]
      ∧ (downloadDocument hexObjectId Campus.now Campus.csStudent
          "notice_64b7f00000000000000000a4_0abc" Campus.db).1
        = .download Campus.timetable.path Campus.timetable.filename
      ∧ (downloadDocument hexObjectId Campus.now Campus.csStudent
          "notice_64b7f00000000000000000a4_0abc" Campus.db).2 ≠ Campus.db := by
  decide

/-- C15, amended: for every actor and every id that begins with "notice_",
(a) when the id splits into exactly three segments, the store can cast the
notice-id segment, and either no notice of the id it is cast to exists or
`parseInt` of the index segment is NaN, negative or not smaller than the
notice's attachment count, the handler answers 404 and changes nothing; (b)
when the id does not split into exactly three segments it is looked up as a
Document id, and with no Document of that id the handler answers 404 if the
store can cast the id and 500 if it cannot, and changes nothing; (c) when the
id splits into exactly three segments and the store cannot cast the notice-id
segment, the handler answers 500 and changes nothing. -/
theorem C15_malformed_synthetic_ids (isObjectId : String → Bool) (now : Nat) (actor : User)
    (id : String) (db : Db)
    (hstart : "notice_".toList.isPrefixOf id.toList = true) :
    (∀ p nid idx, splitUnderscore id.toList [] = [p, nid, idx] →
        isObjectId (String.mk nid) = true →
        (findNotice db (String.mk nid) = none
          ∨ ∃ n, findNotice db (String.mk nid) = some n
              ∧ ∀ k : Nat, parseInt idx = some (k : Int) → n.attachments.length ≤ k) →
        downloadDocument isObjectId now actor id db = (.notFound, db))
      ∧ ((splitUnderscore id.toList []).length ≠ 3 → findDocument db id = none →
          downloadDocument isObjectId now actor id db
            = (if isObjectId id then .notFound else .serverError, db))
      ∧ (∀ p nid idx, splitUnderscore id.toList [] = [p, nid, idx] →
          isObjectId (String.mk nid) = false →
          downloadDocument isObjectId now actor id db = (.serverError, db)) := by
  refine ⟨?_, ?_, fun p nid idx hsplit hoid => by
    simp only [downloadDocument, hstart, if_true, hsplit, hoid, Bool.not_false]⟩
  · intro p nid idx hsplit hoid hbad
    simp only [downloadDocument, hstart, if_true, hsplit, hoid, Bool.not_true,
      Bool.false_eq_true, if_false]
    rcases hbad with hnone | ⟨n, hn, hidx⟩
    · simp only [hnone]
    · simp only [hn]
      have hj : jsIndex n.attachments (parseInt idx) = none := by
        unfold jsIndex
        split
        · rename_i k heq
          have hle := hidx k heq
          simp [List.getElem?_eq_none hle]
        · rfl
      simp only [hj]
  · intro hlen hnone
    have hreg : downloadRegular isObjectId now actor id db
        = (if isObjectId id then .notFound else .serverError, db) := by
      simp only [downloadRegular, hnone]
      cases isObjectId id <;> simp
    unfold downloadDocument
    simp only [hstart, if_true]
    split
    · rename_i heq
      have h3 : (splitUnderscore id.toList []).length = 3 := by
        rw [heq]
        rfl
      exact absurd h3 hlen
    · exact hreg

/-- Instances of C15 on the campus: an index segment that is no number, an
index out of range and an id of a notice that is not stored are answered 404,
a notice-id segment that is no ObjectId is answered 500, and all four leave
the database as it was, for the CS student. -/
theorem C15_instance :
    downloadDocument hexObjectId Campus.now Campus.csStudent
        "notice_64b7f00000000000000000a4_abc" Campus.db = (.notFound, Campus.db)
      ∧ downloadDocument hexObjectId Campus.now Campus.csStudent
        "notice_64b7f00000000000000000a4_1" Campus.db = (.notFound, Campus.db)
      ∧ downloadDocument hexObjectId Campus.now Campus.csStudent
        "notice_64b7f00000000000000000ff_0" Campus.db = (.notFound, Campus.db)
      ∧ downloadDocument hexObjectId Campus.now Campus.csStudent
        "notice_abc_0" Campus.db = (.serverError, Campus.db) :=
  ⟨(C15_malformed_synthetic_ids hexObjectId Campus.now Campus.csStudent
      "notice_64b7f00000000000000000a4_abc" Campus.db (by decide)).1
      "notice".toList "64b7f00000000000000000a4".toList "abc".toList (by decide) (by decide)
      (Or.inr ⟨Campus.timetableNotice, by decide, fun k hk => by
        have h1 : parseInt "abc".toList = none := by decide
        rw [h1] at hk
        cases hk⟩),
    (C15_malformed_synthetic_ids hexObjectId Campus.now Campus.csStudent
      "notice_64b7f00000000000000000a4_1" Campus.db (by decide)).1
      "notice".toList "64b7f00000000000000000a4".toList "1".toList (by decide) (by decide)
      (Or.inr ⟨Campus.timetableNotice, by decide, fun k hk => by
        have h1 : parseInt "1".toList = some ((1 : Nat) : Int) := by decide
        rw [h1] at hk
        have h2 : k = 1 := by exact_mod_cast (Option.some.inj hk).symm
        rw [h2]
        decide⟩),
    (C15_malformed_synthetic_ids hexObjectId Campus.now Campus.csStudent
      "notice_64b7f00000000000000000ff_0" Campus.db (by decide)).1
      "notice".toList "64b7f00000000000000000ff".toList "0".toList (by decide) (by decide)
      (Or.inl (by decide)),
    (C15_malformed_synthetic_ids hexObjectId Campus.now Campus.csStudent
      "notice_abc_0" Campus.db (by decide)).2.2
      "notice".toList "abc".toList "0".toList (by decide) (by decide)⟩

/-- The notice id segment of a synthetic id is cast like every id: with the
hexadecimal digits of the id of `timetableNotice` in upper case the handler
finds the notice, serves attachment 0 to the CS student and counts it. -/
theorem download_by_upper_case_id :
    findNotice Campus.db "64B7F00000000000000000A4" = some Campus.timetableNotice
      ∧ (downloadDocument hexObjectId Campus.now Campus.csStudent
          "notice_64B7F00000000000000000A4_0" Campus.db).1
        = .download Campus.timetable.path Campus.timetable.filename
      ∧ (findNotice
            (downloadDocument hexObjectId Campus.now Campus.csStudent
              "notice_64B7F00000000000000000A4_0" Campus.db).2
            Campus.timetableNotice._id).map
          (fun n => n.attachments.map (fun a => a.downloadCount)) = some [some 1] := by
  decide

/-! ## Removal of attachments by index -/

theorem removeStep_fst (st : List Attachment × List String) (r : Int) :
    (removeStep st r).1 = eraseStep st.1 r := by
  unfold removeStep eraseStep
  split <;> rfl

theorem foldl_removeStep_fst (L : List Int) (st : List Attachment × List String) :
    (L.foldl removeStep st).1 = L.foldl eraseStep st.1 := by
  induction L generalizing st with
  | nil => rfl
  | cons r L ih => simp only [List.foldl_cons, ih, removeStep_fst]

theorem sortDescending_perm (R : List Int) : (sortDescending R).Perm R :=
  List.perm_insertionSort _ R

theorem sortDescending_sorted (R : List Int) :
    (sortDescending R).Pairwise (fun a b => b ≤ a) := by
  haveI : IsTotal Int (fun a b => b ≤ a) := ⟨fun a b => le_total b a⟩
  haveI : IsTrans Int (fun a b => b ≤ a) := ⟨fun _ _ _ h1 h2 => le_trans h2 h1⟩
  exact List.sorted_insertionSort (fun a b : Int => b ≤ a) R

theorem sortDescending_strict (R : List Int) (hR : R.Nodup) :
    (sortDescending R).Pairwise (fun a b => b < a) := by
  have hnd : (sortDescending R).Nodup := (sortDescending_perm R).nodup_iff.mpr hR
  exact ((sortDescending_sorted R).and hnd).imp (fun h => lt_of_le_of_ne h.1 (Ne.symm h.2))

theorem sortDescending_filter (p : Int → Bool) (R : List Int) :
    sortDescending (R.filter p) = (sortDescending R).filter p := by
  haveI : IsAntisymm Int (fun a b => b ≤ a) := ⟨fun _ _ h1 h2 => le_antisymm h2 h1⟩
  apply List.eq_of_perm_of_sorted (r := fun a b : Int => b ≤ a)
  · exact (sortDescending_perm _).trans ((sortDescending_perm R).filter p).symm
  · exact sortDescending_sorted _
  · exact List.Pairwise.filter p (sortDescending_sorted R)

/-- Indices outside the original list are skipped by the loop: on a strictly
descending list the loop does the same as on its in-range part. -/
theorem foldl_removeStep_filter (n0 : Nat) (L : List Int) :
    ∀ st : List Attachment × List String, L.Pairwise (fun a b => b < a) →
      st.1.length ≤ n0 → (∀ r ∈ L, r < (n0 : Int) → r < (st.1.length : Int)) →
      L.foldl removeStep st = (L.filter (inRange n0)).foldl removeStep st := by
  induction L with
  | nil => intro st _ _ _; rfl
  | cons r L ih =>
    intro st hL hlen hbound
    have hL' : L.Pairwise (fun a b => b < a) := (List.pairwise_cons.mp hL).2
    have hlt : ∀ r' ∈ L, r' < r := (List.pairwise_cons.mp hL).1
    by_cases hr : 0 ≤ r ∧ r < (n0 : Int)
    · have hcur : r < (st.1.length : Int) := hbound r (List.mem_cons_self _ _) hr.2
      have hfilter : (r :: L).filter (inRange n0) = r :: L.filter (inRange n0) := by
        simp [List.filter_cons, inRange, hr]
      have hstep : (removeStep st r).1.length + 1 = st.1.length := by
        rw [removeStep_fst]
        unfold eraseStep
        rw [if_pos ⟨hr.1, hcur⟩, List.length_eraseIdx]
        have : r.toNat < st.1.length := by omega
        rw [if_pos this]
        omega
      rw [hfilter, List.foldl_cons, List.foldl_cons]
      apply ih _ hL'
      · omega
      · intro r' hr' hr'n
        have := hlt r' hr'
        omega
    · have hfilter : (r :: L).filter (inRange n0) = L.filter (inRange n0) := by
        simp [List.filter_cons, inRange, hr]
      have hskip : removeStep st r = st := by
        unfold removeStep
        rw [if_neg]
        intro h
        apply hr
        exact ⟨h.1, by omega⟩
      rw [hfilter, List.foldl_cons, hskip]
      exact ih st hL' hlen (fun r' hr' => hbound r' (List.mem_cons_of_mem _ hr'))

theorem removeAttachments_filter (A : List Attachment) (files : List String) (R : List Int)
    (hR : R.Nodup) :
    removeAttachments A files R = removeAttachments A files (R.filter (inRange A.length)) := by
  unfold removeAttachments
  rw [sortDescending_filter]
  exact foldl_removeStep_filter A.length _ _ (sortDescending_strict R hR) (le_refl _)
    (fun _ _ h => h)

theorem keptFrom_cons (k : Nat) (a : Attachment) (A : List Attachment) (R : List Int) :
    keptFrom k (a :: A) R = (if (k : Int) ∈ R then [] else [a]) ++ keptFrom (k + 1) A R := by
  by_cases h : (k : Int) ∈ R <;> simp [keptFrom, List.filter_cons, h]

theorem keptFrom_append (k : Nat) (X Y : List Attachment) (R : List Int) :
    keptFrom k (X ++ Y) R = keptFrom k X R ++ keptFrom (k + X.length) Y R := by
  simp [keptFrom, List.enumFrom_append]

theorem keptFrom_congr (A : List Attachment) (R R2 : List Int) :
    ∀ k : Nat, (∀ j : Nat, k ≤ j → j < k + A.length → ((j : Int) ∈ R ↔ (j : Int) ∈ R2)) →
      keptFrom k A R = keptFrom k A R2 := by
  induction A with
  | nil => intro k _; rfl
  | cons a A ih =>
    intro k h
    rw [keptFrom_cons, keptFrom_cons, ih (k + 1)]
    · have hk := h k (le_refl _) (by simp)
      by_cases hm : (k : Int) ∈ R
      · rw [if_pos hm, if_pos (hk.mp hm)]
      · rw [if_neg hm, if_neg (fun e => hm (hk.mpr e))]
    · intro j hj1 hj2
      exact h j (by omega) (by simp only [List.length_cons]; omega)

theorem keptFrom_of_not_mem (A : List Attachment) (R : List Int) :
    ∀ k : Nat, (∀ j : Nat, k ≤ j → j < k + A.length → (j : Int) ∉ R) → keptFrom k A R = A := by
  induction A with
  | nil => intro k _; rfl
  | cons a A ih =>
    intro k h
    rw [keptFrom_cons, if_neg (h k (le_refl _) (by simp)), ih (k + 1)]
    · rfl
    · intro j hj1 hj2
      exact h j (by omega) (by simp only [List.length_cons]; omega)

theorem foldl_eraseStep_append (L : List Int) :
    ∀ X Y : List Attachment, L.Pairwise (fun a b => b < a) →
      (∀ r ∈ L, 0 ≤ r ∧ r < (X.length : Int)) →
      L.foldl eraseStep (X ++ Y) = L.foldl eraseStep X ++ Y := by
  induction L with
  | nil => intro X Y _ _; rfl
  | cons r L ih =>
    intro X Y hL hin
    have hL' : L.Pairwise (fun a b => b < a) := (List.pairwise_cons.mp hL).2
    have hlt : ∀ r' ∈ L, r' < r := (List.pairwise_cons.mp hL).1
    obtain ⟨h0, hlen⟩ := hin r (List.mem_cons_self _ _)
    have hnat : r.toNat < X.length := by omega
    have h1 : eraseStep (X ++ Y) r = X.eraseIdx r.toNat ++ Y := by
      unfold eraseStep
      rw [if_pos ⟨h0, by simp only [List.length_append]; omega⟩,
        List.eraseIdx_append_of_lt_length hnat]
    have h2 : eraseStep X r = X.eraseIdx r.toNat := by
      unfold eraseStep
      rw [if_pos ⟨h0, hlen⟩]
    rw [List.foldl_cons, List.foldl_cons, h1, h2]
    apply ih _ _ hL'
    intro r' hr'
    have hlen2 : (X.eraseIdx r.toNat).length = X.length - 1 := by
      rw [List.length_eraseIdx, if_pos hnat]
    have := hlt r' hr'
    have := (hin r' (List.mem_cons_of_mem _ hr')).1
    refine ⟨by assumption, ?_⟩
    rw [hlen2]
    omega

theorem foldl_eraseStep_length (L : List Int) :
    ∀ A : List Attachment, L.Pairwise (fun a b => b < a) →
      (∀ r ∈ L, 0 ≤ r ∧ r < (A.length : Int)) →
      (L.foldl eraseStep A).length + L.length = A.length := by
  induction L with
  | nil => intro A _ _; rfl
  | cons r L ih =>
    intro A hL hin
    have hL' : L.Pairwise (fun a b => b < a) := (List.pairwise_cons.mp hL).2
    have hlt : ∀ r' ∈ L, r' < r := (List.pairwise_cons.mp hL).1
    obtain ⟨h0, hlen⟩ := hin r (List.mem_cons_self _ _)
    have hnat : r.toNat < A.length := by omega
    have h2 : eraseStep A r = A.eraseIdx r.toNat := by
      unfold eraseStep
      rw [if_pos ⟨h0, hlen⟩]
    have hlen2 : (A.eraseIdx r.toNat).length = A.length - 1 := by
      rw [List.length_eraseIdx, if_pos hnat]
    rw [List.foldl_cons, h2]
    have := ih (A.eraseIdx r.toNat) hL' (by
      intro r' hr'
      have := hlt r' hr'
      have := (hin r' (List.mem_cons_of_mem _ hr')).1
      refine ⟨by assumption, ?_⟩
      rw [hlen2]
      omega)
    simp only [List.length_cons]
    omega

/-- On a strictly descending list of in-range indices the loop leaves the
attachments at the positions that are not in the list. -/
theorem foldl_eraseStep_eq_kept (L : List Int) :
    ∀ A : List Attachment, L.Pairwise (fun a b => b < a) →
      (∀ r ∈ L, 0 ≤ r ∧ r < (A.length : Int)) →
      L.foldl eraseStep A = kept A L := by
  induction L with
  | nil =>
    intro A _ _
    exact (keptFrom_of_not_mem A [] 0 (fun _ _ _ => by simp)).symm
  | cons r L ih =>
    intro A hL hin
    have hL' : L.Pairwise (fun a b => b < a) := (List.pairwise_cons.mp hL).2
    have hlt : ∀ r' ∈ L, r' < r := (List.pairwise_cons.mp hL).1
    obtain ⟨h0, hlen⟩ := hin r (List.mem_cons_self _ _)
    have hnat : r.toNat < A.length := by omega
    have hcast : ((r.toNat : Nat) : Int) = r := Int.toNat_of_nonneg h0
    have htake : (A.take r.toNat).length = r.toNat := by
      rw [List.length_take]
      omega
    have hinL : ∀ r' ∈ L, 0 ≤ r' ∧ r' < ((A.take r.toNat).length : Int) := by
      intro r' hr'
      have := hlt r' hr'
      have := (hin r' (List.mem_cons_of_mem _ hr')).1
      refine ⟨by assumption, ?_⟩
      rw [htake]
      omega
    have h2 : eraseStep A r = A.take r.toNat ++ A.drop (r.toNat + 1) := by
      unfold eraseStep
      rw [if_pos ⟨h0, hlen⟩, List.eraseIdx_eq_take_drop_succ]
    rw [List.foldl_cons, h2, foldl_eraseStep_append L _ _ hL' hinL, ih _ hL' hinL]
    have hA : A = A.take r.toNat ++ A.drop r.toNat := (List.take_append_drop _ _).symm
    have hdrop : A.drop r.toNat = A[r.toNat] :: A.drop (r.toNat + 1) :=
      List.drop_eq_getElem_cons hnat
    have hfirst : keptFrom 0 (A.take r.toNat) (r :: L) = keptFrom 0 (A.take r.toNat) L := by
      apply keptFrom_congr
      intro j _ hj
      rw [htake] at hj
      have hne : (j : Int) ≠ r := by omega
      simp [hne]
    have hsecond : keptFrom r.toNat (A.drop r.toNat) (r :: L) = A.drop (r.toNat + 1) := by
      rw [hdrop, keptFrom_cons, if_pos (by rw [hcast]; exact List.mem_cons_self _ _)]
      rw [List.nil_append]
      apply keptFrom_of_not_mem
      intro j hj _ hmem
      rcases List.mem_cons.mp hmem with h | h
      · omega
      · have := hlt _ h
        omega
    conv_rhs => rw [kept, hA, keptFrom_append, htake, Nat.zero_add, hfirst, hsecond]
    rfl

theorem findNotice_saveNotice (db : Db) (n : Notice) (id : String) :
    findNotice (saveNotice db n) id
      = (findNotice db id).map (fun e => if e._id == n._id then n else e) := by
  unfold findNotice saveNotice
  simp only
  generalize objectIdString id = key
  induction db.notices with
  | nil => rfl
  | cons e l ih =>
    simp only [List.map_cons, List.find?_cons]
    by_cases h : e._id = n._id
    · have h1 : (e._id == n._id) = true := by simpa using h
      simp only [h1, if_true]
      by_cases h2 : n._id = key
      · have h4 : (n._id == key) = true := by simpa using h2
        have h3 : (e._id == key) = true := by simpa [h] using h2
        simp only [h4, h3, Option.map_some', h1, if_true]
      · have h4 : (n._id == key) = false := by simpa using h2
        have h3 : (e._id == key) = false := by simpa [h] using h2
        simp only [h4, h3]
        exact ih
    · have h1 : (e._id == n._id) = false := by simpa using h
      simp only [h1, Bool.false_eq_true, if_false]
      cases h3 : (e._id == key)
      · simp only
        exact ih
      · simp only [Option.map_some', h1, Bool.false_eq_true, if_false]

theorem findNotice_files (db : Db) (fs : List String) (id : String) :
    findNotice { db with files := fs } id = findNotice db id :=
  rfl

theorem removeAttachments_fst (A : List Attachment) (files : List String) (R : List Int)
    (hR : R.Nodup) (hin : ∀ r ∈ R, 0 ≤ r ∧ r < (A.length : Int)) :
    (removeAttachments A files R).1 = kept A R
      ∧ (removeAttachments A files R).1.length + R.length = A.length := by
  have hstrict := sortDescending_strict R hR
  have hin2 : ∀ r ∈ sortDescending R, 0 ≤ r ∧ r < (A.length : Int) :=
    fun r hr => hin r ((sortDescending_perm R).mem_iff.mp hr)
  have hkept : kept A (sortDescending R) = kept A R :=
    keptFrom_congr A _ _ 0 (fun j _ _ => (sortDescending_perm R).mem_iff)
  unfold removeAttachments
  rw [foldl_removeStep_fst]
  refine ⟨(foldl_eraseStep_eq_kept _ A hstrict hin2).trans hkept, ?_⟩
  have := foldl_eraseStep_length _ A hstrict hin2
  rw [(sortDescending_perm R).length_eq] at this
  exact this

theorem validNotice_attachments (actor : User) (body : NoticeBody) (n : Notice)
    (X : List Attachment) :
    validNotice (applyNoticeBody actor body { n with attachments := X })
      = validNotice (applyNoticeBody actor body n) :=
  rfl

/-- C16: an update of a stored notice by an admin or by its faculty owner,
with a removal list of distinct in-range indices (in any order), a list of
uploaded files and fields that pass the validators, succeeds, and the stored
attachment list is then the sublist of the old one at the positions not in
the removal list, in the old order and unchanged, followed by the attachments
made of the uploaded files in upload order; its length is the old length
minus the number of indices plus the number of files. -/
theorem C16_update_attachment_list (isObjectId : String → Bool) (now : Nat) (actor : User)
    (id : String) (body : NoticeBody) (files : List UploadedFile) (db : Db) (n : Notice)
    (R : List Int)
    (hauth : actor.role = "admin" ∨ (actor.role = "faculty" ∧ n.postedBy = actor._id))
    (hoid : isObjectId id = true) (hfind : findNotice db id = some n)
    (hbody : body.removeAttachments = some R)
    (hR : R.Nodup) (hin : ∀ r ∈ R, 0 ≤ r ∧ r < (n.attachments.length : Int))
    (hvalid : validNotice (applyNoticeBody actor body n) = true) :
    ∃ stored, (updateNotice isObjectId now actor id body files db).1
          = .notice stored (populate db.users n.postedBy)
      ∧ findNotice (updateNotice isObjectId now actor id body files db).2 id = some stored
      ∧ stored.attachments = kept n.attachments R ++ files.map newAttachment
      ∧ stored.attachments.length = n.attachments.length - R.length + files.length := by
  have hauth1 : authorize ["admin", "faculty"] actor = true := by
    rcases hauth with h | ⟨h, _⟩ <;> simp [authorize, h]
  have hown : (actor.role == "faculty" && n.postedBy != actor._id) = false := by
    rcases hauth with h | ⟨_, h⟩ <;> simp [h]
  have hfind2 : findNotice (storeFiles db files) id = some n := hfind
  have hnid := findNotice_id hfind
  obtain ⟨hkept, hlen⟩ := removeAttachments_fst n.attachments (storeFiles db files).files R
    hR hin
  have hlen2 : (kept n.attachments R ++ files.map newAttachment).length
      = n.attachments.length - R.length + files.length := by
    rw [List.length_append, List.length_map, ← hkept]
    omega
  simp only [updateNotice, hauth1, Bool.not_true, Bool.false_eq_true, if_false, hoid, hfind2,
    hown, hbody, validNotice_attachments, hvalid, hkept]
  split
  · rename_i heq
    have heq2 := of_decide_eq_true heq
    refine ⟨n, rfl, hfind, ?_, ?_⟩
    · have := congrArg Notice.attachments heq2
      simpa [applyNoticeBody] using this.symm
    · have := congrArg Notice.attachments heq2
      have h3 : n.attachments = kept n.attachments R ++ files.map newAttachment := by
        simpa [applyNoticeBody] using this.symm
      exact (congrArg List.length h3).trans hlen2
  · refine ⟨_, rfl, ?_, rfl, hlen2⟩
    rw [findNotice_saveNotice, findNotice_files, hfind2]
    simp [applyNoticeBody, hnid]

/-- The scenario of C16: the owner removes the attachments of indices 3 and 1
from the five of `sheetNotice` and uploads one file; the stored list is then
the old attachments 0, 2 and 4 followed by the new file at index 3. -/
theorem C16_scenario :
    (findNotice
        (updateNotice hexObjectId 6000 Campus.eeFaculty Campus.sheetNotice._id
          (Campus.removal [3, 1]) [Campus.solutions] Campus.board).2
        Campus.sheetNotice._id).map (fun n => n.attachments)
      = some [Campus.sheet 0, Campus.sheet 2, Campus.sheet 4,
          newAttachment Campus.solutions] := by
  obtain ⟨stored, -, hf, ha, -⟩ := C16_update_attachment_list hexObjectId 6000
    Campus.eeFaculty Campus.sheetNotice._id (Campus.removal [3, 1]) [Campus.solutions]
    Campus.board Campus.sheetNotice [3, 1] (Or.inr ⟨by decide, by decide⟩) (by decide)
    (by decide) rfl (by decide) (by decide) (by decide)
  rw [hf, Option.map_some', ha]
  decide

theorem kept_filter (A : List Attachment) (R : List Int) :
    kept A (R.filter (inRange A.length)) = kept A R := by
  apply keptFrom_congr
  intro j _ hj
  simp only [List.mem_filter, inRange, decide_eq_true_eq]
  constructor
  · exact fun h => h.1
  · exact fun h => ⟨h, by omega, by omega⟩

/-- C17: for a stored notice and a removal list of distinct integers, the
removal loop does to the attachment list and to the files on disk exactly what
it does for the list restricted to the indices in range of the original list;
the attachments left are those at the positions not in the list; and the
whole update, answer and database, is the one of the restricted list, so an
index that is negative or not smaller than the number of attachments removes
nothing, releases no file and does not make the update fail. -/
theorem C17_out_of_range_indices_skipped (isObjectId : String → Bool) (now : Nat)
    (actor : User) (id : String) (body : NoticeBody) (files : List UploadedFile) (db : Db)
    (n : Notice) (R : List Int)
    (hfind : findNotice db id = some n) (hR : R.Nodup) :
    (∀ fs, removeAttachments n.attachments fs R
        = removeAttachments n.attachments fs (R.filter (inRange n.attachments.length)))
      ∧ (∀ fs, (removeAttachments n.attachments fs R).1 = kept n.attachments R)
      ∧ updateNotice isObjectId now actor id { body with removeAttachments := some R } files db
        = updateNotice isObjectId now actor id
            { body with removeAttachments := some (R.filter (inRange n.attachments.length)) }
            files db := by
  have hfilter := fun fs => removeAttachments_filter n.attachments fs R hR
  refine ⟨hfilter, fun fs => ?_, ?_⟩
  · rw [hfilter fs, ← kept_filter]
    refine (removeAttachments_fst _ _ _ (hR.filter _) ?_).1
    intro r hr
    have := (List.mem_filter.mp hr).2
    simpa [inRange] using this
  · have hfind2 : findNotice (storeFiles db files) id = some n := hfind
    simp only [updateNotice, hfind2, hfilter]
    rfl

/-- An instance of C17: with the removal list 7, 1 and -2 the owner's update
of `sheetNotice` succeeds, removes the attachment of index 1 only and deletes
its file only. -/
theorem C17_instance :
    updateNotice hexObjectId 6000 Campus.eeFaculty Campus.sheetNotice._id
        (Campus.removal [7, 1, -2]) [] Campus.board
      = updateNotice hexObjectId 6000 Campus.eeFaculty Campus.sheetNotice._id
          (Campus.removal [1]) [] Campus.board
      ∧ (findNotice
          (updateNotice hexObjectId 6000 Campus.eeFaculty Campus.sheetNotice._id
            (Campus.removal [7, 1, -2]) [] Campus.board).2
          Campus.sheetNotice._id).map (fun n => n.attachments)
        = some [Campus.sheet 0, Campus.sheet 2, Campus.sheet 3, Campus.sheet 4]
      ∧ (updateNotice hexObjectId 6000 Campus.eeFaculty Campus.sheetNotice._id
          (Campus.removal [7, 1, -2]) [] Campus.board).2.files
        = ["uploads/sheet0.pdf", "uploads/sheet2.pdf", "uploads/sheet3.pdf",
            "uploads/sheet4.pdf"] :=
  ⟨(C17_out_of_range_indices_skipped hexObjectId 6000 Campus.eeFaculty Campus.sheetNotice._id
      (Campus.removal []) [] Campus.board Campus.sheetNotice [7, 1, -2] (by decide)
      (by decide)).2.2,
    by decide, by decide⟩

/-! ## The merged listing -/

theorem jsSlice_page {α : Type} (l : List α) (page limit : Int) (hp : 1 ≤ page)
    (hl : 0 ≤ limit) :
    jsSlice l ((page - 1) * limit) (page * limit)
      = (l.drop ((page - 1) * limit).toNat).take limit.toNat := by
  have hs : 0 ≤ (page - 1) * limit := mul_nonneg (by omega) hl
  have he : page * limit = (page - 1) * limit + limit := by ring
  have hs2 : ¬ (page - 1) * limit < 0 := by omega
  have he2 : ¬ page * limit < 0 := by omega
  have hnat : (page * limit).toNat = ((page - 1) * limit).toNat + limit.toNat := by
    rw [he, Int.toNat_add hs hl]
  simp only [jsSlice, relIndex, hs2, he2, if_false, hnat]
  generalize ((page - 1) * limit).toNat = s
  generalize limit.toNat = k
  by_cases h : s ≤ l.length
  · have h1 : min s l.length = s := Nat.min_eq_left h
    by_cases h2 : s + k ≤ l.length
    · have h3 : min (s + k) l.length = s + k := Nat.min_eq_left h2
      rw [h1, h3, Nat.add_sub_cancel_left]
    · have h3 : min (s + k) l.length = l.length := Nat.min_eq_right (by omega)
      rw [h1, h3, List.take_of_length_le (by simp), List.take_of_length_le (by simp; omega)]
  · have h1 : min s l.length = l.length := Nat.min_eq_right (by omega)
    have h2 : min (s + k) l.length = l.length := Nat.min_eq_right (by omega)
    rw [h1, h2, List.drop_of_length_le (le_refl _), List.drop_of_length_le (by omega)]
    simp

theorem jsSlice_first {α : Type} (l : List α) (limit : Int) (hl : 0 ≤ limit) :
    jsSlice l 0 limit = l.take limit.toNat := by
  have he2 : ¬ limit < 0 := by omega
  simp only [jsSlice, relIndex, he2, if_false, lt_irrefl, Int.toNat_zero, Nat.zero_min,
    List.drop_zero, Nat.sub_zero]
  by_cases h : limit.toNat ≤ l.length
  · have h1 : min limit.toNat l.length = limit.toNat := Nat.min_eq_left h
    rw [h1]
  · have h1 : min limit.toNat l.length = l.length := Nat.min_eq_right (by omega)
    rw [h1, List.take_of_length_le (le_refl _), List.take_of_length_le (by omega)]

theorem visibleDocuments_sorted (rx : String → String → Bool) (actor : User)
    (f : DocumentFilters) (db : Db) :
    (visibleDocuments rx actor f db).Pairwise (fun a b => b.createdAt ≤ a.createdAt) := by
  haveI : IsTotal Document (fun a b => b.createdAt ≤ a.createdAt) :=
    ⟨fun a b => le_total b.createdAt a.createdAt⟩
  haveI : IsTrans Document (fun a b => b.createdAt ≤ a.createdAt) :=
    ⟨fun _ _ _ h1 h2 => le_trans h2 h1⟩
  have hs : (sortNewestFirst (fun d : Document => d.createdAt)
      (db.documents.filter (documentQuery rx actor f))).Pairwise
      (fun a b => b.createdAt ≤ a.createdAt) :=
    List.sorted_insertionSort (fun a b : Document => b.createdAt ≤ a.createdAt) _
  unfold visibleDocuments
  split
  · exact List.Pairwise.filter _ hs
  · exact hs

/-- C18: with page at least 1 and a non-negative limit, let D be the
visibility-passing Documents (they are in descending order of creation time),
S the slice of D that skips (page-1)*limit items and takes limit items, and P
the list of all projections. The returned list is S when P is empty and
otherwise the first limit items of S followed by P, sorted by creation time,
newest first; the sort is stable: it returns a list with the same items in
descending order in which every sublist of S followed by P that is already in
descending order is still a sublist. -/
theorem C18_listDocuments_result (rx : String → String → Bool)
    (toLowerCase : String → String) (now : Nat) (actor : User)
    (f : DocumentFilters) (db : Db) (hp : 1 ≤ f.page) (hl : 0 ≤ f.limit) :
    (visibleDocuments rx actor f db).Pairwise (fun a b => b.createdAt ≤ a.createdAt)
      ∧ (listDocuments rx toLowerCase now actor f db).documents
        = (if (noticeAttachments toLowerCase now actor f db).map Listed.attachment = [] then
            (((visibleDocuments rx actor f db).drop ((f.page - 1) * f.limit).toNat).take
              f.limit.toNat).map (fun d => Listed.document d (populate db.users d.uploadedBy))
          else
            (sortNewestFirst Listed.createdAt
              ((((visibleDocuments rx actor f db).drop ((f.page - 1) * f.limit).toNat).take
                  f.limit.toNat).map
                  (fun d => Listed.document d (populate db.users d.uploadedBy))
                ++ (noticeAttachments toLowerCase now actor f db).map Listed.attachment)).take
              f.limit.toNat)
      ∧ ∀ l : List Listed,
          (sortNewestFirst Listed.createdAt l).Perm l
            ∧ (sortNewestFirst Listed.createdAt l).Pairwise
                (fun a b => b.createdAt ≤ a.createdAt)
            ∧ ∀ c : List Listed, c.Pairwise (fun a b => b.createdAt ≤ a.createdAt) →
                c.Sublist l → c.Sublist (sortNewestFirst Listed.createdAt l) := by
  refine ⟨visibleDocuments_sorted rx actor f db, ?_, fun l => ⟨?_, ?_, ?_⟩⟩
  · simp only [listDocuments, jsSlice_page _ _ _ hp hl, jsSlice_first _ _ hl]
    by_cases hP : (noticeAttachments toLowerCase now actor f db).map Listed.attachment = []
    · have h0 : ¬ ((noticeAttachments toLowerCase now actor f db).map Listed.attachment).length > 0 := by
        rw [hP]
        simp
      rw [if_neg h0, if_pos hP]
    · have h0 : ((noticeAttachments toLowerCase now actor f db).map Listed.attachment).length > 0 :=
        List.length_pos.mpr hP
      rw [if_pos h0, if_neg hP]
  · exact List.perm_insertionSort _ l
  · haveI : IsTotal Listed (fun a b => b.createdAt ≤ a.createdAt) :=
      ⟨fun a b => le_total b.createdAt a.createdAt⟩
    haveI : IsTrans Listed (fun a b => b.createdAt ≤ a.createdAt) :=
      ⟨fun _ _ _ h1 h2 => le_trans h2 h1⟩
    exact List.sorted_insertionSort (fun a b : Listed => b.createdAt ≤ a.createdAt) l
  · intro c hc hsub
    exact List.sublist_insertionSort hc hsub

/-- The scenario of C18: two documents created at times 1000 and 2000, one
visible notice created at time 3400 with one attachment, page 1 and limit 2;
the CS student gets the projection and the later document. -/
theorem C18_scenario :
    (listDocuments rxNone asciiLower Campus.now Campus.csStudent (noFilters 1 2) Campus.feed).documents
      = [.attachment
            (projectAttachment Campus.timetableNotice (some Campus.registrarCreator) 0
              Campus.timetable),
          .document Campus.lateDocument (some Campus.registrarCreator)] :=
  (C18_listDocuments_result rxNone asciiLower Campus.now Campus.csStudent (noFilters 1 2) Campus.feed
    (by decide) (by decide)).2.1.trans (by decide)

theorem length_jsSlice_le {α : Type} (l : List α) (s e : Int) :
    (jsSlice l s e).length ≤ l.length := by
  unfold jsSlice
  rw [List.length_take, List.length_drop]
  omega

/-- C19: the reported total is the number of visibility-passing Documents
before pagination plus the number of projections, and is the same for every
page and limit; the reported count is the length of the returned list; and
with page and limit at least 1 the count is at most the limit and at most the
total. -/
theorem C19_total_and_count (rx : String → String → Bool)
    (toLowerCase : String → String) (now : Nat) (actor : User)
    (f : DocumentFilters) (db : Db) :
    (listDocuments rx toLowerCase now actor f db).total
        = (visibleDocuments rx actor f db).length + (noticeAttachments toLowerCase now actor f db).length
      ∧ (∀ page limit : Int,
          (listDocuments rx toLowerCase now actor { f with page := page, limit := limit } db).total
            = (listDocuments rx toLowerCase now actor f db).total)
      ∧ (listDocuments rx toLowerCase now actor f db).count
          = (listDocuments rx toLowerCase now actor f db).documents.length
      ∧ (1 ≤ f.page → 1 ≤ f.limit →
          ((listDocuments rx toLowerCase now actor f db).count : Int) ≤ f.limit
            ∧ (listDocuments rx toLowerCase now actor f db).count
              ≤ (listDocuments rx toLowerCase now actor f db).total) := by
  refine ⟨by simp [listDocuments], fun page limit => rfl, rfl, fun hp hl => ?_⟩
  have hl0 : 0 ≤ f.limit := by omega
  simp only [listDocuments, jsSlice_page _ _ _ hp hl0, jsSlice_first _ _ hl0]
  split
  · simp only [List.length_take, List.length_insertionSort, sortNewestFirst,
      List.length_append, List.length_map, List.length_drop]
    constructor
    · omega
    · omega
  · simp only [List.length_take, List.length_map, List.length_drop]
    constructor
    · omega
    · omega

/-- An instance of C19 on page 1 with limit 2 of the feed: total 3 (two
documents and one projection), count 2. -/
theorem C19_instance :
    (listDocuments rxNone asciiLower Campus.now Campus.csStudent (noFilters 1 2) Campus.feed).total = 3
      ∧ (listDocuments rxNone asciiLower Campus.now Campus.csStudent (noFilters 1 2) Campus.feed).count
        = 2
      ∧ (listDocuments rxNone asciiLower Campus.now Campus.csStudent (noFilters 5 1) Campus.feed).total
        = 3 :=
  ⟨(C19_total_and_count rxNone asciiLower Campus.now Campus.csStudent (noFilters 1 2) Campus.feed).1.trans
      (by decide),
    by decide, by decide⟩

/-! ## Projected notices against listed notices -/

theorem creatorFilters_agree (actor : User) (creator : Option Creator) (n : Notice) :
    projectionCreatorFilter actor creator n = noticeCreatorFilter actor creator n := by
  unfold projectionCreatorFilter noticeCreatorFilter
  cases creator with
  | none => rfl
  | some c =>
    simp only
    by_cases h : (c.role == "admin") = true
    · simp [h]
    · simp [h]

/-- C20 as stated fails: `sheetNotice` is owned by the EE faculty member, is
not expired, has five attachments and is addressed to students only; the
notice listing shows it to its owner, the document listing projects none of
its attachments for the owner. -/
theorem C20_counterexample :
    ¬ (Campus.sheetNotice ∈ projectedNotices Campus.now Campus.eeFaculty Campus.board
        ↔ (Campus.sheetNotice ∈
              visibleNotices Campus.now Campus.eeFaculty (noCategory 1 10) Campus.board
            ∧ Campus.sheetNotice.attachments ≠ [])) := by
  decide

/-- C20, amended: for an admin, student or faculty actor, the Notices whose
attachments the document listing projects are exactly the Notices with a
non-empty attachment list that the notice listing (no category filter) shows
to the actor and, when the actor is no admin, whose targetAudience contains
the actor's role or "all": the projection has no owner exception. -/
theorem C20_projected_notices (now : Nat) (actor : User) (db : Db) (n : Notice)
    (page limit : Int)
    (hrole : actor.role = "admin" ∨ actor.role = "student" ∨ actor.role = "faculty") :
    n ∈ projectedNotices now actor db
      ↔ (n ∈ visibleNotices now actor (noCategory page limit) db
          ∧ n.attachments ≠ []
          ∧ (actor.role ≠ "admin" → audienceMatches actor n = true)) := by
  have hempty : (!n.attachments.isEmpty) = true ↔ n.attachments ≠ [] := by
    cases n.attachments <;> simp
  rcases hrole with hr | hr | hr
  · simp only [projectedNotices, visibleNotices, hr]
    simp [mem_sortNewestFirst, noticeQuery, noticeListQuery, noCategory, truthy_none, hr,
      hempty]
    tauto
  · simp only [projectedNotices, visibleNotices, hr]
    simp [mem_sortNewestFirst, noticeQuery, noticeListQuery, noCategory, truthy_none, hr,
      hempty, creatorFilters_agree]
    tauto
  · simp only [projectedNotices, visibleNotices, hr]
    simp [mem_sortNewestFirst, noticeQuery, noticeListQuery, noCategory, truthy_none, hr,
      hempty, creatorFilters_agree]
    tauto

/-- Instances of C20: `timetableNotice` is projected for the CS student, who
is shown it by the notice listing; `sheetNotice` is not projected for its
owner, to whom it is not addressed. -/
theorem C20_instance :
    Campus.timetableNotice ∈ projectedNotices Campus.now Campus.csStudent Campus.db
      ∧ Campus.sheetNotice ∉ projectedNotices Campus.now Campus.eeFaculty Campus.board :=
  ⟨(C20_projected_notices Campus.now Campus.csStudent Campus.db Campus.timetableNotice 1 10
      (by decide)).mpr (by decide),
    fun h =>
      absurd
        ((C20_projected_notices Campus.now Campus.eeFaculty Campus.board Campus.sheetNotice
            1 10 (by decide)).mp h).2.2
        (by decide)⟩

/-! ## The projector -/

theorem projectNotice_noFilters (toLowerCase : String → String)
    (users : List User) (n : Notice) (page limit : Int) :
    projectNotice toLowerCase (noFilters page limit) users n
      = n.attachments.enum.map
          (fun ia => projectAttachment n (populate users n.postedBy) ia.1 ia.2) := by
  simp [projectNotice, projectionPasses, noFilters, truthy_none]

theorem mem_noticeAttachments {toLowerCase : String → String}
    {now : Nat} {actor : User} {f : DocumentFilters} {db : Db}
    (hrole : actor.role = "admin" ∨ actor.role = "student" ∨ actor.role = "faculty")
    (p : Projection) :
    p ∈ noticeAttachments toLowerCase now actor f db
      ↔ ∃ n ∈ projectedNotices now actor db, p ∈ projectNotice toLowerCase f db.users n := by
  have h : (actor.role == "student" || actor.role == "faculty" || actor.role == "admin")
      = true := by
    rcases hrole with h | h | h <;> simp [h]
  simp only [noticeAttachments, h, if_true, List.mem_flatMap]

/-- C21: for a Notice that is projected for the actor and an index `i` of its
attachment list, the projection of attachment `i` is in the list of
projections of a request without search and category filter, and it has the
id "notice_" followed by the notice id, "_" and `i`, the projection marker
set, the notice id and `i` as back-references, accessLevel [student], the
attachment's counter (0 when missing), the notice's creation time and the
category given by the fixed mapping; without those filters the projections of
the Notice are those of all its attachments, one each, in index order. -/
theorem C21_projection_fields (toLowerCase : String → String)
    (now : Nat) (actor : User) (db : Db) (n : Notice) (i : Nat)
    (a : Attachment) (page limit : Int)
    (hrole : actor.role = "admin" ∨ actor.role = "student" ∨ actor.role = "faculty")
    (hn : n ∈ projectedNotices now actor db)
    (ha : n.attachments[i]? = some a) :
    projectAttachment n (populate db.users n.postedBy) i a
        ∈ noticeAttachments toLowerCase now actor (noFilters page limit) db
      ∧ (projectAttachment n (populate db.users n.postedBy) i a)._id
          = "notice_" ++ n._id ++ "_" ++ toString i
      ∧ (projectAttachment n (populate db.users n.postedBy) i a).isNoticeAttachment = true
      ∧ (projectAttachment n (populate db.users n.postedBy) i a).noticeId = n._id
      ∧ (projectAttachment n (populate db.users n.postedBy) i a).attachmentIndex = i
      ∧ (projectAttachment n (populate db.users n.postedBy) i a).accessLevel = ["student"]
      ∧ (projectAttachment n (populate db.users n.postedBy) i a).downloadCount
          = a.downloadCount.getD 0
      ∧ (projectAttachment n (populate db.users n.postedBy) i a).createdAt = n.createdAt
      ∧ (projectAttachment n (populate db.users n.postedBy) i a).category
          = categoryMap n.category
      ∧ (categoryMap "academic" = "academic" ∧ categoryMap "general" = "other"
          ∧ categoryMap "event" = "other" ∧ categoryMap "important" = "administrative")
      ∧ projectNotice toLowerCase (noFilters page limit) db.users n
          = n.attachments.enum.map
              (fun ia => projectAttachment n (populate db.users n.postedBy) ia.1 ia.2) := by
  refine ⟨?_, rfl, rfl, rfl, rfl, rfl, rfl, rfl, rfl, by decide,
    projectNotice_noFilters toLowerCase db.users n page limit⟩
  rw [mem_noticeAttachments hrole]
  refine ⟨n, hn, ?_⟩
  rw [projectNotice_noFilters]
  exact List.mem_map.mpr ⟨(i, a), List.mk_mem_enum_iff_getElem?.mpr ha, rfl⟩

/-- An instance of C21: the projection of attachment 0 of `timetableNotice`
for the CS student. -/
theorem C21_instance :
    projectAttachment Campus.timetableNotice (some Campus.registrarCreator) 0 Campus.timetable
        ∈ noticeAttachments asciiLower Campus.now Campus.csStudent (noFilters 1 10) Campus.db
      ∧ (projectAttachment Campus.timetableNotice (some Campus.registrarCreator) 0
          Campus.timetable).category = "administrative" :=
  ⟨(C21_projection_fields asciiLower Campus.now Campus.csStudent Campus.db Campus.timetableNotice 0
      Campus.timetable 1 10 (by decide) (by decide) (by decide)).1,
    by decide⟩

theorem includesChars_iff (hay needle : List Char) :
    includesChars hay needle = true ↔ needle <:+: hay := by
  induction hay with
  | nil => cases needle <;> simp [includesChars]
  | cons c hay ih =>
    simp only [includesChars, Bool.or_eq_true, ih, List.isPrefixOf_iff_prefix,
      List.infix_cons_iff]

theorem categoryMap_range (c : String) :
    categoryMap c = "academic" ∨ categoryMap c = "other" ∨ categoryMap c = "administrative" := by
  unfold categoryMap
  split
  · exact Or.inl rfl
  · split
    · exact Or.inr (Or.inl rfl)
    · split
      · exact Or.inr (Or.inl rfl)
      · split
        · exact Or.inr (Or.inr rfl)
        · exact Or.inr (Or.inl rfl)

/-- The filters of the projector: a projection is among those of a projected
Notice exactly when it is the projection of an attachment at some index `i`
of the Notice such that the search text is absent (falsy) or its lower-cased
form is a substring of the lower-cased title of the Notice or of the
lower-cased filename of the attachment, and the category filter is absent or
equal to the mapped category of the Notice. Hence with the category filter
"syllabus" or "form" there is no projection at all. The request is answered
with these projections merged in exactly when the search text is absent or a
regular expression, and with 500 otherwise. -/
theorem projection_filters (isRegExp : String → Bool) (rx : String → String → Bool)
    (toLowerCase : String → String) (now : Nat) (actor : User) (db : Db)
    (f : DocumentFilters) :
    (∀ (n : Notice) (p : Projection),
        p ∈ projectNotice toLowerCase f db.users n
          ↔ ∃ i a, n.attachments[i]? = some a
              ∧ p = projectAttachment n (populate db.users n.postedBy) i a
              ∧ (truthy f.search = false
                ∨ (toLowerCase (f.search.getD "")).toList <:+: (toLowerCase n.title).toList
                ∨ (toLowerCase (f.search.getD "")).toList <:+: (toLowerCase a.filename).toList)
              ∧ (truthy f.category = false ∨ f.category = some (categoryMap n.category)))
      ∧ ((f.category = some "syllabus" ∨ f.category = some "form") →
          noticeAttachments toLowerCase now actor f db = [])
      ∧ ((truthy f.search = false ∨ isRegExp (f.search.getD "") = true) →
          getDocuments isRegExp rx toLowerCase now actor f db
            = .documents (listDocuments rx toLowerCase now actor f db))
      ∧ ((truthy f.search = true ∧ isRegExp (f.search.getD "") = false) →
          getDocuments isRegExp rx toLowerCase now actor f db = .serverError) := by
  have hpass : ∀ (n : Notice) (a : Attachment), projectionPasses toLowerCase f n a = true
      ↔ ((truthy f.search = false
            ∨ (toLowerCase (f.search.getD "")).toList <:+: (toLowerCase n.title).toList
            ∨ (toLowerCase (f.search.getD "")).toList <:+: (toLowerCase a.filename).toList)
          ∧ (truthy f.category = false ∨ f.category = some (categoryMap n.category))) := by
    intro n a
    unfold projectionPasses includesLower
    cases hs : truthy f.search <;> cases hc : truthy f.category <;>
      simp [includesChars_iff, @eq_comm _ f.category]
  refine ⟨?_, ?_, ?_, ?_⟩
  · intro n p
    simp only [projectNotice, List.mem_map, List.mem_filter, Prod.exists,
      List.mk_mem_enum_iff_getElem?, hpass]
    constructor
    · rintro ⟨i, a, ⟨ha, hp⟩, rfl⟩
      exact ⟨i, a, ha, rfl, hp⟩
    · rintro ⟨i, a, ha, rfl, hp⟩
      exact ⟨i, a, ⟨ha, hp⟩, rfl⟩
  · intro hcat
    have hnone : ∀ n a, projectionPasses toLowerCase f n a = false := by
      intro n a
      have hne : f.category ≠ some (categoryMap n.category) := by
        intro h
        rcases hcat with hc | hc <;> rw [hc] at h <;>
          rcases categoryMap_range n.category with h2 | h2 | h2 <;> rw [h2] at h <;>
          exact absurd h (by decide)
      have htr : truthy f.category = true := by
        rcases hcat with hc | hc <;> rw [hc] <;> decide
      cases hp : projectionPasses toLowerCase f n a
      · rfl
      · exact absurd ((hpass n a).mp hp).2 (by simp [htr, hne])
    unfold noticeAttachments
    split
    · simp [projectNotice, hnone]
    · rfl
  · intro h
    unfold getDocuments
    rcases h with h | h <;> simp [h]
  · rintro ⟨h1, h2⟩
    unfold getDocuments
    simp [h1, h2]

/-- Instances on the campus: the search text "TIME" keeps the projection of
the timetable, the text "fees" removes it, and so does the category filter
"syllabus". -/
theorem projection_filters_instance :
    (noticeAttachments asciiLower Campus.now Campus.csStudent (searchFor "TIME")
        Campus.db).length = 1
      ∧ noticeAttachments asciiLower Campus.now Campus.csStudent (searchFor "fees") Campus.db
          = []
      ∧ noticeAttachments asciiLower Campus.now Campus.csStudent
          { category := some "syllabus", department := none, search := none, page := 1,
            limit := 10 } Campus.db = [] :=
  ⟨by decide, by decide,
    (projection_filters plainRegExp rxNone asciiLower Campus.now Campus.csStudent Campus.db
      { category := some "syllabus", department := none, search := none, page := 1,
        limit := 10 }).2.1 (Or.inl rfl)⟩

/-- C22, evaluated where it fails: `draftNotice` is projected for the CS
student and the search text "(" is a substring of the filename of its
attachment 0, so the projector keeps that attachment; but the handler also
builds a regular expression from the search text, "(" is none, and the request
is answered 500 with no projection, while the search text "draft" is answered
with the projection. -/
theorem C22_search_text_not_a_regular_expression :
    Campus.draftNotice ∈ projectedNotices Campus.now Campus.csStudent Campus.drafts
      ∧ Campus.draftNotice.attachments[0]? = some Campus.draft
      ∧ includesLower asciiLower Campus.draft.filename "(" = true
      ∧ noticeAttachments asciiLower Campus.now Campus.csStudent (searchFor "(") Campus.drafts
          = [projectAttachment Campus.draftNotice (some Campus.registrarCreator) 0
              Campus.draft]
      ∧ plainRegExp "(" = false
      ∧ getDocuments plainRegExp rxNone asciiLower Campus.now Campus.csStudent (searchFor "(")
          Campus.drafts = .serverError
      ∧ getDocuments plainRegExp rxNone asciiLower Campus.now Campus.csStudent
          (searchFor "draft") Campus.drafts
        = .documents
            { count := 1, total := 1,
              documents := [.attachment
                (projectAttachment Campus.draftNotice (some Campus.registrarCreator) 0
                  Campus.draft)] } := by
  decide

/-! ## Authorization of deletions and updates -/

/-- C23, evaluated where it fails: the poster of `orphanNotice` has been
deleted; the delete request of a faculty member who does not own the notice is
answered 500, not 403 (the notice stays in the store), while the request of
the administrator succeeds. -/
theorem C23_faculty_delete_of_orphan_notice :
    findNotice Campus.archive Campus.orphanNotice._id = some Campus.orphanNotice
      ∧ Campus.orphanNotice.postedBy ≠ Campus.csFaculty._id
      ∧ deleteNotice hexObjectId Campus.csFaculty Campus.orphanNotice._id Campus.archive
          = (.serverError, Campus.archive)
      ∧ (deleteNotice hexObjectId Campus.registrar Campus.orphanNotice._id Campus.archive).1
          = .deleted := by
  decide

theorem find?_filter_ne_document (docs : List Document) (id : String) :
    (docs.filter (fun e => e._id != id)).find? (fun e => e._id == id) = none := by
  rw [List.find?_eq_none]
  intro e he
  have := (List.mem_filter.mp he).2
  simpa using this

theorem find?_filter_ne_notice (l : List Notice) (id : String) :
    (l.filter (fun e => e._id != id)).find? (fun e => e._id == id) = none := by
  rw [List.find?_eq_none]
  intro e he
  have := (List.mem_filter.mp he).2
  simpa using this

/-- The authorization of notice deletion for a stored notice whose poster
record exists: an admin's delete succeeds; a faculty member's delete succeeds
exactly when the poster record is the actor's and its role is not admin, and
is otherwise answered 403 with the database unchanged; after a successful
delete no notice of that id is stored. -/
theorem deleteNotice_authorization (isObjectId : String → Bool) (actor : User) (id : String)
    (db : Db) (n : Notice) (c : Creator)
    (hoid : isObjectId id = true) (hfind : findNotice db id = some n)
    (hc : populate db.users n.postedBy = some c) :
    (actor.role = "admin" →
        (deleteNotice isObjectId actor id db).1 = .deleted
          ∧ findNotice (deleteNotice isObjectId actor id db).2 id = none)
      ∧ (actor.role = "faculty" →
          ((deleteNotice isObjectId actor id db).1 = .deleted
              ↔ (c._id = actor._id ∧ c.role ≠ "admin"))
            ∧ ((c._id = actor._id ∧ c.role ≠ "admin") →
                findNotice (deleteNotice isObjectId actor id db).2 id = none)
            ∧ (¬ (c._id = actor._id ∧ c.role ≠ "admin") →
                deleteNotice isObjectId actor id db = (.forbidden, db))) := by
  have hid := findNotice_id hfind
  constructor
  · intro hr
    simp only [deleteNotice, authorize, hr, hoid, hfind]
    simp [findNotice, hid, find?_filter_ne_notice]
  · intro hr
    simp only [deleteNotice, authorize, hr, hoid, hfind, hc]
    by_cases hadm : c.role = "admin"
    · simp [hadm]
    · by_cases hown : c._id = actor._id
      · simp [hadm, hown, findNotice, hid, find?_filter_ne_notice]
      · simp [hadm, hown]

/-- Instances on the campus: the EE faculty member deletes the own
`sheetNotice`; the CS faculty member's delete of it is answered 403. -/
theorem deleteNotice_instance :
    (deleteNotice hexObjectId Campus.eeFaculty Campus.sheetNotice._id Campus.board).1
        = .deleted
      ∧ deleteNotice hexObjectId Campus.csFaculty Campus.sheetNotice._id Campus.board
        = (.forbidden, Campus.board) :=
  ⟨((deleteNotice_authorization hexObjectId Campus.eeFaculty Campus.sheetNotice._id
      Campus.board Campus.sheetNotice Campus.eeFacultyCreator (by decide) (by decide)
      (by decide)).2 (by decide)).1.mpr (by decide),
    ((deleteNotice_authorization hexObjectId Campus.csFaculty Campus.sheetNotice._id
      Campus.board Campus.sheetNotice Campus.eeFacultyCreator (by decide) (by decide)
      (by decide)).2 (by decide)).2.2 (by decide)⟩

/-- C24: for a stored Document, (1) an admin actor and the faculty actor who
uploaded it are served: the update (with fields that pass the validators)
answers with the Document as changed by the body and stores it, and the delete
succeeds, after which no Document of that id is stored and its file is not on
disk; (2) for a faculty actor who is not the uploader both requests are
answered 403 and leave the database (the Document with all its fields, and the
files on disk) unchanged. -/
theorem C24_document_mutation_authorization (isObjectId : String → Bool) (now : Nat)
    (actor : User) (id : String) (body : DocumentBody) (db : Db) (d : Document)
    (hoid : isObjectId id = true) (hfind : findDocument db id = some d) :
    ((actor.role = "admin" ∨ (actor.role = "faculty" ∧ d.uploadedBy = actor._id)) →
        (validDocument (applyDocumentBody body d) = true →
          ∃ stored, (updateDocument isObjectId now actor id body db).1
                = .document stored (populate db.users d.uploadedBy)
            ∧ findDocument (updateDocument isObjectId now actor id body db).2 id = some stored
            ∧ (stored = applyDocumentBody body d
              ∨ stored = { applyDocumentBody body d with updatedAt := now }))
          ∧ (deleteDocument isObjectId actor id db).1 = .deleted
          ∧ findDocument (deleteDocument isObjectId actor id db).2 id = none
          ∧ existsSync (deleteDocument isObjectId actor id db).2 d.path = false)
      ∧ ((actor.role = "faculty" ∧ d.uploadedBy ≠ actor._id) →
          updateDocument isObjectId now actor id body db = (.forbidden, db)
            ∧ deleteDocument isObjectId actor id db = (.forbidden, db)) := by
  have hid := findDocument_id hfind
  constructor
  · intro hauth
    have hauth1 : authorize ["admin", "faculty"] actor = true := by
      rcases hauth with h | ⟨h, _⟩ <;> simp [authorize, h]
    have hown : (actor.role == "faculty" && d.uploadedBy != actor._id) = false := by
      rcases hauth with h | ⟨_, h⟩ <;> simp [h]
    refine ⟨fun hvalid => ?_, ?_, ?_, ?_⟩
    · simp only [updateDocument, hauth1, Bool.not_true, Bool.false_eq_true, if_false, hoid,
        hfind, hown, hvalid]
      split
      · rename_i heq
        exact ⟨d, rfl, hfind, Or.inl (of_decide_eq_true heq).symm⟩
      · refine ⟨_, rfl, ?_, Or.inr rfl⟩
        rw [findDocument_saveDocument, hfind]
        simp [applyDocumentBody]
    · simp only [deleteDocument, hauth1, Bool.not_true, Bool.false_eq_true, if_false, hoid,
        hfind, hown]
    · simp only [deleteDocument, hauth1, Bool.not_true, Bool.false_eq_true, if_false, hoid,
        hfind, hown]
      simp [findDocument, hid, find?_filter_ne_document]
    · simp only [deleteDocument, hauth1, Bool.not_true, Bool.false_eq_true, if_false, hoid,
        hfind, hown]
      by_cases hex : d.path ∈ db.files
      · simp [existsSync, hex]
      · simp [existsSync, hex]
  · rintro ⟨hr, hne⟩
    have hauth1 : authorize ["admin", "faculty"] actor = true := by simp [authorize, hr]
    have hown : (actor.role == "faculty" && d.uploadedBy != actor._id) = true := by
      simp [hr, hne]
    constructor
    · simp only [updateDocument, hauth1, Bool.not_true, Bool.false_eq_true, if_false, hoid,
        hfind, hown, if_true]
    · simp only [deleteDocument, hauth1, Bool.not_true, Bool.false_eq_true, if_false, hoid,
        hfind, hown, if_true]

/-- Instances of C24 on the campus: the uploader of `eeDocument` changes its
title and deletes it, and the file is gone; the CS faculty member's update and
delete are answered 403 and change nothing. -/
theorem C24_instance :
    (∃ stored, (updateDocument hexObjectId 6000 Campus.eeFaculty Campus.eeDocument._id
            Campus.retitle Campus.db).1
          = .document stored (populate Campus.db.users Campus.eeDocument.uploadedBy)
        ∧ findDocument (updateDocument hexObjectId 6000 Campus.eeFaculty
            Campus.eeDocument._id Campus.retitle Campus.db).2 Campus.eeDocument._id
          = some stored
        ∧ (stored = applyDocumentBody Campus.retitle Campus.eeDocument
          ∨ stored = { applyDocumentBody Campus.retitle Campus.eeDocument with
              updatedAt := 6000 }))
      ∧ ((deleteDocument hexObjectId Campus.eeFaculty Campus.eeDocument._id Campus.db).1 = .deleted
        ∧ findDocument
            (deleteDocument hexObjectId Campus.eeFaculty Campus.eeDocument._id Campus.db).2
            Campus.eeDocument._id = none
        ∧ existsSync
            (deleteDocument hexObjectId Campus.eeFaculty Campus.eeDocument._id Campus.db).2
            Campus.eeDocument.path = false)
      ∧ (updateDocument hexObjectId 6000 Campus.csFaculty Campus.eeDocument._id
            { title := some "Mine now", description := none, category := none,
              accessLevel := some "admin", department := none, tags := none } Campus.db
          = (.forbidden, Campus.db)
        ∧ deleteDocument hexObjectId Campus.csFaculty Campus.eeDocument._id Campus.db
          = (.forbidden, Campus.db)) :=
  ⟨((C24_document_mutation_authorization hexObjectId 6000 Campus.eeFaculty
      Campus.eeDocument._id Campus.retitle Campus.db Campus.eeDocument (by decide)
      (by decide)).1 (Or.inr ⟨by decide, by decide⟩)).1 (by decide),
    ((C24_document_mutation_authorization hexObjectId 6000 Campus.eeFaculty
      Campus.eeDocument._id Campus.retitle Campus.db Campus.eeDocument (by decide)
      (by decide)).1 (Or.inr ⟨by decide, by decide⟩)).2,
    (C24_document_mutation_authorization hexObjectId 6000 Campus.csFaculty
      Campus.eeDocument._id
      { title := some "Mine now", description := none, category := none,
        accessLevel := some "admin", department := none, tags := none }
      Campus.db Campus.eeDocument (by decide) (by decide)).2 ⟨by decide, by decide⟩⟩

/-! ## Notification, totality of the policy, and the department filter -/

/-- C25, as worded, fails: the registrar (an admin) posts a notice of
department EE for everyone; the CS student and the student without a
department pass the audience and department rule, and only the EE student is
sent a mail. -/
theorem C25_counterexample :
    (createNotice 6000 "64b7f00000000000000000c3" Campus.registrar [] Campus.hallBody
        Campus.archive).emailed = [Campus.eeStudent]
      ∧ Campus.csStudent ∈ Campus.archive.users
      ∧ policyRecipient Campus.archive.users
          (newNotice 6000 "64b7f00000000000000000c3" Campus.registrar [] Campus.hallBody)
          Campus.csStudent = true
      ∧ Campus.newStudent ∈ Campus.archive.users
      ∧ policyRecipient Campus.archive.users
          (newNotice 6000 "64b7f00000000000000000c3" Campus.registrar [] Campus.hallBody)
          Campus.newStudent = true := by
  decide

/-- C25, amended: the users a notice is mailed to are exactly the active
students, when the notice is addressed to students or to all, whose
department is the department of the notice when that is set, and all of them
when it is unset; no admin or faculty user is among them; and a created notice
is mailed to these users of the database. -/
theorem C25_notification_scope (now : Nat) (newId : String) (actor : User)
    (files : List UploadedFile) (body : NoticeBody) (db : Db) (users : List User)
    (n : Notice) (u : User) :
    (u ∈ sendNoticeEmails users n
        ↔ (u ∈ users ∧ u.role = "student" ∧ u.isActive = true
            ∧ (n.targetAudience.contains "student" = true
                ∨ n.targetAudience.contains "all" = true)
            ∧ (unset n.department = true ∨ u.department = n.department)))
      ∧ (u ∈ sendNoticeEmails users n → u.role ≠ "admin" ∧ u.role ≠ "faculty")
      ∧ (∀ stored creator,
          (createNotice now newId actor files body db).response = .notice stored creator →
            (createNotice now newId actor files body db).emailed
              = sendNoticeEmails db.users stored) := by
  have hiff : u ∈ sendNoticeEmails users n
      ↔ (u ∈ users ∧ u.role = "student" ∧ u.isActive = true
          ∧ (n.targetAudience.contains "student" = true
              ∨ n.targetAudience.contains "all" = true)
          ∧ (unset n.department = true ∨ u.department = n.department)) := by
    unfold sendNoticeEmails unset
    generalize n.targetAudience.contains "all" = A
    generalize n.targetAudience.contains "student" = S
    generalize truthy n.department = D
    cases A <;> cases S <;> cases D <;> simp [and_assoc]
  refine ⟨hiff, fun hu => ?_, fun stored creator h => ?_⟩
  · have hr := (hiff.mp hu).2.1
    rw [hr]
    exact ⟨by decide, by decide⟩
  · unfold createNotice at h ⊢
    split at h
    · cases h
    · rename_i h1
      split at h
      · cases h
      · rename_i h2
        rw [if_neg h1, if_neg h2]
        simp only [Response.notice.injEq] at h
        simp only [h.1]

/-- An instance of C25: `hallNotice` is mailed to the EE student and to
nobody else, and a notice without department to every active student. -/
theorem C25_instance :
    (Campus.eeStudent ∈ sendNoticeEmails Campus.archive.users Campus.hallNotice
        ∧ Campus.csStudent ∉ sendNoticeEmails Campus.archive.users Campus.hallNotice
        ∧ Campus.registrar ∉ sendNoticeEmails Campus.archive.users Campus.hallNotice)
      ∧ sendNoticeEmails Campus.archive.users Campus.orphanNotice
          = [Campus.csStudent, Campus.eeStudent, Campus.newStudent] :=
  ⟨⟨(C25_notification_scope 0 "" Campus.registrar [] Campus.hallBody Campus.archive
        Campus.archive.users Campus.hallNotice Campus.eeStudent).1.mpr (by decide),
      fun h => absurd ((C25_notification_scope 0 "" Campus.registrar [] Campus.hallBody
        Campus.archive Campus.archive.users Campus.hallNotice Campus.csStudent).1.mp h).2.2.2.2
        (by decide),
      fun h => absurd ((C25_notification_scope 0 "" Campus.registrar [] Campus.hallBody
        Campus.archive Campus.archive.users Campus.hallNotice Campus.registrar).2.1 h).1
        (by decide)⟩,
    by decide⟩

/-- C26, evaluated where it fails: the poster of `orphanNotice` has been
deleted, so its populated owner is null; the single-item fetch and the
attachment download of the notices route answer 500 for a student and for the
administrator instead of allowing or denying, while the notice listing and
the document listing answer for the same database. -/
theorem C26_orphan_notice_raises :
    populate Campus.archive.users Campus.orphanNotice.postedBy = none
      ∧ findNotice Campus.archive Campus.orphanNotice._id = some Campus.orphanNotice
      ∧ getNotice hexObjectId Campus.csStudent Campus.orphanNotice._id Campus.archive
          = .serverError
      ∧ getNotice hexObjectId Campus.registrar Campus.orphanNotice._id Campus.archive
          = .serverError
      ∧ downloadAttachment hexObjectId Campus.csStudent Campus.orphanNotice._id "0"
          Campus.archive = (.serverError, Campus.archive)
      ∧ downloadAttachment hexObjectId Campus.registrar Campus.orphanNotice._id "0"
          Campus.archive = (.serverError, Campus.archive)
      ∧ (listNotices 5000 Campus.csStudent (noCategory 1 10) Campus.archive).notices.length = 1
      ∧ (listDocuments rxNone asciiLower 5000 Campus.csStudent (noFilters 1 10) Campus.archive).count
          = 0 := by
  decide

/-- C27: for a student or faculty actor, two document listing requests that
differ only in the department filter have the same answer: the same items in
the same order, the same count and the same total. -/
theorem C27_department_filter_ignored (rx : String → String → Bool)
    (toLowerCase : String → String) (now : Nat)
    (actor : User) (f : DocumentFilters) (db : Db) (d1 d2 : Option String)
    (hrole : actor.role = "student" ∨ actor.role = "faculty") :
    listDocuments rx toLowerCase now actor { f with department := d1 } db
      = listDocuments rx toLowerCase now actor { f with department := d2 } db := by
  have hq : ∀ d, documentQuery rx actor { f with department := d } = documentQuery rx actor f := by
    intro d
    funext x
    rcases hrole with h | h <;> simp [documentQuery, h]
  have hp : ∀ d, projectNotice toLowerCase { f with department := d } db.users
      = projectNotice toLowerCase f db.users := by
    intro d
    funext n
    simp only [projectNotice, projectionPasses]
  simp only [listDocuments, visibleDocuments, hq, noticeAttachments, hp]

/-- An instance of C27 on the campus, and the contrast: the CS student gets
the same answer with and without the department filter EE, the registrar
does not. -/
theorem C27_instance :
    listDocuments rxNone asciiLower Campus.now Campus.csStudent
        { noFilters 1 10 with department := some "EE" } Campus.db
      = listDocuments rxNone asciiLower Campus.now Campus.csStudent
          { noFilters 1 10 with department := none } Campus.db
      ∧ (listDocuments rxNone asciiLower Campus.now Campus.registrar
            { noFilters 1 10 with department := some "CS" } Campus.db).total
        ≠ (listDocuments rxNone asciiLower Campus.now Campus.registrar
            { noFilters 1 10 with department := none } Campus.db).total :=
  ⟨C27_department_filter_ignored rxNone asciiLower Campus.now Campus.csStudent (noFilters 1 10)
      Campus.db (some "EE") none (Or.inl (by decide)),
    by decide⟩

/-! ## Downloads of one item by several requests -/

theorem downloadRegular_loadRegular (isObjectId : String → Bool) (now : Nat) (actor : User)
    (id : String) (db : Db) :
    downloadRegular isObjectId now actor id db
      = thenStore now db (loadRegular isObjectId actor id db) := by
  unfold downloadRegular loadRegular
  by_cases h1 : isObjectId id = true
  · cases hf : findDocument db id with
    | none => simp [h1, thenStore]
    | some d =>
      by_cases h2 : documentDownloadDenied actor d (populate db.users d.uploadedBy) = true
      · simp [h1, h2, thenStore]
      · by_cases h3 : existsSync db d.path = true
        · simp [h1, h2, h3, thenStore, downloadStore]
        · simp [h1, h2, h3, thenStore]
  · simp [h1, thenStore]

theorem downloadDocument_twoSteps (isObjectId : String → Bool) (now : Nat) (actor : User)
    (id : String) (db : Db) :
    downloadDocument isObjectId now actor id db
      = downloadTwoSteps isObjectId now actor id db := by
  have reg := downloadRegular_loadRegular isObjectId now actor id db
  unfold downloadDocument downloadTwoSteps downloadLoad
  by_cases hp : "notice_".toList.isPrefixOf id.toList = true
  · simp only [hp, if_true]
    generalize splitUnderscore id.toList [] = l
    rcases l with _ | ⟨p, _ | ⟨nid, _ | ⟨idx, _ | ⟨x, t⟩⟩⟩⟩
    · exact reg
    · exact reg
    · exact reg
    · dsimp only
      by_cases h1 : isObjectId (String.mk nid) = true
      · simp only [h1, Bool.not_true, Bool.false_eq_true, if_false]
        cases h2 : findNotice db (String.mk nid) with
        | none => rfl
        | some notice =>
          dsimp only
          cases h3 : jsIndex notice.attachments (parseInt idx) with
          | none => rfl
          | some ka =>
            obtain ⟨k, a⟩ := ka
            dsimp only
            by_cases h4 : attachmentDownloadDenied actor notice
                (populate db.users notice.postedBy) = true
            · simp only [h4, if_true]
              rfl
            · by_cases h5 : existsSync db a.path = true
              · simp [h4, h5, thenStore, downloadStore]
              · simp [h4, h5, thenStore]
      · simp [h1, thenStore]
    · exact reg
  · simp only [hp, Bool.false_eq_true, if_false]
    exact reg

theorem documentDownloadDenied_congr (actor : User) (d e : Document) (c : Option Creator)
    (h1 : e.accessLevel = d.accessLevel) (h2 : e.department = d.department) :
    documentDownloadDenied actor e c = documentDownloadDenied actor d c := by
  simp only [documentDownloadDenied, h1, h2]

theorem findDocument_counted (now : Nat) (d : Document) (db : Db) (id : String)
    (hf : findDocument db id = some d) :
    findDocument
        (saveDocument db
          { d with downloadCount := d.downloadCount + 1, updatedAt := now }) id
      = some { d with downloadCount := d.downloadCount + 1, updatedAt := now } := by
  rw [findDocument_saveDocument, hf]
  simp

theorem runOps_downloads (isObjectId : String → Bool) (id : String)
    (hreg : "notice_".toList.isPrefixOf id.toList = false) (hoid : isObjectId id = true)
    (requests : List (Nat × User)) :
    ∀ (db : Db) (d : Document), findDocument db id = some d → validDocument d = true →
      (∀ r ∈ requests,
        documentDownloadDenied r.2 d (populate db.users d.uploadedBy) = false) →
      existsSync db d.path = true →
      ∃ e, findDocument (runOps isObjectId db (downloadRequests id requests)) id = some e
        ∧ e.downloadCount = d.downloadCount + requests.length := by
  induction requests with
  | nil =>
    intro db d hf _ _ _
    exact ⟨d, hf, rfl⟩
  | cons r requests ih =>
    intro db d hf hvalid hden hfile
    have hstep : (downloadDocument isObjectId r.1 r.2 id db).2
        = saveDocument db
            { d with downloadCount := d.downloadCount + 1, updatedAt := r.1 } := by
      simp only [downloadDocument, hreg, Bool.false_eq_true, if_false, downloadRegular, hoid,
        Bool.not_true, hf, hden r (List.mem_cons_self _ _), hfile, validDocument_count,
        hvalid]
    obtain ⟨e2, he2, hcount2⟩ := ih _ _ (findDocument_counted r.1 d db id hf) hvalid
      (fun r2 hr2 => hden r2 (List.mem_cons_of_mem _ hr2)) hfile
    refine ⟨e2, ?_, ?_⟩
    · simp only [downloadRequests, List.map_cons, runOps, List.foldl_cons, applyOp, hstep]
      exact he2
    · rw [hcount2, List.length_cons]
      show d.downloadCount + 1 + requests.length = d.downloadCount + (requests.length + 1)
      omega

theorem downloadInterleaved_document (isObjectId : String → Bool) (id : String) (db : Db)
    (d : Document) (now1 now2 : Nat) (actor1 actor2 : User)
    (hreg : "notice_".toList.isPrefixOf id.toList = false) (hoid : isObjectId id = true)
    (hfind : findDocument db id = some d) (hvalid : validDocument d = true)
    (hallow1 : documentDownloadDenied actor1 d (populate db.users d.uploadedBy) = false)
    (hallow2 : documentDownloadDenied actor2 d (populate db.users d.uploadedBy) = false)
    (hfile : existsSync db d.path = true) :
    ∃ db2 e, downloadInterleaved isObjectId now1 now2 actor1 actor2 id db
        = some (.download d.path d.originalName, .download d.path d.originalName, db2)
      ∧ findDocument db2 id = some e
      ∧ e.downloadCount = d.downloadCount + 1 := by
  have hid := findDocument_id hfind
  have hl1 : downloadLoad isObjectId actor1 id db = .ok (.document d) := by
    simp only [downloadLoad, hreg, Bool.false_eq_true, if_false, loadRegular, hoid,
      Bool.not_true, hfind, hallow1, hfile]
  have hl2 : downloadLoad isObjectId actor2 id db = .ok (.document d) := by
    simp only [downloadLoad, hreg, Bool.false_eq_true, if_false, loadRegular, hoid,
      Bool.not_true, hfind, hallow2, hfile]
  refine ⟨(downloadStore now2 (.document d) (downloadStore now1 (.document d) db).2).2,
    { d with downloadCount := d.downloadCount + 1, updatedAt := now2 }, ?_, ?_, rfl⟩
  · simp only [downloadInterleaved, hl1, hl2, downloadStore, validDocument_count, hvalid,
      Bool.not_true, Bool.false_eq_true, if_false]
  · simp only [downloadStore, validDocument_count, hvalid, Bool.not_true, Bool.false_eq_true,
      if_false]
    rw [findDocument_saveDocument, findDocument_saveDocument, hfind]
    simp [hid]

theorem attachmentDownloadDenied_congr (actor : User) (n m : Notice) (c : Option Creator)
    (h1 : m.targetAudience = n.targetAudience) (h2 : m.department = n.department) :
    attachmentDownloadDenied actor m c = attachmentDownloadDenied actor n c := by
  simp only [attachmentDownloadDenied, h1, h2]

theorem findNotice_bumped (now : Nat) (n : Notice) (i : Nat) (a : Attachment) (db : Db)
    (hfind : findNotice db n._id = some n) (ha : n.attachments[i]? = some a) :
    ∃ m b, findNotice (saveNotice db { bumpAttachment n i a with updatedAt := now }) n._id
        = some m
      ∧ m._id = n._id ∧ m.attachments[i]? = some b
      ∧ b.downloadCount.getD 0 = a.downloadCount.getD 0 + 1 ∧ b.path = a.path
      ∧ b.filename = a.filename
      ∧ m.targetAudience = n.targetAudience ∧ m.department = n.department
      ∧ m.postedBy = n.postedBy ∧ validNotice m = validNotice n := by
  have hi : i < n.attachments.length := by
    rcases Nat.lt_or_ge i n.attachments.length with h | h
    · exact h
    · rw [List.getElem?_eq_none h] at ha
      cases ha
  refine ⟨{ bumpAttachment n i a with updatedAt := now },
    { a with downloadCount := some (a.downloadCount.getD 0 + 1) }, ?_, rfl, ?_, rfl, rfl, rfl,
    rfl, rfl, rfl, rfl⟩
  · rw [findNotice_saveNotice, hfind]
    simp [bumpAttachment]
  · simp [bumpAttachment, hi]

theorem runOps_attachment_downloads (isObjectId : String → Bool) (N : String) (i : Nat)
    (hN : '_' ∉ N.toList) (hoid : isObjectId N = true) (requests : List (Nat × User)) :
    ∀ (db : Db) (n : Notice) (a : Attachment), findNotice db N = some n → n._id = N →
      n.attachments[i]? = some a → validNotice n = true →
      (∀ r ∈ requests,
        attachmentDownloadDenied r.2 n (populate db.users n.postedBy) = false) →
      existsSync db a.path = true →
      ∃ m b, findNotice (runOps isObjectId db (downloadRequests (syntheticId N i) requests)) N
          = some m
        ∧ m.attachments[i]? = some b
        ∧ b.downloadCount.getD 0 = a.downloadCount.getD 0 + requests.length := by
  induction requests with
  | nil =>
    intro db n a hf _ ha _ _ _
    exact ⟨n, a, hf, ha, rfl⟩
  | cons r requests ih =>
    intro db n a hf hnid ha hvalid hden hfile
    subst hnid
    have hstep : (downloadDocument isObjectId r.1 r.2 (syntheticId n._id i) db).2
        = saveNotice db { bumpAttachment n i a with updatedAt := r.1 } := by
      unfold syntheticId
      rw [downloadDocument_attachment isObjectId r.1 r.2 db n i a hN hf hoid ha]
      simp only [hden r (List.mem_cons_self _ _), hfile, hvalid, Bool.not_true,
        Bool.false_eq_true, if_false]
    obtain ⟨m, b, hm, hmid, hb, hcount, hpath, -, haud, hdep, hposted, hv⟩ :=
      findNotice_bumped r.1 n i a db hf ha
    have hden2 : ∀ r2 ∈ requests, attachmentDownloadDenied r2.2 m
        (populate (saveNotice db { bumpAttachment n i a with updatedAt := r.1 }).users
          m.postedBy) = false := by
      intro r2 hr2
      rw [hposted, attachmentDownloadDenied_congr r2.2 n m _ haud hdep]
      exact hden r2 (List.mem_cons_of_mem _ hr2)
    have hfile2 : existsSync (saveNotice db { bumpAttachment n i a with updatedAt := r.1 })
        b.path = true := by
      rw [hpath]
      exact hfile
    obtain ⟨m2, b2, hm2, hb2, hcount2⟩ := ih _ m b hm hmid hb (hv.trans hvalid) hden2 hfile2
    refine ⟨m2, b2, ?_, hb2, ?_⟩
    · simp only [downloadRequests, List.map_cons, runOps, List.foldl_cons, applyOp, hstep]
      exact hm2
    · rw [hcount2, hcount, List.length_cons]
      omega

theorem downloadLoad_attachment (isObjectId : String → Bool) (actor : User)
    (db : Db) (n : Notice) (i : Nat) (a : Attachment)
    (hN : '_' ∉ n._id.toList)
    (hfind : findNotice db n._id = some n)
    (hoid : isObjectId n._id = true)
    (ha : n.attachments[i]? = some a)
    (hallow : attachmentDownloadDenied actor n (populate db.users n.postedBy) = false)
    (hfile : existsSync db a.path = true) :
    downloadLoad isObjectId actor (syntheticId n._id i) db = .ok (.attachment n i a) := by
  obtain ⟨-, hstart, hsplit⟩ := split_syntheticId n._id i hN
  have hidx : jsIndex n.attachments (some (i : Int)) = some (i, a) := by
    show (n.attachments[i]?).map (fun a => (i, a)) = some (i, a)
    rw [ha]
    rfl
  have hmk : String.mk n._id.toList = n._id := rfl
  simp only [downloadLoad, syntheticId, hstart, if_true, hsplit, parseInt_toString, hmk, hoid,
    Bool.not_true, Bool.false_eq_true, if_false, hfind, hidx, hallow, hfile]

theorem downloadInterleaved_attachment (isObjectId : String → Bool) (db : Db) (n : Notice)
    (i : Nat) (a : Attachment) (now1 now2 : Nat) (actor1 actor2 : User)
    (hN : '_' ∉ n._id.toList)
    (hfind : findNotice db n._id = some n)
    (hoid : isObjectId n._id = true)
    (ha : n.attachments[i]? = some a) (hvalid : validNotice n = true)
    (hallow1 : attachmentDownloadDenied actor1 n (populate db.users n.postedBy) = false)
    (hallow2 : attachmentDownloadDenied actor2 n (populate db.users n.postedBy) = false)
    (hfile : existsSync db a.path = true) :
    ∃ db2 m b, downloadInterleaved isObjectId now1 now2 actor1 actor2 (syntheticId n._id i) db
        = some (.download a.path a.filename, .download a.path a.filename, db2)
      ∧ findNotice db2 n._id = some m ∧ m.attachments[i]? = some b
      ∧ b.downloadCount.getD 0 = a.downloadCount.getD 0 + 1 := by
  have hl1 := downloadLoad_attachment isObjectId actor1 db n i a hN hfind hoid ha hallow1 hfile
  have hl2 := downloadLoad_attachment isObjectId actor2 db n i a hN hfind hoid ha hallow2 hfile
  obtain ⟨m1, -, hm1, hm1id, -⟩ := findNotice_bumped now1 n i a db hfind ha
  have hi : i < n.attachments.length := by
    rcases Nat.lt_or_ge i n.attachments.length with h | h
    · exact h
    · rw [List.getElem?_eq_none h] at ha
      cases ha
  refine ⟨(downloadStore now2 (.attachment n i a) (downloadStore now1 (.attachment n i a) db).2).2,
    { bumpAttachment n i a with updatedAt := now2 },
    { a with downloadCount := some (a.downloadCount.getD 0 + 1) }, ?_, ?_, ?_, rfl⟩
  · simp only [downloadInterleaved, hl1, hl2, downloadStore, validNotice_bumpAttachment, hvalid,
      Bool.not_true, Bool.false_eq_true, if_false]
  · simp only [downloadStore, validNotice_bumpAttachment, hvalid, Bool.not_true,
      Bool.false_eq_true, if_false]
    rw [findNotice_saveNotice, hm1]
    simp [bumpAttachment, hm1id]
  · simp [bumpAttachment, hi]

/-- C28, as worded, fails: two requests of the CS student for `openDocument`
(count 3) that both load the document before either saves are both answered
with the file, and the stored count is 4, one higher and not two; and two such
requests for attachment 0 of `timetableNotice` (count 0) leave its count at
1. -/
theorem C28_counterexample :
    Campus.openDocument.downloadCount = 3
      ∧ (downloadInterleaved hexObjectId 5000 5001 Campus.csStudent Campus.csStudent
            Campus.openDocument._id Campus.db).map
          (fun r => (r.1, r.2.1, (findDocument r.2.2 Campus.openDocument._id).map
            (fun d => d.downloadCount)))
        = some (.download Campus.openDocument.path Campus.openDocument.originalName,
            .download Campus.openDocument.path Campus.openDocument.originalName, some 4)
      ∧ Campus.timetable.downloadCount = some 0
      ∧ (downloadInterleaved hexObjectId 5000 5001 Campus.csStudent Campus.csStudent
            (syntheticId Campus.timetableNotice._id 0) Campus.db).map
          (fun r => (r.1, r.2.1, (findNotice r.2.2 Campus.timetableNotice._id).map
            (fun n => n.attachments.map (fun a => a.downloadCount))))
        = some (.download Campus.timetable.path Campus.timetable.filename,
            .download Campus.timetable.path Campus.timetable.filename, some [some 1]) := by
  decide

/-- C28, amended. (1) For a stored Document whose id can be cast, whose file is
on disk, whose record passes the validators of the schema and which the policy
allows to each requesting actor: n downloads handled one after the other
leave downloadCount exactly n higher, and of two downloads that both load the
Document before either saves, both are answered with the file and
downloadCount ends one higher, not two. (2) The same for attachment `i` of a
stored notice, downloaded through the documents route by its synthetic id.
(3) Every request to the download handler is its load followed by its save of
the loaded copy with the counter raised. -/
theorem C28_downloads_one_after_the_other (isObjectId : String → Bool) :
    (∀ (id : String) (db : Db) (d : Document) (requests : List (Nat × User)),
        "notice_".toList.isPrefixOf id.toList = false → isObjectId id = true →
        findDocument db id = some d → validDocument d = true →
        (∀ r ∈ requests,
          documentDownloadDenied r.2 d (populate db.users d.uploadedBy) = false) →
        existsSync db d.path = true →
        (∃ e, findDocument (runOps isObjectId db (downloadRequests id requests)) id = some e
            ∧ e.downloadCount = d.downloadCount + requests.length)
          ∧ (∀ r1 ∈ requests, ∀ r2 ∈ requests,
              ∃ db2 e, downloadInterleaved isObjectId r1.1 r2.1 r1.2 r2.2 id db
                  = some (.download d.path d.originalName, .download d.path d.originalName,
                      db2)
                ∧ findDocument db2 id = some e
                ∧ e.downloadCount = d.downloadCount + 1))
      ∧ (∀ (db : Db) (n : Notice) (i : Nat) (a : Attachment) (requests : List (Nat × User)),
          '_' ∉ n._id.toList → isObjectId n._id = true →
          findNotice db n._id = some n → n.attachments[i]? = some a →
          validNotice n = true →
          (∀ r ∈ requests,
            attachmentDownloadDenied r.2 n (populate db.users n.postedBy) = false) →
          existsSync db a.path = true →
          (∃ m b, findNotice
                (runOps isObjectId db (downloadRequests (syntheticId n._id i) requests))
                n._id = some m
              ∧ m.attachments[i]? = some b
              ∧ b.downloadCount.getD 0 = a.downloadCount.getD 0 + requests.length)
            ∧ (∀ r1 ∈ requests, ∀ r2 ∈ requests,
                ∃ db2 m b, downloadInterleaved isObjectId r1.1 r2.1 r1.2 r2.2
                    (syntheticId n._id i) db
                    = some (.download a.path a.filename, .download a.path a.filename, db2)
                  ∧ findNotice db2 n._id = some m ∧ m.attachments[i]? = some b
                  ∧ b.downloadCount.getD 0 = a.downloadCount.getD 0 + 1))
      ∧ (∀ now actor id db, downloadDocument isObjectId now actor id db
          = downloadTwoSteps isObjectId now actor id db) := by
  refine ⟨?_, ?_, downloadDocument_twoSteps isObjectId⟩
  · intro id db d requests hreg hoid hfind hvalid hallow hfile
    exact ⟨runOps_downloads isObjectId id hreg hoid requests db d hfind hvalid hallow hfile,
      fun r1 h1 r2 h2 => downloadInterleaved_document isObjectId id db d r1.1 r2.1 r1.2 r2.2
        hreg hoid hfind hvalid (hallow r1 h1) (hallow r2 h2) hfile⟩
  · intro db n i a requests hN hoid hfind ha hvalid hallow hfile
    exact ⟨runOps_attachment_downloads isObjectId n._id i hN hoid requests db n a hfind rfl ha
        hvalid hallow hfile,
      fun r1 h1 r2 h2 => downloadInterleaved_attachment isObjectId db n i a r1.1 r2.1 r1.2
        r2.2 hN hfind hoid ha hvalid (hallow r1 h1) (hallow r2 h2) hfile⟩

/-- Instances of C28: three downloads of `openDocument` by the CS student, one
after the other, raise its count from 3 to 6, and two downloads of attachment
0 of `timetableNotice` raise its count from 0 to 2. -/
theorem C28_instance :
    (findDocument
        (runOps hexObjectId Campus.db
          (downloadRequests Campus.openDocument._id
            [(5000, Campus.csStudent), (5001, Campus.csStudent), (5002, Campus.csStudent)]))
        Campus.openDocument._id).map (fun d => d.downloadCount) = some 6
      ∧ ∃ m b, findNotice
            (runOps hexObjectId Campus.db
              (downloadRequests (syntheticId Campus.timetableNotice._id 0)
                [(5000, Campus.csStudent), (5001, Campus.csStudent)]))
            Campus.timetableNotice._id = some m
          ∧ m.attachments[0]? = some b ∧ b.downloadCount.getD 0 = 2 := by
  constructor
  · obtain ⟨e, he, hcount⟩ := ((C28_downloads_one_after_the_other hexObjectId).1
      Campus.openDocument._id Campus.db Campus.openDocument
      [(5000, Campus.csStudent), (5001, Campus.csStudent), (5002, Campus.csStudent)]
      (by decide) (by decide) (by decide) (by decide) (by decide) (by decide)).1
    rw [he, Option.map_some', hcount]
    decide
  · obtain ⟨m, b, hm, hb, hcount⟩ := ((C28_downloads_one_after_the_other hexObjectId).2.1
      Campus.db Campus.timetableNotice 0 Campus.timetable
      [(5000, Campus.csStudent), (5001, Campus.csStudent)]
      (by decide) (by decide) (by decide) (by decide) (by decide) (by decide) (by decide)).1
    exact ⟨m, b, hm, hb, by rw [hcount]; decide⟩

/-! ## Pages beyond the last page of documents -/

theorem listDocuments_of_empty_slice (rx : String → String → Bool)
    (toLowerCase : String → String) (now : Nat) (actor : User)
    (f : DocumentFilters) (db : Db) (hl : 0 ≤ f.limit)
    (hne : noticeAttachments toLowerCase now actor f db ≠ [])
    (hempty : jsSlice (visibleDocuments rx actor f db) ((f.page - 1) * f.limit)
      (f.page * f.limit) = []) :
    listDocuments rx toLowerCase now actor f db
      = { count := min f.limit.toNat (noticeAttachments toLowerCase now actor f db).length
          total := (visibleDocuments rx actor f db).length
            + (noticeAttachments toLowerCase now actor f db).length
          documents :=
            (sortNewestFirst Listed.createdAt
              ((noticeAttachments toLowerCase now actor f db).map Listed.attachment)).take f.limit.toNat } := by
  have hpos : (noticeAttachments toLowerCase now actor f db).length > 0 := List.length_pos.mpr hne
  simp only [listDocuments, hempty, List.map_nil, List.nil_append, List.length_map, hpos,
    if_true, jsSlice_first _ _ hl, sortNewestFirst]
  simp only [List.length_take, List.length_insertionSort, List.length_map]

/-- C29: the projections merged into the result are the same for every page
number; and when at least one projection exists, the limit is not negative and
the page's slice of Documents is empty, the returned list is the first limit
projections in order of creation, newest first, count is the minimum of the
limit and the number of projections, the answer is the same for every page
whose slice of Documents is empty, and every page (from 1) that starts at or
after the number of visible Documents is such a page. -/
theorem C29_projections_not_paginated (rx : String → String → Bool)
    (toLowerCase : String → String) (now : Nat)
    (actor : User) (f : DocumentFilters) (db : Db) (hlimit : 0 ≤ f.limit)
    (hsome : noticeAttachments toLowerCase now actor f db ≠ [])
    (hempty : jsSlice (visibleDocuments rx actor f db) ((f.page - 1) * f.limit)
      (f.page * f.limit) = []) :
    (∀ page, noticeAttachments toLowerCase now actor { f with page := page } db
        = noticeAttachments toLowerCase now actor f db)
      ∧ (listDocuments rx toLowerCase now actor f db).documents
          = (sortNewestFirst Listed.createdAt
              ((noticeAttachments toLowerCase now actor f db).map Listed.attachment)).take f.limit.toNat
      ∧ (listDocuments rx toLowerCase now actor f db).count
          = min f.limit.toNat (noticeAttachments toLowerCase now actor f db).length
      ∧ (∀ page, jsSlice (visibleDocuments rx actor f db) ((page - 1) * f.limit)
            (page * f.limit) = [] →
          listDocuments rx toLowerCase now actor { f with page := page } db
            = listDocuments rx toLowerCase now actor f db)
      ∧ (∀ page, 1 ≤ page →
          ((visibleDocuments rx actor f db).length : Int) ≤ (page - 1) * f.limit →
          jsSlice (visibleDocuments rx actor f db) ((page - 1) * f.limit) (page * f.limit)
            = []) := by
  have h2 := listDocuments_of_empty_slice rx toLowerCase now actor f db hlimit hsome hempty
  refine ⟨fun _ => rfl, by rw [h2], by rw [h2], fun page hp => ?_, fun page hp hlen => ?_⟩
  · have h1 := listDocuments_of_empty_slice rx toLowerCase now actor { f with page := page } db hlimit
      hsome hp
    exact h1.trans h2.symm
  · rw [jsSlice_page _ _ _ hp hlimit, List.drop_eq_nil_of_le, List.take_nil]
    have hs : 0 ≤ (page - 1) * f.limit := mul_nonneg (by omega) hlimit
    omega

/-- An instance of C29 on the feed (two documents, one projection, limit 2):
page 5 returns the projection alone, with count 1, as page 2 does. -/
theorem C29_instance :
    (listDocuments rxNone asciiLower Campus.now Campus.csStudent (noFilters 5 2) Campus.feed).documents
        = [.attachment
            (projectAttachment Campus.timetableNotice (some Campus.registrarCreator) 0
              Campus.timetable)]
      ∧ (listDocuments rxNone asciiLower Campus.now Campus.csStudent (noFilters 5 2) Campus.feed).count = 1
      ∧ listDocuments rxNone asciiLower Campus.now Campus.csStudent
          { noFilters 5 2 with page := 2 } Campus.feed
        = listDocuments rxNone asciiLower Campus.now Campus.csStudent (noFilters 5 2) Campus.feed :=
  ⟨(C29_projections_not_paginated rxNone asciiLower Campus.now Campus.csStudent (noFilters 5 2)
      Campus.feed (by decide) (by decide) (by decide)).2.1.trans (by decide),
    (C29_projections_not_paginated rxNone asciiLower Campus.now Campus.csStudent (noFilters 5 2)
      Campus.feed (by decide) (by decide) (by decide)).2.2.1.trans (by decide),
    (C29_projections_not_paginated rxNone asciiLower Campus.now Campus.csStudent (noFilters 5 2)
      Campus.feed (by decide) (by decide) (by decide)).2.2.2.1 2 (by decide)⟩

/-! ## A removal list that names one index twice -/

theorem eraseIdx_eraseIdx_same {α : Type} :
    ∀ (A : List α) (i : Nat), (A.eraseIdx i).eraseIdx i = A.take i ++ A.drop (i + 2)
  | [], i => by simp
  | [a], 0 => by simp
  | a :: b :: t, 0 => by simp
  | a :: t, i + 1 => by simp [eraseIdx_eraseIdx_same t i]

theorem eraseIdx_succ_eraseIdx {α : Type} :
    ∀ (A : List α) (i : Nat), (A.eraseIdx (i + 1)).eraseIdx i = A.take i ++ A.drop (i + 2)
  | [], i => by simp
  | [a], 0 => by simp
  | a :: b :: t, 0 => by simp
  | a :: t, i + 1 => by simp [eraseIdx_succ_eraseIdx t i]

theorem eraseStep_in_range (A : List Attachment) (i : Nat) (h : i < A.length) :
    eraseStep A (i : Int) = A.eraseIdx i := by
  unfold eraseStep
  rw [if_pos ⟨by omega, by omega⟩]
  simp

theorem removeAttachments_twice (A : List Attachment) (files : List String) (i : Nat)
    (h : i + 1 < A.length) :
    (removeAttachments A files [(i : Int), (i : Int)]).1 = A.take i ++ A.drop (i + 2) := by
  have hs : sortDescending [(i : Int), (i : Int)] = [(i : Int), (i : Int)] := by
    simp [sortDescending, List.insertionSort, List.orderedInsert]
  have hl : i < (A.eraseIdx i).length := by
    rw [List.length_eraseIdx]
    split <;> omega
  unfold removeAttachments
  rw [foldl_removeStep_fst, hs]
  simp only [List.foldl_cons, List.foldl_nil]
  rw [eraseStep_in_range A i (by omega), eraseStep_in_range _ i hl, eraseIdx_eraseIdx_same]

theorem kept_neighbours (A : List Attachment) (i : Nat) (h : i + 1 < A.length) :
    kept A [(i : Int), ((i + 1 : Nat) : Int)] = A.take i ++ A.drop (i + 2) := by
  have hk : kept A [((i + 1 : Nat) : Int), (i : Int)] = kept A [(i : Int), ((i + 1 : Nat) : Int)] :=
    keptFrom_congr A _ _ 0 (fun j _ _ => by simp [or_comm])
  have hpair : [((i + 1 : Nat) : Int), (i : Int)].Pairwise (fun a b => b < a) :=
    List.pairwise_cons.mpr ⟨fun b hb => by
      simp only [List.mem_singleton] at hb
      omega, List.pairwise_singleton _ _⟩
  have hin : ∀ r ∈ [((i + 1 : Nat) : Int), (i : Int)], 0 ≤ r ∧ r < (A.length : Int) := by
    intro r hr
    simp only [List.mem_cons, List.mem_singleton, List.not_mem_nil, or_false] at hr
    rcases hr with rfl | rfl <;> omega
  have hl : i < (A.eraseIdx (i + 1)).length := by
    rw [List.length_eraseIdx]
    split <;> omega
  rw [← hk, ← foldl_eraseStep_eq_kept _ A hpair hin]
  simp only [List.foldl_cons, List.foldl_nil]
  rw [eraseStep_in_range A (i + 1) h, eraseStep_in_range _ i hl, eraseIdx_succ_eraseIdx]

theorem updateNotice_removal (isObjectId : String → Bool) (now : Nat) (actor : User)
    (id : String) (body : NoticeBody) (files : List UploadedFile) (db : Db) (n : Notice)
    (R : List Int)
    (hauth : actor.role = "admin" ∨ (actor.role = "faculty" ∧ n.postedBy = actor._id))
    (hoid : isObjectId id = true) (hfind : findNotice db id = some n)
    (hbody : body.removeAttachments = some R)
    (hvalid : validNotice (applyNoticeBody actor body n) = true) :
    ∃ stored, (updateNotice isObjectId now actor id body files db).1
          = .notice stored (populate db.users n.postedBy)
      ∧ findNotice (updateNotice isObjectId now actor id body files db).2 id = some stored
      ∧ stored.attachments
          = (removeAttachments n.attachments (storeFiles db files).files R).1
            ++ files.map newAttachment := by
  have hauth1 : authorize ["admin", "faculty"] actor = true := by
    rcases hauth with h | ⟨h, _⟩ <;> simp [authorize, h]
  have hown : (actor.role == "faculty" && n.postedBy != actor._id) = false := by
    rcases hauth with h | ⟨_, h⟩ <;> simp [h]
  have hfind2 : findNotice (storeFiles db files) id = some n := hfind
  have hnid := findNotice_id hfind
  simp only [updateNotice, hauth1, Bool.not_true, Bool.false_eq_true, if_false, hoid, hfind2,
    hown, hbody, validNotice_attachments, hvalid]
  split
  · rename_i heq
    have heq2 := of_decide_eq_true heq
    refine ⟨n, rfl, hfind, ?_⟩
    have := congrArg Notice.attachments heq2
    simpa [applyNoticeBody] using this.symm
  · refine ⟨_, rfl, ?_, rfl⟩
    rw [findNotice_saveNotice, findNotice_files, hfind2]
    simp [applyNoticeBody, hnid]

/-- C30: an update of a stored notice by an admin or by its faculty owner
whose removal list is [i, i], with i + 1 smaller than the number of
attachments, succeeds and stores the old attachments without those at the
positions i and i + 1, followed by the uploaded files: two attachments are
removed, the second of which, at the original position i + 1, the request did
not name. -/
theorem C30_duplicate_index_removes_neighbour (isObjectId : String → Bool) (now : Nat)
    (actor : User) (id : String) (body : NoticeBody) (files : List UploadedFile) (db : Db)
    (n : Notice) (i : Nat)
    (hauth : actor.role = "admin" ∨ (actor.role = "faculty" ∧ n.postedBy = actor._id))
    (hoid : isObjectId id = true) (hfind : findNotice db id = some n)
    (hbody : body.removeAttachments = some [(i : Int), (i : Int)])
    (hi : i + 1 < n.attachments.length)
    (hvalid : validNotice (applyNoticeBody actor body n) = true) :
    ∃ stored, (updateNotice isObjectId now actor id body files db).1
          = .notice stored (populate db.users n.postedBy)
      ∧ findNotice (updateNotice isObjectId now actor id body files db).2 id = some stored
      ∧ stored.attachments
          = n.attachments.take i ++ n.attachments.drop (i + 2) ++ files.map newAttachment
      ∧ n.attachments.take i ++ n.attachments.drop (i + 2)
          = kept n.attachments [(i : Int), ((i + 1 : Nat) : Int)]
      ∧ (n.attachments.take i ++ n.attachments.drop (i + 2)).length = n.attachments.length - 2
      ∧ stored.attachments.length = n.attachments.length - 2 + files.length := by
  obtain ⟨stored, hr, hf, ha⟩ := updateNotice_removal isObjectId now actor id body files db n
    [(i : Int), (i : Int)] hauth hoid hfind hbody hvalid
  rw [removeAttachments_twice _ _ i hi] at ha
  have hlen : (n.attachments.take i ++ n.attachments.drop (i + 2)).length
      = n.attachments.length - 2 := by
    rw [List.length_append, List.length_take, List.length_drop]
    omega
  refine ⟨stored, hr, hf, ha, (kept_neighbours n.attachments i hi).symm, hlen, ?_⟩
  rw [ha, List.length_append, hlen, List.length_map]

/-- An instance of C30: the owner of `sheetNotice` sends the removal list
[1, 1]; the stored attachments are the sheets 0, 3 and 4, so sheet 2, which
the request did not name, is gone with sheet 1. -/
theorem C30_instance :
    (findNotice
        (updateNotice hexObjectId 6000 Campus.eeFaculty Campus.sheetNotice._id
          (Campus.removal [1, 1]) [] Campus.board).2
        Campus.sheetNotice._id).map (fun n => n.attachments)
      = some [Campus.sheet 0, Campus.sheet 3, Campus.sheet 4] := by
  obtain ⟨stored, -, hf, ha, -⟩ := C30_duplicate_index_removes_neighbour hexObjectId 6000
    Campus.eeFaculty Campus.sheetNotice._id (Campus.removal [1, 1]) [] Campus.board
    Campus.sheetNotice 1 (Or.inr ⟨by decide, by decide⟩) (by decide) (by decide) rfl
    (by decide) (by decide)
  rw [hf, Option.map_some', ha]
  decide

end DMS
